import Mathlib

/-!
# Verification of the `color_mixer` interpolation engine

A shallow embedding of the repository's color engine
(`src/color_mixer/app.py`, `kubelka.py`, `hct_mixer.py`, `hct_tone.py`,
`main.py`).  Floating-point arithmetic is idealised as exact real
arithmetic (`ℝ`), except for the chroma bisection of `hct_mixer.py`,
whose arithmetic (halving and comparison) is exact and is embedded over
`ℚ` so that witnesses evaluate by `decide`.  External collaborators
(the `coloraide` appearance model and the `colour`-science data tables)
are modelled as abstract parameters, as the spec directs.
-/

noncomputable section

/-- A gamma-encoded sRGB triple, channels nominally in `[0,1]`
(the `np.ndarray` of three floats used throughout `app.py`). -/
structure RGB where
  r : ℝ
  g : ℝ
  b : ℝ

/-- `np.clip(x, 0.0, 1.0)` on one channel (`clamp01` in `app.py`). -/
def clamp01 (x : ℝ) : ℝ := min (max x 0) 1

/-- `clamp01` applied channel-wise (`clamp01` on an array in `app.py`). -/
def clamp01RGB (c : RGB) : RGB := ⟨clamp01 c.r, clamp01 c.g, clamp01 c.b⟩

/-- `np.round` / Python `round`: round to nearest, ties to even. -/
def roundHalfEven (x : ℝ) : ℤ :=
  if Int.fract x = 1/2 then (if Even ⌊x⌋ then ⌊x⌋ else ⌊x⌋ + 1) else round x

/-- Round half away from zero — the rule the spec (and the docstring of
`rgb01_to_hex`, "like `Math.round`") prescribes for the 8-bit conversion. -/
def roundHalfAway (x : ℝ) : ℤ :=
  if 0 ≤ x then ⌊x + 1/2⌋ else -⌊-x + 1/2⌋

/-- One channel of `rgb01_to_hex`: clamp to `[0,1]`, scale by 255 and
round with `np.round` (ties to even), as `app.py` line 62 does. -/
def round8 (x : ℝ) : ℤ := roundHalfEven (clamp01 x * 255)

/-- The three rounded 8-bit channels of a color (the value determining the
hex string `rgb01_to_hex` prints). -/
def round8RGB (c : RGB) : ℤ × ℤ × ℤ := (round8 c.r, round8 c.g, round8 c.b)

/-- Lower-case hex digit. -/
def hexChar (n : ℕ) : Char :=
  if n < 10 then Char.ofNat (48 + n) else Char.ofNat (87 + n)

/-- A byte as two lower-case hex digits (`f"{v:02x}"`). -/
def byteToHex (n : ℕ) : String := String.mk [hexChar (n / 16), hexChar (n % 16)]

/-- `rgb01_to_hex` (`app.py` lines 60–63): clamp, scale, `np.round`,
cast to `uint8`, format as `#rrggbb`.  The rounded value lies in
`[0,255]`, so the `uint8` cast is the `Int.toNat` below. -/
def rgb01ToHex (c : RGB) : String :=
  "#" ++ byteToHex (round8 c.r).toNat ++ byteToHex (round8 c.g).toNat
      ++ byteToHex (round8 c.b).toNat

/-- `lerp` of `app.py`: `(1 - t) * a + t * b` on one channel. -/
def lerpChan (a b t : ℝ) : ℝ := (1 - t) * a + t * b

/-- `lerp` of `app.py` on a triple. -/
def lerpRGB (a b : RGB) (t : ℝ) : RGB :=
  ⟨lerpChan a.r b.r t, lerpChan a.g b.g t, lerpChan a.b b.b t⟩

/-- `srgb_interp` (`app.py` line 186): plain gamma-encoded lerp, no clamp. -/
def srgbInterp (a b : RGB) (t : ℝ) : RGB := lerpRGB a b t

/-- Python's float modulo `x % m` for `m > 0`: result in `[0, m)`. -/
def pymod (x m : ℝ) : ℝ := x - m * ⌊x / m⌋

lemma pymod_one (x : ℝ) : pymod x 1 = Int.fract x := by
  unfold pymod Int.fract
  rw [div_one]
  ring

/-- The `(h, s, v)` step of `okhsv_interp` (`app.py` lines 201–204):
shortest-arc hue, linear `s` and `v`. -/
def okhsvMixHSV (h1 s1 v1 h2 s2 v2 t : ℝ) : ℝ × ℝ × ℝ :=
  let dh := pymod (h2 - h1 + 1/2) 1 - 1/2
  (pymod (h1 + dh * t) 1, s1 + (s2 - s1) * t, v1 + (v2 - v1) * t)

/-- The spec's shortest-arc formula, written from its words:
`dh = ((h2-h1+0.5) mod 1) - 0.5; h = (h1 + dh·t) mod 1`. -/
def specShortArcHue (h1 h2 t : ℝ) : ℝ :=
  Int.fract (h1 + (Int.fract (h2 - h1 + 1/2) - 1/2) * t)

/-- The spec's "ordinary linear lerp". -/
def specLerp (x y t : ℝ) : ℝ := x + (y - x) * t

end

lemma clamp01_of_mem {x : ℝ} (h0 : 0 ≤ x) (h1 : x ≤ 1) : clamp01 x = x := by
  simp [clamp01, max_eq_left h0, min_eq_left h1]

lemma clamp01_mem (x : ℝ) : 0 ≤ clamp01 x ∧ clamp01 x ≤ 1 := by
  unfold clamp01
  constructor
  · exact le_min (le_max_right x 0) (by norm_num)
  · exact min_le_right _ 1

lemma clamp01_clamp01 (x : ℝ) : clamp01 (clamp01 x) = clamp01 x :=
  clamp01_of_mem (clamp01_mem x).1 (clamp01_mem x).2

lemma round8_clamp01 (x : ℝ) : round8 (clamp01 x) = round8 x := by
  unfold round8
  rw [clamp01_clamp01]

lemma roundHalfEven_intCast (n : ℤ) : roundHalfEven (n : ℝ) = n := by
  unfold roundHalfEven
  rw [if_neg (by simp [Int.fract_intCast]), round_intCast]

/-- Ties to even at an exact half step. -/
lemma roundHalfEven_half (n : ℤ) :
    roundHalfEven ((n : ℝ) + 1/2) = if Even n then n else n + 1 := by
  unfold roundHalfEven
  have hfr : Int.fract ((n : ℝ) + 1/2) = 1/2 := by
    rw [add_comm, Int.fract_add_int]
    unfold Int.fract
    norm_num
  have hfl : ⌊(n : ℝ) + 1/2⌋ = n := by
    rw [add_comm, Int.floor_add_int]
    norm_num
  rw [if_pos hfr, hfl]

lemma round8_byte {n : ℕ} (h : n ≤ 255) : round8 ((n : ℝ) / 255) = n := by
  unfold round8
  rw [clamp01_of_mem (by positivity)
      (by rw [div_le_one (by norm_num)]; exact_mod_cast h)]
  rw [div_mul_cancel₀ _ (by norm_num : (255:ℝ) ≠ 0)]
  exact_mod_cast roundHalfEven_intCast (n : ℤ)

/-- **C7.** The 8-bit conversion of `rgb01_to_hex` uses `np.round`,
which rounds ties to even, while both the spec and the function's own
docstring ("like `Math.round`") prescribe round-half-away-from-zero: at
channel `1/510` (whose scaled value is exactly `0.5`) the code yields
byte `0` where the documented rule yields `1`.  The spec's concrete
example is unaffected (`127.5` rounds to `128` under both rules), so
`srgb_interp(#ff0000, #0000ff, 0.5)` still prints `#800080`. -/
theorem c7_round_ties_to_even_code_bug :
    round8 (1/510) = 0 ∧
    roundHalfAway (clamp01 (1/510) * 255) = 1 ∧
    rgb01ToHex ⟨1/510, 0, 0⟩ = "#000000" ∧
    rgb01ToHex (srgbInterp ⟨1, 0, 0⟩ ⟨0, 0, 1⟩ (1/2)) = "#800080" := by
  have hc : clamp01 (1/510 : ℝ) = 1/510 :=
    clamp01_of_mem (by norm_num) (by norm_num)
  have h0 : round8 (0 : ℝ) = 0 := by
    have := round8_byte (n := 0) (by norm_num)
    simpa using this
  have hhalf : round8 (1/510 : ℝ) = 0 := by
    unfold round8
    rw [hc, show (1/510 : ℝ) * 255 = ((0:ℤ) : ℝ) + 1/2 by norm_num,
      roundHalfEven_half]
    simp
  refine ⟨hhalf, ?_, ?_, ?_⟩
  · rw [hc]
    unfold roundHalfAway
    rw [if_pos (by norm_num)]
    rw [show (1/510 : ℝ) * 255 + 1/2 = 1 by norm_num]
    exact_mod_cast Int.floor_intCast (α := ℝ) 1
  · show "#" ++ byteToHex (round8 (1/510)).toNat ++ byteToHex (round8 0).toNat
        ++ byteToHex (round8 0).toNat = "#000000"
    rw [hhalf, h0]
    rfl
  · have hmid : round8 ((1 : ℝ)/2) = 128 := by
      unfold round8
      rw [clamp01_of_mem (by norm_num) (by norm_num),
        show (1/2 : ℝ) * 255 = ((127:ℤ) : ℝ) + 1/2 by norm_num,
        roundHalfEven_half]
      rw [if_neg (by decide)]
      norm_num
    have hA : srgbInterp ⟨1, 0, 0⟩ ⟨0, 0, 1⟩ (1/2) = ⟨1/2, 0, 1/2⟩ := by
      unfold srgbInterp lerpRGB lerpChan
      norm_num
    rw [hA]
    show "#" ++ byteToHex (round8 (1/2)).toNat ++ byteToHex (round8 0).toNat
        ++ byteToHex (round8 (1/2)).toNat = "#800080"
    rw [hmid, h0]
    rfl

/-- **C4.** The OkHSV interpolator's hue is the spec's shortest-arc
interpolation and `s`, `v` are linear lerps; mixing hue 0.95 toward 0.05
at `t = 0.5` yields hue 0 (wrapped), not 0.5. -/
theorem c4_okhsv_shortest_arc :
    (∀ h1 s1 v1 h2 s2 v2 t : ℝ,
      okhsvMixHSV h1 s1 v1 h2 s2 v2 t =
        (specShortArcHue h1 h2 t, specLerp s1 s2 t, specLerp v1 v2 t)) ∧
    (okhsvMixHSV 0.95 0 0 0.05 0 0 (1/2)).1 = 0 ∧
    (okhsvMixHSV 0.95 0 0 0.05 0 0 (1/2)).1 ≠ 1/2 := by
  have key : (okhsvMixHSV 0.95 0 0 0.05 0 0 (1/2)).1 = 0 := by
    simp only [okhsvMixHSV, pymod_one]
    rw [show ((0.05 : ℝ) - 0.95 + 1/2) = -(2/5) by norm_num]
    rw [show Int.fract (-(2/5) : ℝ) = 3/5 by
      unfold Int.fract
      rw [show ⌊(-(2/5) : ℝ)⌋ = -1 by apply Int.floor_eq_iff.mpr; norm_num]
      norm_num]
    rw [show (0.95 : ℝ) + (3/5 - 1/2) * (1/2) = ((1:ℤ):ℝ) by norm_num,
      Int.fract_intCast]
  refine ⟨fun h1 s1 v1 h2 s2 v2 t => ?_, key, by rw [key]; norm_num⟩
  simp only [okhsvMixHSV, pymod_one, specShortArcHue, specLerp, Prod.mk.injEq]

section

variable {K : Type} [LinearOrderedField K]

/-- One iteration of the chroma bisection of `_cmax_cached`
(`hct_mixer.py` lines 64–69): test the midpoint, narrow to the largest
known in-gamut chroma.  The external `in_gamut` test (quantized hue,
quantized tone and gamut name already applied) is the abstract
predicate `inG`.  The chroma arithmetic (halving, comparison) is exact,
so it is stated over any ordered field: `ℚ` for decidable witnesses, `ℝ`
inside the mixer. -/
def cmaxStep (inG : K → Bool) (s : K × K) : K × K :=
  let mid := (s.1 + s.2) / 2
  if inG mid then (mid, s.2) else (s.1, mid)

/-- The bisection loop of `_cmax_cached`, `n` iterations from `(lo, hi)`. -/
def cmaxLoop (inG : K → Bool) : ℕ → K × K → K × K
  | 0, s => s
  | n + 1, s => cmaxLoop inG n (cmaxStep inG s)

/-- `_cmax_cached` (`hct_mixer.py` lines 51–70): if the high bound is
in-gamut return it, else bisect `max(1, int(cmax_iters))` iterations from
`lo = 0` and return `lo`. -/
def cmaxCached (inG : K → Bool) (cmaxHi : K) (cmaxIters : ℤ) : K :=
  if inG cmaxHi then cmaxHi
  else (cmaxLoop inG (max 1 cmaxIters).toNat (0, cmaxHi)).1

end

lemma cmaxLoop_succ (inG : ℚ → Bool) (n : ℕ) (s : ℚ × ℚ) :
    cmaxLoop inG (n + 1) s = cmaxStep inG (cmaxLoop inG n s) := by
  induction n generalizing s with
  | zero => rfl
  | succ n ih =>
      show cmaxLoop inG (n + 1) (cmaxStep inG s) = _
      rw [ih (cmaxStep inG s)]
      rfl

lemma cmaxStep_le (inG : ℚ → Bool) {s : ℚ × ℚ} (h : s.1 ≤ s.2) :
    (cmaxStep inG s).1 ≤ (cmaxStep inG s).2 ∧ s.1 ≤ (cmaxStep inG s).1 := by
  unfold cmaxStep
  by_cases hg : inG ((s.1 + s.2) / 2)
  · rw [if_pos hg]
    exact ⟨by simpa using by linarith, by simpa using by linarith⟩
  · rw [if_neg hg]
    exact ⟨by simpa using by linarith, le_refl _⟩

lemma cmaxLoop_le (inG : ℚ → Bool) (n : ℕ) {s : ℚ × ℚ} (h : s.1 ≤ s.2) :
    (cmaxLoop inG n s).1 ≤ (cmaxLoop inG n s).2 ∧ s.1 ≤ (cmaxLoop inG n s).1 := by
  induction n generalizing s with
  | zero => exact ⟨h, le_refl _⟩
  | succ n ih =>
      have hs := cmaxStep_le inG h
      have := ih hs.1
      exact ⟨this.1, le_trans hs.2 this.2⟩

lemma cmaxLoop_gamut (inG : ℚ → Bool) (n : ℕ) {s : ℚ × ℚ}
    (h : inG s.1 = true) : inG (cmaxLoop inG n s).1 = true := by
  induction n generalizing s with
  | zero => exact h
  | succ n ih =>
      refine ih ?_
      unfold cmaxStep
      by_cases hg : inG ((s.1 + s.2) / 2) <;> simp [hg]
      exact h

lemma cmaxLoop_fuel_mono (inG : ℚ → Bool) {s : ℚ × ℚ} (h : s.1 ≤ s.2)
    {m n : ℕ} (hmn : m ≤ n) :
    (cmaxLoop inG m s).1 ≤ (cmaxLoop inG n s).1 := by
  induction n with
  | zero =>
      rw [Nat.le_zero.mp hmn]
  | succ n ih =>
      rcases Nat.lt_or_ge m (n + 1) with hlt | hge
      · refine le_trans (ih (Nat.lt_succ_iff.mp hlt)) ?_
        rw [cmaxLoop_succ]
        have hp := cmaxLoop_le inG n h
        exact (cmaxStep_le inG hp.1).2
      · rw [Nat.le_antisymm hmn hge]

/-- **C5 (counterexample).** As frozen, the claim quantifies over *every*
high bound and treats the external `in_gamut` test as arbitrary; it then
fails: with high bound `-4` and a predicate rejecting only `-4`, two
iterations return `-3` where one returns `-2` (more budget, smaller
result), and with a predicate that rejects everything (including
chroma 0) the search returns `0`, which that predicate calls
out-of-gamut. -/
theorem c5_counterexample :
    cmaxCached (fun c : ℚ => decide (c ≠ -4)) (-4) 2 <
      cmaxCached (fun c : ℚ => decide (c ≠ -4)) (-4) 1 ∧
    cmaxCached (fun _ : ℚ => false) 120 8 = 0 ∧
    (fun _ : ℚ => false) (cmaxCached (fun _ : ℚ => false) 120 8) = false := by
  have s1 : cmaxStep (fun c : ℚ => decide (c ≠ -4)) (0, -4) = ((-2 : ℚ), -4) := by
    unfold cmaxStep
    norm_num
  have s2 : cmaxStep (fun c : ℚ => decide (c ≠ -4)) (-2, -4) = ((-3 : ℚ), -4) := by
    unfold cmaxStep
    norm_num
  have e1 : cmaxCached (fun c : ℚ => decide (c ≠ -4)) (-4) 1 = (-2 : ℚ) := by
    unfold cmaxCached
    rw [if_neg (by simp)]
    show (cmaxLoop _ 1 (0, -4)).1 = -2
    rw [show cmaxLoop (fun c : ℚ => decide (c ≠ -4)) 1 (0, -4) =
        cmaxLoop (fun c : ℚ => decide (c ≠ -4)) 0 (cmaxStep (fun c : ℚ => decide (c ≠ -4)) (0, -4))
        from rfl, s1]
    rfl
  have e2 : cmaxCached (fun c : ℚ => decide (c ≠ -4)) (-4) 2 = (-3 : ℚ) := by
    unfold cmaxCached
    rw [if_neg (by simp)]
    show (cmaxLoop _ 2 (0, -4)).1 = -3
    rw [show cmaxLoop (fun c : ℚ => decide (c ≠ -4)) 2 (0, -4) =
        cmaxLoop (fun c : ℚ => decide (c ≠ -4)) 1 (cmaxStep (fun c : ℚ => decide (c ≠ -4)) (0, -4))
        from rfl, s1]
    rw [show cmaxLoop (fun c : ℚ => decide (c ≠ -4)) 1 (-2, -4) =
        cmaxLoop (fun c : ℚ => decide (c ≠ -4)) 0 (cmaxStep (fun c : ℚ => decide (c ≠ -4)) (-2, -4))
        from rfl, s2]
    rfl
  have hz : ∀ (n : ℕ) (s : ℚ × ℚ), (cmaxLoop (fun _ : ℚ => false) n s).1 = s.1 := by
    intro n
    induction n with
    | zero => intro s; rfl
    | succ n ih =>
        intro s
        show (cmaxLoop (fun _ : ℚ => false) n (cmaxStep (fun _ : ℚ => false) s)).1 = s.1
        rw [ih]
        unfold cmaxStep
        simp
  have e3 : cmaxCached (fun _ : ℚ => false) 120 8 = 0 := by
    unfold cmaxCached
    rw [if_neg (by simp)]
    rw [hz]
  refine ⟨?_, e3, rfl⟩
  rw [e1, e2]
  norm_num

/-- **C5 (amended).** Provided the in-gamut test accepts chroma 0 (the
spec's "chroma 0 known in-gamut") and the high bound is nonnegative, the
chroma `_cmax_cached` returns is in-gamut, and a larger iteration budget
never returns a smaller chroma. -/
theorem c5_cmax_in_gamut_and_mono (inG : ℚ → Bool) (cmaxHi : ℚ) (k k' : ℤ)
    (h0 : inG 0 = true) (hhi : 0 ≤ cmaxHi) (hk : k ≤ k') :
    inG (cmaxCached inG cmaxHi k) = true ∧
    cmaxCached inG cmaxHi k ≤ cmaxCached inG cmaxHi k' := by
  unfold cmaxCached
  by_cases hg : inG cmaxHi
  · simp [hg]
  · simp only [hg, Bool.false_eq_true, if_false]
    constructor
    · exact cmaxLoop_gamut inG _ h0
    · exact cmaxLoop_fuel_mono inG (by simpa using hhi)
        (Int.toNat_le_toNat (max_le_max (le_refl 1) hk))

/-- Witness for C5: a concrete in-gamut test (`chroma ≤ 50`), the default
high bound 120 and budgets 1 ≤ 2. -/
theorem c5_witness :
    (fun c : ℚ => decide (c ≤ 50)) (cmaxCached (fun c : ℚ => decide (c ≤ 50)) 120 1) = true ∧
    cmaxCached (fun c : ℚ => decide (c ≤ 50)) 120 1 ≤
      cmaxCached (fun c : ℚ => decide (c ≤ 50)) 120 2 :=
  c5_cmax_in_gamut_and_mono (fun c : ℚ => decide (c ≤ 50)) 120 1 2
    (by decide) (by decide) (by decide)

noncomputable section

/-- `SatMapper` (`hct_mixer.py` lines 34–48): normalized-saturation
encoder/decoder for chroma; `__post_init__` stores `_norm = asinh(1/k)`. -/
structure SatMapper where
  k : ℝ

/-- The `_norm` attribute of `SatMapper`: `asinh(1.0 / k)`. -/
def SatMapper.norm' (m : SatMapper) : ℝ := Real.arsinh (1 / m.k)

/-- `SatMapper.encode`: `0` when `cmax ≤ 0`, else
`asinh((max(0, c) / cmax) / k) / _norm`. -/
def SatMapper.encode (m : SatMapper) (c cmax : ℝ) : ℝ :=
  if cmax ≤ 0 then 0 else Real.arsinh ((max 0 c / cmax) / m.k) / m.norm'

/-- `SatMapper.decode`: clamp `s` to `[0,1]`
(`s1 = 0.0 if s <= 0.0 else 1.0 if s >= 1.0 else s`), then
`cmax * k * sinh(s1 * _norm)`. -/
def SatMapper.decode (m : SatMapper) (s cmax : ℝ) : ℝ :=
  (cmax * m.k) *
    Real.sinh ((if s ≤ 0 then 0 else if 1 ≤ s then 1 else s) * m.norm')

end

lemma clampS_eq {s : ℝ} (h0 : 0 ≤ s) (h1 : s ≤ 1) :
    (if s ≤ 0 then (0:ℝ) else if 1 ≤ s then 1 else s) = s := by
  by_cases hl : s ≤ 0
  · rw [if_pos hl, le_antisymm hl h0]
  · by_cases hh : 1 ≤ s
    · rw [if_neg hl, if_pos hh, le_antisymm h1 hh]
    · rw [if_neg hl, if_neg hh]

lemma clampS_mem (s : ℝ) :
    0 ≤ (if s ≤ 0 then (0:ℝ) else if 1 ≤ s then 1 else s) ∧
    (if s ≤ 0 then (0:ℝ) else if 1 ≤ s then 1 else s) ≤ 1 := by
  by_cases hl : s ≤ 0
  · simp [hl]
  · by_cases hh : 1 ≤ s
    · simp [hl, hh]
    · rw [if_neg hl, if_neg hh]
      exact ⟨le_of_not_le hl, le_of_not_le hh⟩

/-- **C10.** On the valid range (`k > 0`, `cmax > 0`, `0 ≤ c ≤ cmax`)
`SatMapper.decode` inverts `SatMapper.encode` exactly (in exact real
arithmetic), and `decode` never returns a chroma above `cmax` for any
saturation input, out-of-range `s` being clamped to `[0,1]`. -/
theorem c10_satmapper_exact_inverse (k c cmax : ℝ)
    (hk : 0 < k) (hcmax : 0 < cmax) (hc0 : 0 ≤ c) (hc : c ≤ cmax) :
    SatMapper.decode ⟨k⟩ (SatMapper.encode ⟨k⟩ c cmax) cmax = c ∧
    ∀ s : ℝ, SatMapper.decode ⟨k⟩ s cmax ≤ cmax := by
  have hN : 0 < Real.arsinh (1 / k) := Real.arsinh_pos_iff.mpr (by positivity)
  have hNval : SatMapper.norm' ⟨k⟩ = Real.arsinh (1 / k) := rfl
  have hsinhN : Real.sinh (Real.arsinh (1 / k)) = 1 / k := Real.sinh_arsinh _
  have hboundall : ∀ s : ℝ, SatMapper.decode ⟨k⟩ s cmax ≤ cmax := by
    intro s
    unfold SatMapper.decode
    rw [hNval]
    have hm := clampS_mem s
    have h1 : Real.sinh ((if s ≤ 0 then (0:ℝ) else if 1 ≤ s then 1 else s) *
        Real.arsinh (1 / k)) ≤ Real.sinh (Real.arsinh (1 / k)) := by
      rw [Real.sinh_le_sinh]
      calc (if s ≤ 0 then (0:ℝ) else if 1 ≤ s then 1 else s) * Real.arsinh (1/k)
          ≤ 1 * Real.arsinh (1/k) := mul_le_mul_of_nonneg_right hm.2 hN.le
        _ = Real.arsinh (1/k) := one_mul _
    calc (cmax * k) *
          Real.sinh ((if s ≤ 0 then (0:ℝ) else if 1 ≤ s then 1 else s) *
            Real.arsinh (1 / k))
        ≤ (cmax * k) * Real.sinh (Real.arsinh (1 / k)) :=
          mul_le_mul_of_nonneg_left h1 (by positivity)
      _ = cmax := by rw [hsinhN]; field_simp
  refine ⟨?_, hboundall⟩
  have henc : SatMapper.encode ⟨k⟩ c cmax =
      Real.arsinh ((c / cmax) / k) / Real.arsinh (1 / k) := by
    unfold SatMapper.encode
    rw [if_neg (not_le.mpr hcmax), max_eq_right hc0, hNval]
  have hx0 : 0 ≤ (c / cmax) / k := by positivity
  have hs0 : 0 ≤ SatMapper.encode ⟨k⟩ c cmax := by
    rw [henc]
    exact div_nonneg (Real.arsinh_nonneg_iff.mpr hx0) hN.le
  have hs1 : SatMapper.encode ⟨k⟩ c cmax ≤ 1 := by
    rw [henc, div_le_one hN]
    refine Real.arsinh_le_arsinh.mpr ?_
    exact (div_le_div_iff_of_pos_right hk).mpr ((div_le_one hcmax).mpr hc)
  unfold SatMapper.decode
  rw [hNval, clampS_eq hs0 hs1, henc,
    div_mul_cancel₀ _ hN.ne', Real.sinh_arsinh]
  field_simp

/-- Witness for C10 at `k = 1`, `cmax = 1`, `c = 0` and decode input `2`. -/
theorem c10_witness :
    SatMapper.decode ⟨1⟩ (SatMapper.encode ⟨1⟩ 0 1) 1 = 0 ∧
    SatMapper.decode ⟨1⟩ 2 1 ≤ 1 := by
  have h := c10_satmapper_exact_inverse 1 0 1 (by norm_num) (by norm_num)
    (le_refl 0) (by norm_num)
  exact ⟨h.1, h.2 2⟩


lemma roundHalfEven_eq_of_bounds {x : ℝ} {n : ℤ}
    (h1 : (n : ℝ) - 1/2 < x) (h2 : x < (n : ℝ) + 1/2) : roundHalfEven x = n := by
  unfold roundHalfEven
  have hfr : Int.fract x ≠ 1/2 := by
    intro hf
    have hx : x = (⌊x⌋ : ℝ) + 1/2 := by
      have h := Int.floor_add_fract x
      rw [hf] at h
      linarith
    have h1' : (n : ℤ) - 1 < ⌊x⌋ := by
      have : ((n:ℤ) : ℝ) - 1 < ((⌊x⌋ : ℤ) : ℝ) := by linarith
      exact_mod_cast this
    have h2' : ⌊x⌋ < n := by
      have : ((⌊x⌋ : ℤ) : ℝ) < ((n:ℤ) : ℝ) := by linarith
      exact_mod_cast this
    omega
  rw [if_neg hfr, round_eq]
  refine Int.floor_eq_iff.mpr ⟨by linarith, by linarith⟩

lemma round8_eq_of_bounds {x : ℝ} {n : ℤ} (h0 : 0 ≤ x) (hx1 : x ≤ 1)
    (h1 : (n : ℝ) - 1/2 < x * 255) (h2 : x * 255 < (n : ℝ) + 1/2) :
    round8 x = n := by
  unfold round8
  rw [clamp01_of_mem h0 hx1]
  exact roundHalfEven_eq_of_bounds h1 h2

noncomputable section

/-- The fixed numeric tables `kubelka.py` mixes with but which are not
under `src/`: `BASE_SPECTRA` (imported from the absent `spectra38.py`,
7×38) and the external colour-science data (D65-weighted CMFs, 3×38, and
the XYZ→linear-sRGB matrix).  Modelled from the spec: §3 describes the
"fixed 7×38 basis matrix (White, Cyan, Magenta, Yellow, Red, Green,
Blue)" and the "D65-weighted color-matching functions, normalized so a
perfect reflector yields Y=100"; the arrays themselves are abstract
parameters here. -/
structure KMData where
  basis : Fin 7 → Fin 38 → ℝ
  cmf : Fin 3 → Fin 38 → ℝ
  xyzToRgb : Fin 3 → Fin 3 → ℝ

/-- `_DL = 10.0`, the 10 nm band width. -/
def kmDL : ℝ := 10

/-- `k_Y = 100.0 / (_CMF[1] * _DL).sum()` (`kubelka.py` line 38). -/
def kY (d : KMData) : ℝ := 100 / ∑ i, d.cmf 1 i * kmDL

/-- `_luminance` (`kubelka.py` lines 46–48):
`((_CMF[1] * _DL) @ R) * k_Y / 100`. -/
def luminance (d : KMData) (R : Fin 38 → ℝ) : ℝ :=
  (∑ i, d.cmf 1 i * kmDL * R i) * kY d / 100

/-- `_uncompand` (`kubelka.py` lines 52–58), one channel. -/
def uncompand (v : ℝ) : ℝ :=
  if v > 0.04045 then ((v + 0.055) / 1.055) ^ (2.4 : ℝ) else v / 12.92

/-- `_compand` (`kubelka.py` lines 61–67), one channel. -/
def compand (v : ℝ) : ℝ :=
  if v > 0.0031308 then 1.055 * v ^ ((1:ℝ) / 2.4) - 0.055 else v * 12.92

/-- `_ks` (`kubelka.py` lines 71–74): clip `r` to `[1e-9, 1]`, then
`(1 - r)^2 / (2 r)`. -/
def ksOf (r : ℝ) : ℝ :=
  (1 - min (max r 1e-9) 1) ^ 2 / (2 * min (max r 1e-9) 1)

/-- `_km` (`kubelka.py` lines 77–80): `ks := max(ks, 0)`, then
`1 + ks - sqrt(ks² + 2 ks)`. -/
def kmOf (ks : ℝ) : ℝ :=
  1 + max ks 0 - Real.sqrt (max ks 0 * max ks 0 + 2 * max ks 0)

/-- `_srgb_to_R` (`kubelka.py` lines 84–102): linearize, split off the
white component, decompose into C/M/Y and R/G/B amounts, combine the
seven basis spectra, clip each band to `[1e-6, 1]`. -/
def srgbToR (d : KMData) (c : RGB) : Fin 38 → ℝ :=
  let lr := uncompand c.r
  let lg := uncompand c.g
  let lb := uncompand c.b
  let w := min lr (min lg lb)
  let r0 := lr - w
  let g0 := lg - w
  let b0 := lb - w
  let coeffs : Fin 7 → ℝ :=
    ![w, min g0 b0, min r0 b0, min r0 g0,
      max 0 (min (r0 - b0) (r0 - g0)),
      max 0 (min (g0 - b0) (g0 - r0)),
      max 0 (min (b0 - g0) (b0 - r0))]
  fun i => min (max (∑ j, coeffs j * d.basis j i) 1e-6) 1

/-- `_R_to_srgb` (`kubelka.py` lines 106–110): integrate to XYZ, apply
the XYZ→RGB matrix, clip linear RGB to `[0,1]`, re-encode gamma. -/
def RToSrgb (d : KMData) (R : Fin 38 → ℝ) : RGB :=
  let XYZ : Fin 3 → ℝ := fun c => kY d * ∑ i, d.cmf c i * kmDL * R i
  let lrgb : Fin 3 → ℝ := fun c => ∑ j, d.xyzToRgb c j * (XYZ j / 100)
  ⟨compand (min (max (lrgb 0) 0) 1),
   compand (min (max (lrgb 1) 0) 1),
   compand (min (max (lrgb 2) 0) 1)⟩

/-- `concA = (1.0 - t) ** 2 * _luminance(Ra)` (`kubelka.py` line 119). -/
def concA (d : KMData) (Ra : Fin 38 → ℝ) (t : ℝ) : ℝ :=
  (1 - t) ^ 2 * luminance d Ra

/-- `concB = t ** 2 * _luminance(Rb)` (`kubelka.py` line 120). -/
def concB (d : KMData) (Rb : Fin 38 → ℝ) (t : ℝ) : ℝ :=
  t ^ 2 * luminance d Rb

/-- `total = concA + concB or 1.0` (`kubelka.py` line 121): Python's
`or` substitutes `1.0` exactly when the sum is `0.0`. -/
def kmTotal (x : ℝ) : ℝ := if x = 0 then 1 else x

/-- The per-band mixed K/S value `ks_mix` of `km_mix`
(`kubelka.py` line 123). -/
def ksMixBand (d : KMData) (a b : RGB) (t : ℝ) (i : Fin 38) : ℝ :=
  (ksOf (srgbToR d a i) * concA d (srgbToR d a) t +
   ksOf (srgbToR d b i) * concB d (srgbToR d b) t) /
    kmTotal (concA d (srgbToR d a) t + concB d (srgbToR d b) t)

/-- `km_mix` (`kubelka.py` lines 114–124). -/
def kmMix (d : KMData) (a b : RGB) (t : ℝ) : RGB :=
  RToSrgb d (fun i => kmOf (ksMixBand d a b t i))

/-- Concrete instantiation of the abstract tables used by the witnesses:
zero basis, constant CMFs, constant matrix. -/
def kmDataW : KMData := ⟨fun _ _ => 0, fun _ _ => 1, fun _ _ => 1/3⟩

/-- The spec's luminance, written from §4.4's words: the CIE Y of the
reflectance under the D65-weighted CMFs, normalized so a perfect
reflector yields `Y = 100`, rescaled to `[0,1]`. -/
def specLuminance (d : KMData) (R : Fin 38 → ℝ) : ℝ :=
  (∑ i, d.cmf 1 i * kmDL * R i) * kY d / 100

/-- The spec's endpoint-A weight `(1-t)^2 · luminance(Ra)`. -/
def specWeightA (d : KMData) (t : ℝ) (R : Fin 38 → ℝ) : ℝ :=
  (1 - t) ^ 2 * specLuminance d R

/-- The spec's endpoint-B weight `t^2 · luminance(Rb)`. -/
def specWeightB (d : KMData) (t : ℝ) (R : Fin 38 → ℝ) : ℝ :=
  t ^ 2 * specLuminance d R

end

lemma srgbToR_mem (d : KMData) (c : RGB) (i : Fin 38) :
    1e-6 ≤ srgbToR d c i ∧ srgbToR d c i ≤ 1 := by
  unfold srgbToR
  exact ⟨le_min (le_max_right _ _) (by norm_num), min_le_right _ _⟩

/-- On the clipped band range the K/S transform and its inverse cancel:
`_km(_ks(r)) = r` for `r ∈ [1e-9, 1]`. -/
lemma kmOf_ksOf {r : ℝ} (h1 : (1e-9 : ℝ) ≤ r) (h2 : r ≤ 1) :
    kmOf (ksOf r) = r := by
  have hr0 : 0 < r := lt_of_lt_of_le (by norm_num) h1
  have hclip : min (max r 1e-9) 1 = r := by
    rw [max_eq_left h1, min_eq_left h2]
  unfold ksOf
  rw [hclip]
  have hks0 : 0 ≤ (1 - r) ^ 2 / (2 * r) := by positivity
  unfold kmOf
  rw [max_eq_left hks0]
  have hsq : (1 - r) ^ 2 / (2 * r) * ((1 - r) ^ 2 / (2 * r)) +
      2 * ((1 - r) ^ 2 / (2 * r)) = ((1 - r ^ 2) / (2 * r)) ^ 2 := by
    field_simp
    ring
  have hnn : 0 ≤ (1 - r ^ 2) / (2 * r) := by
    apply div_nonneg _ (by linarith)
    nlinarith
  rw [hsq, Real.sqrt_sq hnn]
  field_simp
  ring

/-- At `t = 0` the weights collapse to `(lum Ra, 0)` and `km_mix` is the
pure reconstruction round-trip of `a`. -/
lemma kmMix_zero (d : KMData) (a b : RGB)
    (hla : luminance d (srgbToR d a) ≠ 0) :
    kmMix d a b 0 = RToSrgb d (srgbToR d a) := by
  unfold kmMix
  congr 1
  funext i
  have hmix : ksMixBand d a b 0 i = ksOf (srgbToR d a i) := by
    unfold ksMixBand concA concB kmTotal
    norm_num
    rw [if_neg hla]
    field_simp
  rw [hmix, kmOf_ksOf (le_trans (by norm_num) (srgbToR_mem d a i).1)
    (srgbToR_mem d a i).2]

/-- At `t = 1` the weights collapse to `(0, lum Rb)`. -/
lemma kmMix_one (d : KMData) (a b : RGB)
    (hlb : luminance d (srgbToR d b) ≠ 0) :
    kmMix d a b 1 = RToSrgb d (srgbToR d b) := by
  unfold kmMix
  congr 1
  funext i
  have hmix : ksMixBand d a b 1 i = ksOf (srgbToR d b i) := by
    unfold ksMixBand concA concB kmTotal
    norm_num
    rw [if_neg hlb]
    field_simp
  rw [hmix, kmOf_ksOf (le_trans (by norm_num) (srgbToR_mem d b i).1)
    (srgbToR_mem d b i).2]

/-- **C1.** (spec-modelled: the basis spectra and CMF tables are outside
`src/`) `km_mix(a, b, 0)` rounds to `a` and `km_mix(a, b, 1)` rounds to
`b` after clamping and 8-bit rounding: at the endpoints the weighted
K/S mixture collapses to the pure basis reconstruction round-trip, so
the spec's "exact basis round-trip property" — stated here as the two
round-trip hypotheses on the modelled tables, together with the positive
luminance the clipped reflectance guarantees — transfers to `km_mix`. -/
theorem c1_km_endpoints (d : KMData) (a b : RGB)
    (hla : 0 < luminance d (srgbToR d a)) (hlb : 0 < luminance d (srgbToR d b))
    (hra : round8RGB (RToSrgb d (srgbToR d a)) = round8RGB a)
    (hrb : round8RGB (RToSrgb d (srgbToR d b)) = round8RGB b) :
    round8RGB (kmMix d a b 0) = round8RGB a ∧
    round8RGB (kmMix d a b 1) = round8RGB b := by
  rw [kmMix_zero d a b hla.ne', kmMix_one d a b hlb.ne']
  exact ⟨hra, hrb⟩

lemma srgbToR_W : srgbToR kmDataW ⟨0, 0, 0⟩ = fun _ => 1e-6 := by
  funext i
  unfold srgbToR
  simp only [kmDataW, mul_zero, Finset.sum_const_zero]
  norm_num

lemma kY_W : kY kmDataW = 5 / 19 := by
  unfold kY kmDataW kmDL
  rw [show (∑ _i : Fin 38, (1:ℝ) * 10) = 380 from by
    rw [Finset.sum_const, Finset.card_univ]
    norm_num]
  norm_num

lemma sum38_W (c : Fin 3) :
    (∑ i : Fin 38, kmDataW.cmf c i * kmDL * (fun _ => (1e-6:ℝ)) i) = 38e-5 := by
  show (∑ _i : Fin 38, (1:ℝ) * 10 * 1e-6) = 38e-5
  rw [Finset.sum_const, Finset.card_univ]
  norm_num

lemma RToSrgb_W :
    RToSrgb kmDataW (fun _ => 1e-6) = ⟨1292e-8, 1292e-8, 1292e-8⟩ := by
  unfold RToSrgb
  simp only [kY_W, sum38_W, Fin.sum_univ_three]
  norm_num [kmDataW, compand]

lemma lum_W : luminance kmDataW (fun _ => 1e-6) = 1e-6 := by
  unfold luminance
  rw [kY_W, sum38_W]
  norm_num

lemma kmW_lum : 0 < luminance kmDataW (srgbToR kmDataW ⟨0, 0, 0⟩) := by
  rw [srgbToR_W, lum_W]
  norm_num

lemma kmW_rt :
    round8RGB (RToSrgb kmDataW (srgbToR kmDataW ⟨0, 0, 0⟩)) =
      round8RGB ⟨0, 0, 0⟩ := by
  rw [srgbToR_W, RToSrgb_W]
  have hz : round8 (0 : ℝ) = 0 := by
    apply round8_eq_of_bounds (n := 0) le_rfl zero_le_one <;> norm_num
  have hv : round8 (1292e-8 : ℝ) = 0 := by
    apply round8_eq_of_bounds (n := 0) (by norm_num) (by norm_num) <;> norm_num
  unfold round8RGB
  rw [hz, hv]

/-- Witness for C1: the concrete tables `kmDataW` and black endpoints
discharge the luminance and round-trip hypotheses. -/
theorem c1_witness :
    round8RGB (kmMix kmDataW ⟨0, 0, 0⟩ ⟨0, 0, 0⟩ 0) = round8RGB ⟨0, 0, 0⟩ ∧
    round8RGB (kmMix kmDataW ⟨0, 0, 0⟩ ⟨0, 0, 0⟩ 1) = round8RGB ⟨0, 0, 0⟩ :=
  c1_km_endpoints kmDataW ⟨0, 0, 0⟩ ⟨0, 0, 0⟩ kmW_lum kmW_lum kmW_rt kmW_rt

/-- **C3.** `km_mix` mixes K/S per band as the weight-normalized average
with the spec's weights `(1-t)^2·lum(Ra)` and `t^2·lum(Rb)` (luminance as
the spec describes it), substituting `1.0` for a zero total weight, and
feeds the mixture through the inverse K/S transform into the
reflectance→sRGB reconstruction. -/
theorem c3_km_weights (d : KMData) (a b : RGB) (t : ℝ) (i : Fin 38) :
    ksMixBand d a b t i =
      (ksOf (srgbToR d a i) * specWeightA d t (srgbToR d a) +
       ksOf (srgbToR d b i) * specWeightB d t (srgbToR d b)) /
      (if specWeightA d t (srgbToR d a) + specWeightB d t (srgbToR d b) = 0
       then 1
       else specWeightA d t (srgbToR d a) + specWeightB d t (srgbToR d b)) ∧
    kmMix d a b t = RToSrgb d (fun i => kmOf (ksMixBand d a b t i)) :=
  ⟨rfl, rfl⟩

noncomputable section

/-- The density schedule `v(u)` of `tone_steps` (`hct_tone.py` lines
63–72), by name; `none` models the `raise` for an unknown schedule. -/
def scheduleV (schedule : String) (g u : ℝ) : Option ℝ :=
  if schedule = "linear" then some u
  else if schedule = "ease" then some (0.5 - 0.5 * Real.cos (Real.pi * u))
  else if schedule = "shadow" then some (u ^ g)
  else if schedule = "highlight" then some (1 - (1 - u) ^ g)
  else none

/-- `_q` with `TONE_QUANT = 1e-4` (`hct_tone.py` lines 35–40): clamp to
`[0,100]` and quantize with Python's `round` (ties to even). -/
def qTone (x : ℝ) : ℝ := max 0 (min 100 ((roundHalfEven (x / 1e-4) : ℝ) * 1e-4))

/-- `tone_steps` (`hct_tone.py` lines 43–77): raise for `n < 3`; first
entry `100.0`, last entry `0.0`, interior entries the quantized schedule
values at `u = j/(n-1)` with `g = max(1.001, gamma)`. -/
def toneSteps (n : ℕ) (schedule : String) (gamma : ℝ) : Except String (List ℝ) :=
  if n < 3 then .error "n must be >= 3 (includes tone 100 and 0 plus >= 1 interior)"
  else
    match (List.range' 1 (n - 2)).mapM
        (fun j : ℕ => (scheduleV schedule (max 1.001 gamma) ((j : ℝ) / ((n : ℝ) - 1))).map
          (fun v => qTone (100 * (1 - v)))) with
    | none => .error "unknown schedule"
    | some mid => .ok (100 :: (mid ++ [0]))

/-- The external seed conversion of `HCTTonal.ramp`: cloning the seed,
setting tone `T` and converting to the gamut with raytrace fit is
`coloraide` work, abstracted as `hexify`. -/
structure ToneEnv where
  hexify : ℝ → String

/-- `HCTTonal.ramp` (`hct_tone.py` lines 86–102): raise for `n < 3`,
else map the seed conversion over `tone_steps`. -/
def hctRamp (env : ToneEnv) (n : ℕ) (schedule : String) (gamma : ℝ) :
    Except String (List String) :=
  if n < 3 then .error "n must be >= 3 for HCT tonal ramps"
  else (toneSteps n schedule gamma).map (List.map env.hexify)

end

lemma mapM_eq_some_of_isSome {α β : Type} (f : α → Option β) (d : β) :
    ∀ xs : List α, (∀ a ∈ xs, (f a).isSome) →
      xs.mapM f = some (xs.map (fun a => (f a).getD d))
  | [], _ => rfl
  | x :: xs, h => by
      have hx := h x (List.mem_cons_self x xs)
      have hxs := mapM_eq_some_of_isSome f d xs (fun a ha => h a (List.mem_cons_of_mem x ha))
      rw [List.mapM_cons, hxs]
      rcases Option.isSome_iff_exists.mp hx with ⟨v, hv⟩
      simp [hv, List.map_cons]

lemma scheduleV_isSome (schedule : String)
    (hs : schedule = "linear" ∨ schedule = "ease" ∨ schedule = "shadow" ∨
      schedule = "highlight") (g u : ℝ) : (scheduleV schedule g u).isSome := by
  rcases hs with h | h | h | h <;> subst h <;> simp [scheduleV]

lemma toneSteps_ok (n : ℕ) (schedule : String) (gamma : ℝ) (hn : 3 ≤ n)
    (hs : schedule = "linear" ∨ schedule = "ease" ∨ schedule = "shadow" ∨
      schedule = "highlight") :
    toneSteps n schedule gamma =
      .ok (100 :: ((List.range' 1 (n - 2)).map (fun j : ℕ =>
        ((scheduleV schedule (max 1.001 gamma) ((j : ℝ) / ((n : ℝ) - 1))).map
          (fun v => qTone (100 * (1 - v)))).getD 0) ++ [0])) := by
  unfold toneSteps
  rw [if_neg (by omega)]
  rw [mapM_eq_some_of_isSome _ 0 _
    (fun a _ => by
      rcases Option.isSome_iff_exists.mp (scheduleV_isSome schedule hs
        (max 1.001 gamma) ((a : ℝ) / ((n : ℝ) - 1))) with ⟨v, hv⟩
      simp [hv])]

/-- **C6 (amended).** For `n ≥ 3` and a known schedule the tonal ramp's
tone sequence has exactly `n` entries, first tone `100` and last tone
`0` exactly; each interior tone is the *quantized* (1e-4 grid,
ties-to-even, clamped) value of `100·(1−v(u))` at `u = j/(n−1)`; `n < 3`
fails with an input error in both `tone_steps` and `HCTTonal.ramp`. -/
theorem c6_tonal_ramp (env : ToneEnv) (n : ℕ) (schedule : String) (gamma : ℝ)
    (hn : 3 ≤ n)
    (hs : schedule = "linear" ∨ schedule = "ease" ∨ schedule = "shadow" ∨
      schedule = "highlight") :
    ∃ tones : List ℝ,
      toneSteps n schedule gamma = .ok tones ∧
      hctRamp env n schedule gamma = .ok (tones.map env.hexify) ∧
      tones.length = n ∧
      tones.head? = some 100 ∧
      tones.getLast? = some 0 ∧
      (∀ j : ℕ, 1 ≤ j → j ≤ n - 2 →
        tones[j]? = (scheduleV schedule (max 1.001 gamma) ((j : ℝ) / ((n : ℝ) - 1))).map
          (fun v => qTone (100 * (1 - v)))) ∧
      (∀ m : ℕ, m < 3 → ∃ e, toneSteps m schedule gamma = .error e ∧
        ∃ e2, hctRamp env m schedule gamma = .error e2) := by
  refine ⟨_, toneSteps_ok n schedule gamma hn hs, ?_, ?_, ?_, ?_, ?_, ?_⟩
  · unfold hctRamp
    rw [if_neg (by omega), toneSteps_ok n schedule gamma hn hs]
    rfl
  · simp [List.length_range', List.length_map, List.length_append]
    omega
  · rfl
  · rw [show (100:ℝ) :: (List.map _ (List.range' 1 (n-2)) ++ [0]) =
      ((100:ℝ) :: List.map _ (List.range' 1 (n-2))) ++ [0] from rfl]
    exact List.getLast?_concat _
  · intro j hj1 hj2
    have hlen : (List.map (fun j : ℕ =>
        ((scheduleV schedule (max 1.001 gamma) ((j : ℝ) / ((n : ℝ) - 1))).map
          (fun v => qTone (100 * (1 - v)))).getD 0) (List.range' 1 (n-2))).length
        = n - 2 := by
      simp [List.length_map, List.length_range']
    rcases Nat.exists_eq_add_of_le hj1 with ⟨j', rfl⟩
    rw [show 1 + j' = j' + 1 from Nat.add_comm 1 j']
    rw [List.getElem?_cons_succ]
    rw [List.getElem?_append_left (by rw [hlen]; omega)]
    rw [List.getElem?_map]
    rw [List.getElem?_range' _ _ (by omega)]
    rw [show ((j' + 1 : ℕ) : ℝ) = ((1 + j' : ℕ) : ℝ) from by push_cast; ring]
    have hsome := scheduleV_isSome schedule hs (max 1.001 gamma)
      (((1 + j' : ℕ) : ℝ) / ((n : ℝ) - 1))
    rcases Option.isSome_iff_exists.mp hsome with ⟨v, hv⟩
    simp only [Option.map_some', one_mul, hv, Option.getD_some]
  · intro m hm
    refine ⟨"n must be >= 3 (includes tone 100 and 0 plus >= 1 interior)", ?_,
      "n must be >= 3 for HCT tonal ramps", ?_⟩
    · unfold toneSteps
      rw [if_pos (by omega)]
    · unfold hctRamp
      rw [if_pos (by omega)]

lemma qTone_third : qTone (100 * (1 - (1:ℝ)/3)) = 666667/10000 := by
  unfold qTone
  rw [show (100 * (1 - (1:ℝ)/3)) / 1e-4 = 2000000/3 by norm_num]
  rw [roundHalfEven_eq_of_bounds (n := 666667) (by norm_num) (by norm_num)]
  norm_num

/-- **C6 (counterexample).** The claim's exact interior formula
`T = 100·(1−v(u))` fails on the code: `tone_steps(4, "linear")` stores
the quantized `66.6667`, not `200/3`. -/
theorem c6_counterexample :
    (∃ tones : List ℝ, toneSteps 4 "linear" 1.35 = .ok tones ∧
      tones[1]? = some (666667/10000 : ℝ)) ∧
    (666667/10000 : ℝ) ≠ 100 * (1 - 1/3) := by
  refine ⟨⟨_, toneSteps_ok 4 "linear" 1.35 (by norm_num) (Or.inl rfl), ?_⟩,
    by norm_num⟩
  rw [show List.range' 1 (4 - 2) = [1, 2] from rfl]
  simp only [List.map_cons, List.map_nil]
  show some ((Option.map (fun v => qTone (100 * (1 - v)))
      (scheduleV "linear" (max 1.001 1.35) (((1:ℕ) : ℝ) / (((4:ℕ) : ℝ) - 1)))).getD 0) =
    some (666667/10000 : ℝ)
  rw [show scheduleV "linear" (max 1.001 1.35) (((1:ℕ) : ℝ) / (((4:ℕ):ℝ) - 1)) =
    some (((1:ℕ):ℝ) / (((4:ℕ):ℝ) - 1)) from by unfold scheduleV; rw [if_pos rfl]]
  rw [show (((1:ℕ):ℝ) / (((4:ℕ):ℝ) - 1)) = 1/3 by norm_num]
  simp only [Option.map_some', Option.getD_some]
  rw [qTone_third]

/-- Witness for C6 at `n = 3`, schedule `"linear"`, `γ = 1.35`. -/
theorem c6_witness :
    ∃ tones : List ℝ,
      toneSteps 3 "linear" 1.35 = .ok tones ∧
      hctRamp ⟨fun _ => "x"⟩ 3 "linear" 1.35 = .ok (tones.map (fun _ => "x")) ∧
      tones.length = 3 ∧
      tones.head? = some 100 ∧
      tones.getLast? = some 0 ∧
      (∀ j : ℕ, 1 ≤ j → j ≤ 3 - 2 →
        tones[j]? = (scheduleV "linear" (max 1.001 1.35) ((j : ℝ) / ((3 : ℝ) - 1))).map
          (fun v => qTone (100 * (1 - v)))) ∧
      (∀ m : ℕ, m < 3 → ∃ e, toneSteps m "linear" 1.35 = .error e ∧
        ∃ e2, hctRamp ⟨fun _ => "x"⟩ m "linear" 1.35 = .error e2) :=
  c6_tonal_ramp ⟨fun _ => "x"⟩ 3 "linear" 1.35 (by norm_num) (Or.inl rfl)

noncomputable section

/-- The `coloraide` services `HCTMix` delegates to (the spec's external
appearance-model collaborator): hex→HCT conversion (`_to_hct`, hue
already reduced mod 360), the gamut membership test, the HCT→gamut hex
conversion with raytrace fit, and the exact endpoint reconversion. -/
structure HctEnv where
  toHct : String → ℝ × ℝ × ℝ
  inGamut : ℝ → ℝ → ℝ → Bool
  hctToHex : ℝ → ℝ → ℝ → String
  canonHex : String → String

/-- The configuration fields of the `HCTMix` dataclass
(`hct_mixer.py` lines 73–84); the gamut name is folded into `HctEnv`. -/
structure HCTMix where
  clampTones : ℝ × ℝ
  kSat : ℝ
  sFreeze : ℝ
  cmaxHi : ℝ
  cmaxIters : ℤ
  quantH : ℝ
  quantT : ℝ
  hueWarp : ℝ → ℝ
  hueUnwarp : ℝ → ℝ

/-- `_short_arc_lerp` (`hct_mixer.py` lines 29–31). -/
def shortArcLerp (h1 h2 t : ℝ) : ℝ :=
  pymod (h1 + t * (pymod (h2 - h1 + 180) 360 - 180)) 360

/-- `HCTMix._clamp_t` (`hct_mixer.py` lines 147–149). -/
def clampT (p : HCTMix) (t : ℝ) : ℝ :=
  if t > p.clampTones.2 then p.clampTones.2
  else if t < p.clampTones.1 then p.clampTones.1 else t

/-- `HCTMix._cmax` (`hct_mixer.py` lines 151–156): quantize hue and tone
with Python `round` and run the cached bisection. -/
def cmaxOf (env : HctEnv) (p : HCTMix) (h t : ℝ) : ℝ :=
  let qh := (roundHalfEven (h / p.quantH) : ℝ) * p.quantH
  let qt := (roundHalfEven (t / p.quantT) : ℝ) * p.quantT
  cmaxCached (fun c => env.inGamut qh c qt) p.cmaxHi p.cmaxIters

/-- One loop iteration of `HCTMix.mix` (`hct_mixer.py` lines 106–130):
tone lerp, warped shortest-arc hue, per-step chroma envelope,
saturation lerp with the low-saturation hue freeze, chroma decode and
conversion out. -/
def hctMixStep (env : HctEnv) (p : HCTMix) (ah bh t0 t1 sa sb t : ℝ) : String :=
  let Ti := t0 + (t1 - t0) * t
  let Ha := p.hueWarp ah
  let Hb := p.hueWarp bh
  let Hi := shortArcLerp Ha Hb t
  let hi0 := p.hueUnwarp Hi
  let cEnv0 := cmaxOf env p hi0 Ti
  let si := sa + (sb - sa) * t
  let hc : ℝ × ℝ :=
    if si < p.sFreeze then
      (if t < 1/2 then ah else bh, cmaxOf env p (if t < 1/2 then ah else bh) Ti)
    else (hi0, cEnv0)
  let ci := SatMapper.decode ⟨p.kSat⟩ si hc.2
  env.hctToHex hc.1 ci Ti

/-- `HCTMix.mix` (`hct_mixer.py` lines 86–138): raise for `n < 2`, build
the `n` steps, then overwrite `out[0]` and `out[-1]` with the exact
endpoint reconversions. -/
def HCTMix.mix (env : HctEnv) (p : HCTMix) (aHex bHex : String) (n : ℕ) :
    Except String (List String) :=
  if n < 2 then .error "n must be >= 2"
  else
    let A := env.toHct aHex
    let B := env.toHct bHex
    let t0 := clampT p A.2.2
    let t1 := clampT p B.2.2
    let caMax := cmaxOf env p A.1 t0
    let cbMax := cmaxOf env p B.1 t1
    let sa := SatMapper.encode ⟨p.kSat⟩ A.2.1 caMax
    let sb := SatMapper.encode ⟨p.kSat⟩ B.2.1 cbMax
    let out := List.ofFn (fun i : Fin n =>
      hctMixStep env p A.1 B.1 t0 t1 sa sb ((i : ℝ) / ((n : ℝ) - 1)))
    .ok ((out.set 0 (env.canonHex aHex)).set (n - 1) (env.canonHex bHex))

/-- Trivial external services for the C2 witness. -/
def hctEnvW : HctEnv := ⟨fun _ => (0, 0, 0), fun _ _ _ => true, fun _ _ _ => "s", fun s => s⟩

/-- The default `HCTMix` configuration for the C2 witness. -/
def hctMixW : HCTMix := ⟨(2, 98), 0.6, 0.02, 120, 8, 0.25, 0.25, id, id⟩

end

/-- **C2.** For every `n ≥ 2` (and any behavior of the external
conversions and of the per-step interpolation) `HCTMix.mix` returns `n`
colors whose element 0 is the exact endpoint-A reconversion and whose
element `n−1` is the exact endpoint-B reconversion, because the code
overwrites both slots after the loop; `n < 2` fails with an input
error. -/
theorem c2_hct_endpoints (env : HctEnv) (p : HCTMix) (aHex bHex : String) (n : ℕ) :
    (2 ≤ n → ∃ l : List String, HCTMix.mix env p aHex bHex n = .ok l ∧
      l.length = n ∧
      l[0]? = some (env.canonHex aHex) ∧
      l[n - 1]? = some (env.canonHex bHex)) ∧
    (n < 2 → HCTMix.mix env p aHex bHex n = .error "n must be >= 2") := by
  constructor
  · intro hn
    unfold HCTMix.mix
    rw [if_neg (by omega)]
    refine ⟨_, rfl, ?_, ?_, ?_⟩
    · simp [List.length_set, List.length_ofFn]
    · rw [List.getElem?_set_ne (by omega)]
      rw [List.getElem?_set_self]
      simp [List.length_ofFn]
      omega
    · rw [List.getElem?_set_self]
      simp [List.length_set, List.length_ofFn]
      omega
  · intro hn
    unfold HCTMix.mix
    rw [if_pos hn]

/-- Witness for C2: trivial external services, the source's demo
endpoints and `n = 2`. -/
theorem c2_witness :
    ∃ l : List String, HCTMix.mix hctEnvW hctMixW "#005457" "#fa7a76" 2 = .ok l ∧
      l.length = 2 ∧
      l[0]? = some (hctEnvW.canonHex "#005457") ∧
      l[2 - 1]? = some (hctEnvW.canonHex "#fa7a76") :=
  (c2_hct_endpoints hctEnvW hctMixW "#005457" "#fa7a76" 2).1 (by norm_num)

noncomputable section

/-- numpy `astype(int)`: truncation toward zero. -/
def truncToInt (x : ℝ) : ℤ := if x < 0 then -⌊-x⌋ else ⌊x⌋

/-- The forward transfer formula of `_srgb_forward_lut` (`app.py` lines
74–79): `x/12.92` below the threshold, else `((x+0.055)/1.055)^2.4`. -/
def fwdFormula (x : ℝ) : ℝ :=
  if x ≤ 0.04045 then x / 12.92 else ((x + 0.055) / 1.055) ^ (2.4 : ℝ)

/-- Entry `i` of the 256-entry forward LUT. -/
def lutF (i : ℕ) : ℝ := fwdFormula ((i : ℝ) / 255)

/-- `srgb_to_linear` (`app.py` lines 93–94), one channel: index
`(x*255 + 0.5).astype(np.uint8)` into the forward LUT (the `uint8` cast
truncates and wraps; the engine only feeds it values in `[0,1]`). -/
def srgbToLinearChan (x : ℝ) : ℝ := lutF ((truncToInt (x * 255 + 1/2)).toNat % 256)

/-- `srgb_to_linear` on a triple. -/
def srgbToLinearRGB (c : RGB) : RGB :=
  ⟨srgbToLinearChan c.r, srgbToLinearChan c.g, srgbToLinearChan c.b⟩

/-- The inverse transfer formula of `_srgb_inverse_lut` (`app.py` lines
82–90). -/
def invFormula (x : ℝ) : ℝ :=
  if x ≤ 0.0031308 then x * 12.92 else 1.055 * x ^ ((1:ℝ) / 2.4) - 0.055

/-- Entry `k` of the 4096-entry inverse LUT, clamped to `[0,1]`
(`clamp01(g)` at `app.py` line 90); the grid point is `k/4095`. -/
def invLut (k : ℕ) : ℝ := clamp01 (invFormula ((k : ℝ) / 4095))

/-- `linear_to_srgb` (`app.py` lines 97–99), one channel:
`min((y*4095 + 0.5).astype(int), 4095)` indexes the inverse LUT
(a negative index never arises for the inputs the engine produces). -/
def linearToSrgbChan (y : ℝ) : ℝ :=
  invLut (min (truncToInt (y * 4095 + 1/2)) 4095).toNat

/-- `linear_to_srgb` on a triple. -/
def linearToSrgbRGB (c : RGB) : RGB :=
  ⟨linearToSrgbChan c.r, linearToSrgbChan c.g, linearToSrgbChan c.b⟩

/-- `linear_interp` (`app.py` lines 190–191). -/
def linearInterp (a b : RGB) (t : ℝ) : RGB :=
  clamp01RGB (linearToSrgbRGB (lerpRGB (srgbToLinearRGB a) (srgbToLinearRGB b) t))
def applyM1 (v : RGB) : RGB :=
  ⟨0.8189330101 * v.r + 0.3618667424 * v.g - 0.1288597137 * v.b,
   0.0329845436 * v.r + 0.9293118715 * v.g + 0.0361456387 * v.b,
   0.0482003018 * v.r + 0.2643662691 * v.g + 0.6338517070 * v.b⟩

def applyM2 (v : RGB) : RGB :=
  ⟨0.2104542553 * v.r + 0.7936177850 * v.g - 0.0040720468 * v.b,
   1.9779984951 * v.r - 2.4285922050 * v.g + 0.4505937099 * v.b,
   0.0259040371 * v.r + 0.7827717662 * v.g - 0.8086757660 * v.b⟩

def applyM1inv (v : RGB) : RGB :=
  ⟨(115898045687656815266000000000 / 94455368685058713796616296883 : ℝ) * v.r +
     (-52687202824986486694000000000 / 94455368685058713796616296883 : ℝ) * v.g +
     (26566153245567512086000000000 / 94455368685058713796616296883 : ℝ) * v.b,
   (-3833015714276433108000000000 / 94455368685058713796616296883 : ℝ) * v.r +
     (105058632692146967072000000000 / 94455368685058713796616296883 : ℝ) * v.g +
     (-6770247109479843638000000000 / 94455368685058713796616296883 : ℝ) * v.b,
   (-7214622388624907188000000000 / 94455368685058713796616296883 : ℝ) * v.r +
     (-39811235665581352318000000000 / 94455368685058713796616296883 : ℝ) * v.g +
     (149821631781415326702000000000 / 94455368685058713796616296883 : ℝ) * v.b⟩

def cbrt (x : ℝ) : ℝ := if x < 0 then -((-x) ^ ((1:ℝ)/3)) else x ^ ((1:ℝ)/3)

def cbrtRGB (v : RGB) : RGB := ⟨cbrt v.r, cbrt v.g, cbrt v.b⟩

def srgbToOklab (c : RGB) : RGB := applyM2 (cbrtRGB (applyM1 (srgbToLinearRGB c)))

def applyLinv (o : RGB) : RGB :=
  ⟨o.r + 0.3963377774 * o.g + 0.2158037573 * o.b,
   o.r - 0.1055613458 * o.g - 0.0638541728 * o.b,
   o.r - 0.0894841775 * o.g - 1.2914855480 * o.b⟩

def oklabToSrgb (o : RGB) : RGB :=
  let u := applyLinv o
  linearToSrgbRGB (applyM1inv ⟨u.r ^ 3, u.g ^ 3, u.b ^ 3⟩)

/-- `oklab_interp` (`app.py` lines 194–195). -/
def oklabInterp (a b : RGB) (t : ℝ) : RGB :=
  clamp01RGB (oklabToSrgb (lerpRGB (srgbToOklab a) (srgbToOklab b) t))

/-- `math.atan2(y, x)`, as the argument of the complex number `x + y i`. -/
def atan2 (y x : ℝ) : ℝ := Complex.arg ⟨x, y⟩

def srgbToOkhsv (c : RGB) : ℝ × ℝ × ℝ :=
  let o := srgbToOklab c
  (pymod (atan2 o.b o.g / (2 * Real.pi)) 1, Real.sqrt (o.g ^ 2 + o.b ^ 2), o.r)

def okhsvToSrgb (h s v : ℝ) : RGB :=
  oklabToSrgb ⟨v, s * Real.cos (2 * Real.pi * h), s * Real.sin (2 * Real.pi * h)⟩

/-- `okhsv_interp` (`app.py` lines 198–205): convert both endpoints,
mix `(h, s, v)` with `okhsvMixHSV`, convert back, clamp. -/
def okhsvInterp (a b : RGB) (t : ℝ) : RGB :=
  let A := srgbToOkhsv a
  let B := srgbToOkhsv b
  let hsv := okhsvMixHSV A.1 A.2.1 A.2.2 B.1 B.2.1 B.2.2 t
  clamp01RGB (okhsvToSrgb hsv.1 hsv.2.1 hsv.2.2)

/-- The value of one hex digit (`int(…, 16)` on canonical input). -/
def hexDigitVal (ch : Char) : Option ℕ :=
  if '0' ≤ ch ∧ ch ≤ '9' then some (ch.toNat - 48)
  else if 'a' ≤ ch ∧ ch ≤ 'f' then some (ch.toNat - 87)
  else if 'A' ≤ ch ∧ ch ≤ 'F' then some (ch.toNat - 55)
  else none

def hexToRgb01 (s : String) : Option RGB :=
  match s.toList.dropWhile (· = '#') with
  | [c1, c2, c3, c4, c5, c6] =>
      match hexDigitVal c1, hexDigitVal c2, hexDigitVal c3,
          hexDigitVal c4, hexDigitVal c5, hexDigitVal c6 with
      | some d1, some d2, some d3, some d4, some d5, some d6 =>
          some ⟨((16 * d1 + d2 : ℕ) : ℝ) / 255,
                ((16 * d3 + d4 : ℕ) : ℝ) / 255,
                ((16 * d5 + d6 : ℕ) : ℝ) / 255⟩
      | _, _, _, _, _, _ => none
  | _ => none

/-- The external CAM16-UCS interpolation of `cam16_interp` (`app.py`
lines 208–219): `Color.interpolate([hex_a, hex_b], space="cam16-ucs")`
evaluated at `t` and converted to an sRGB hex string by `coloraide`. -/
structure AppEnv where
  cam16Hex : RGB → RGB → ℝ → String

/-- `cam16_interp`: parse the collaborator's hex string back to RGB01. -/
def cam16Interp (env : AppEnv) (a b : RGB) (t : ℝ) : Option RGB :=
  hexToRgb01 (env.cam16Hex a b t)

/-- The `INTERPOLATORS` registry (`app.py` lines 222–229), each mixer
returning `none` when it raises (only `cam16ucs` can). -/
def INTERPOLATORS (env : AppEnv) (d : KMData) :
    List (String × (RGB → RGB → ℝ → Option RGB)) :=
  [("srgb", fun a b t => some (srgbInterp a b t)),
   ("linear", fun a b t => some (linearInterp a b t)),
   ("oklab", fun a b t => some (oklabInterp a b t)),
   ("okhsv", fun a b t => some (okhsvInterp a b t)),
   ("cam16ucs", fun a b t => cam16Interp env a b t),
   ("km_sub", fun a b t => some (kmMix d a b t))]

end

/-- Channels in `[0,1]` — a valid RGB01 triple. -/
def validRGB (c : RGB) : Prop :=
  0 ≤ c.r ∧ c.r ≤ 1 ∧ 0 ≤ c.g ∧ c.g ≤ 1 ∧ 0 ≤ c.b ∧ c.b ≤ 1

lemma validRGB_clamp01RGB (c : RGB) : validRGB (clamp01RGB c) :=
  ⟨(clamp01_mem c.r).1, (clamp01_mem c.r).2, (clamp01_mem c.g).1,
   (clamp01_mem c.g).2, (clamp01_mem c.b).1, (clamp01_mem c.b).2⟩

lemma lerpChan_mem {a b t : ℝ} (ha0 : 0 ≤ a) (ha1 : a ≤ 1) (hb0 : 0 ≤ b)
    (hb1 : b ≤ 1) (ht0 : 0 ≤ t) (ht1 : t ≤ 1) :
    0 ≤ lerpChan a b t ∧ lerpChan a b t ≤ 1 := by
  unfold lerpChan
  constructor <;> nlinarith

lemma hexDigitVal_le {ch : Char} {d : ℕ} (hd : hexDigitVal ch = some d) :
    d ≤ 15 := by
  unfold hexDigitVal at hd
  split_ifs at hd with h1 h2 h3
  · injection hd with hd
    have h9 : ch.toNat ≤ 57 := by simpa [Char.le_def, UInt32.le_def] using h1.2
    omega
  · injection hd with hd
    have hf : ch.toNat ≤ 102 := by simpa [Char.le_def, UInt32.le_def] using h2.2
    omega
  · injection hd with hd
    have hF : ch.toNat ≤ 70 := by simpa [Char.le_def, UInt32.le_def] using h3.2
    omega

lemma hexToRgb01_valid {s : String} {c : RGB} (h : hexToRgb01 s = some c) :
    validRGB c := by
  unfold hexToRgb01 at h
  rcases hl : s.toList.dropWhile (· = '#') with _ | ⟨c1, _ | ⟨c2, _ | ⟨c3, _ | ⟨c4, _ | ⟨c5, _ | ⟨c6, _ | ⟨c7, tl⟩⟩⟩⟩⟩⟩⟩ <;>
    rw [hl] at h <;> try exact Option.noConfusion h
  replace h : (match hexDigitVal c1, hexDigitVal c2, hexDigitVal c3,
      hexDigitVal c4, hexDigitVal c5, hexDigitVal c6 with
    | some d1, some d2, some d3, some d4, some d5, some d6 =>
        some (RGB.mk (((16 * d1 + d2 : ℕ) : ℝ) / 255)
          (((16 * d3 + d4 : ℕ) : ℝ) / 255) (((16 * d5 + d6 : ℕ) : ℝ) / 255))
    | _, _, _, _, _, _ => none) = some c := h
  rcases e1 : hexDigitVal c1 with _ | d1 <;> rw [e1] at h <;> try exact Option.noConfusion h
  rcases e2 : hexDigitVal c2 with _ | d2 <;> rw [e2] at h <;> try exact Option.noConfusion h
  rcases e3 : hexDigitVal c3 with _ | d3 <;> rw [e3] at h <;> try exact Option.noConfusion h
  rcases e4 : hexDigitVal c4 with _ | d4 <;> rw [e4] at h <;> try exact Option.noConfusion h
  rcases e5 : hexDigitVal c5 with _ | d5 <;> rw [e5] at h <;> try exact Option.noConfusion h
  rcases e6 : hexDigitVal c6 with _ | d6 <;> rw [e6] at h <;> try exact Option.noConfusion h
  have hc : c = ⟨((16 * d1 + d2 : ℕ) : ℝ) / 255, ((16 * d3 + d4 : ℕ) : ℝ) / 255,
      ((16 * d5 + d6 : ℕ) : ℝ) / 255⟩ := by
    injection h with h
    exact h.symm
  subst hc
  have hb : ∀ x y : ℕ, x ≤ 15 → y ≤ 15 →
      0 ≤ ((16 * x + y : ℕ) : ℝ) / 255 ∧ ((16 * x + y : ℕ) : ℝ) / 255 ≤ 1 := by
    intro x y hx hy
    constructor
    · positivity
    · rw [div_le_one (by norm_num)]
      have : (16 * x + y : ℕ) ≤ 255 := by omega
      exact_mod_cast this
  exact ⟨(hb d1 d2 (hexDigitVal_le e1) (hexDigitVal_le e2)).1,
    (hb d1 d2 (hexDigitVal_le e1) (hexDigitVal_le e2)).2,
    (hb d3 d4 (hexDigitVal_le e3) (hexDigitVal_le e4)).1,
    (hb d3 d4 (hexDigitVal_le e3) (hexDigitVal_le e4)).2,
    (hb d5 d6 (hexDigitVal_le e5) (hexDigitVal_le e6)).1,
    (hb d5 d6 (hexDigitVal_le e5) (hexDigitVal_le e6)).2⟩

lemma rpow512_pow {x : ℝ} (hx : 0 ≤ x) :
    (x ^ ((5:ℝ)/12)) ^ (12:ℕ) = x ^ (5:ℕ) := by
  rw [← Real.rpow_natCast (x ^ ((5:ℝ)/12)) 12, ← Real.rpow_mul hx]
  norm_num
  rw [show ((5:ℝ)) = ((5:ℕ) : ℝ) by norm_num, Real.rpow_natCast]

lemma rpow125_pow {x : ℝ} (hx : 0 ≤ x) :
    (x ^ ((12:ℝ)/5)) ^ (5:ℕ) = x ^ (12:ℕ) := by
  rw [← Real.rpow_natCast (x ^ ((12:ℝ)/5)) 5, ← Real.rpow_mul hx]
  norm_num
  rw [show ((12:ℝ)) = ((12:ℕ) : ℝ) by norm_num, Real.rpow_natCast]

lemma rpow512_le {x q : ℝ} (hx : 0 ≤ x) (hq : 0 ≤ q) (h : x^(5:ℕ) ≤ q^(12:ℕ)) :
    x ^ ((5:ℝ)/12) ≤ q := by
  have hy : 0 ≤ x ^ ((5:ℝ)/12) := Real.rpow_nonneg hx _
  refine (pow_le_pow_iff_left₀ hy hq (by norm_num : (12:ℕ) ≠ 0)).mp ?_
  rw [rpow512_pow hx]
  exact h

lemma le_rpow512 {q x : ℝ} (hq : 0 ≤ q) (hx : 0 ≤ x) (h : q^(12:ℕ) ≤ x^(5:ℕ)) :
    q ≤ x ^ ((5:ℝ)/12) := by
  have hy : 0 ≤ x ^ ((5:ℝ)/12) := Real.rpow_nonneg hx _
  refine (pow_le_pow_iff_left₀ hq hy (by norm_num : (12:ℕ) ≠ 0)).mp ?_
  rw [rpow512_pow hx]
  exact h

lemma rpow512_lt {x q : ℝ} (hx : 0 ≤ x) (hq : 0 ≤ q) (h : x^(5:ℕ) < q^(12:ℕ)) :
    x ^ ((5:ℝ)/12) < q := by
  have hy : 0 ≤ x ^ ((5:ℝ)/12) := Real.rpow_nonneg hx _
  refine (pow_lt_pow_iff_left₀ hy hq (by norm_num : (12:ℕ) ≠ 0)).mp ?_
  rw [rpow512_pow hx]
  exact h

lemma lt_rpow512 {q x : ℝ} (hq : 0 ≤ q) (hx : 0 ≤ x) (h : q^(12:ℕ) < x^(5:ℕ)) :
    q < x ^ ((5:ℝ)/12) := by
  have hy : 0 ≤ x ^ ((5:ℝ)/12) := Real.rpow_nonneg hx _
  refine (pow_lt_pow_iff_left₀ hq hy (by norm_num : (12:ℕ) ≠ 0)).mp ?_
  rw [rpow512_pow hx]
  exact h

lemma rpow125_lt {x q : ℝ} (hx : 0 ≤ x) (hq : 0 ≤ q) (h : x^(12:ℕ) < q^(5:ℕ)) :
    x ^ ((12:ℝ)/5) < q := by
  have hy : 0 ≤ x ^ ((12:ℝ)/5) := Real.rpow_nonneg hx _
  refine (pow_lt_pow_iff_left₀ hy hq (by norm_num : (5:ℕ) ≠ 0)).mp ?_
  rw [rpow125_pow hx]
  exact h

lemma lt_rpow125 {q x : ℝ} (hq : 0 ≤ q) (hx : 0 ≤ x) (h : q^(5:ℕ) < x^(12:ℕ)) :
    q < x ^ ((12:ℝ)/5) := by
  have hy : 0 ≤ x ^ ((12:ℝ)/5) := Real.rpow_nonneg hx _
  refine (pow_lt_pow_iff_left₀ hq hy (by norm_num : (5:ℕ) ≠ 0)).mp ?_
  rw [rpow125_pow hx]
  exact h

lemma le_rpow125 {q x : ℝ} (hq : 0 ≤ q) (hx : 0 ≤ x) (h : q^(5:ℕ) ≤ x^(12:ℕ)) :
    q ≤ x ^ ((12:ℝ)/5) := by
  have hy : 0 ≤ x ^ ((12:ℝ)/5) := Real.rpow_nonneg hx _
  refine (pow_le_pow_iff_left₀ hq hy (by norm_num : (5:ℕ) ≠ 0)).mp ?_
  rw [rpow125_pow hx]
  exact h

lemma rpow125_le {x q : ℝ} (hx : 0 ≤ x) (hq : 0 ≤ q) (h : x^(12:ℕ) ≤ q^(5:ℕ)) :
    x ^ ((12:ℝ)/5) ≤ q := by
  have hy : 0 ≤ x ^ ((12:ℝ)/5) := Real.rpow_nonneg hx _
  refine (pow_le_pow_iff_left₀ hy hq (by norm_num : (5:ℕ) ≠ 0)).mp ?_
  rw [rpow125_pow hx]
  exact h

lemma compand_mem {v : ℝ} (h0 : 0 ≤ v) (h1 : v ≤ 1) :
    0 ≤ compand v ∧ compand v ≤ 1 := by
  unfold compand
  rw [show (1:ℝ)/2.4 = (5:ℝ)/12 by norm_num]
  by_cases hv : v > 0.0031308
  · rw [if_pos hv]
    constructor
    · have hlow : (11/211 : ℝ) ≤ v ^ ((5:ℝ)/12) := by
        calc (11/211 : ℝ) ≤ (0.0031308 : ℝ) ^ ((5:ℝ)/12) :=
              le_rpow512 (by norm_num) (by norm_num) (by norm_num)
          _ ≤ v ^ ((5:ℝ)/12) :=
              Real.rpow_le_rpow (by norm_num) hv.le (by norm_num)
      nlinarith
    · have hup : v ^ ((5:ℝ)/12) ≤ 1 :=
        Real.rpow_le_one h0 h1 (by norm_num)
      nlinarith
  · rw [if_neg hv]
    push_neg at hv
    constructor <;> nlinarith

lemma invLut_mem (k : ℕ) : 0 ≤ invLut k ∧ invLut k ≤ 1 := clamp01_mem _

lemma linearToSrgbChan_mem (y : ℝ) :
    0 ≤ linearToSrgbChan y ∧ linearToSrgbChan y ≤ 1 := invLut_mem _

lemma validRGB_RToSrgb (d : KMData) (R : Fin 38 → ℝ) :
    validRGB (RToSrgb d R) := by
  unfold RToSrgb validRGB
  refine ⟨?_, ?_, ?_, ?_, ?_, ?_⟩ <;>
  · first
      | exact (compand_mem (le_min (le_max_right _ _) (by norm_num))
          (min_le_right _ _)).1
      | exact (compand_mem (le_min (le_max_right _ _) (by norm_num))
          (min_le_right _ _)).2

/-- **C9.** Every mixer in the registry returns channels in `[0,1]` for
valid inputs and `t ∈ [0,1]`: `srgb_interp` by convexity of the
unclamped lerp, `linear`/`oklab`/`okhsv` by their final `clamp01`,
`cam16ucs` because parsed hex bytes lie in `[0,255]`, and `km_sub`
because `_R_to_srgb` clips linear RGB to `[0,1]` and the companding maps
`[0,1]` into `[0,1]`. -/
theorem c9_channel_bounds (env : AppEnv) (d : KMData) (name : String)
    (f : RGB → RGB → ℝ → Option RGB)
    (hmem : (name, f) ∈ INTERPOLATORS env d)
    (a b : RGB) (t : ℝ) (ha : validRGB a) (hb : validRGB b)
    (ht0 : 0 ≤ t) (ht1 : t ≤ 1) (out : RGB) (hout : f a b t = some out) :
    validRGB out := by
  simp only [INTERPOLATORS, List.mem_cons, List.not_mem_nil, or_false] at hmem
  rcases hmem with h | h | h | h | h | h <;>
    rw [Prod.ext_iff] at h <;> rcases h with ⟨h1, h2⟩ <;> subst h2 <;>
      simp only [Option.some.injEq] at hout
  · -- srgb: unclamped lerp of valid inputs
    subst hout
    obtain ⟨har0, har1, hag0, hag1, hab0, hab1⟩ := ha
    obtain ⟨hbr0, hbr1, hbg0, hbg1, hbb0, hbb1⟩ := hb
    unfold srgbInterp lerpRGB
    exact ⟨(lerpChan_mem har0 har1 hbr0 hbr1 ht0 ht1).1,
      (lerpChan_mem har0 har1 hbr0 hbr1 ht0 ht1).2,
      (lerpChan_mem hag0 hag1 hbg0 hbg1 ht0 ht1).1,
      (lerpChan_mem hag0 hag1 hbg0 hbg1 ht0 ht1).2,
      (lerpChan_mem hab0 hab1 hbb0 hbb1 ht0 ht1).1,
      (lerpChan_mem hab0 hab1 hbb0 hbb1 ht0 ht1).2⟩
  · subst hout
    exact validRGB_clamp01RGB _
  · subst hout
    exact validRGB_clamp01RGB _
  · subst hout
    exact validRGB_clamp01RGB _
  · exact hexToRgb01_valid hout
  · subst hout
    exact validRGB_RToSrgb _ _

/-- Witness for C9: the `srgb` registry entry at black endpoints, `t = 0`. -/
theorem c9_witness : validRGB (srgbInterp ⟨0, 0, 0⟩ ⟨0, 0, 0⟩ 0) :=
  c9_channel_bounds ⟨fun _ _ _ => ""⟩ kmDataW "srgb"
    (fun a b t => some (srgbInterp a b t)) (List.mem_cons_self _ _)
    ⟨0, 0, 0⟩ ⟨0, 0, 0⟩ 0 (by norm_num [validRGB]) (by norm_num [validRGB])
    le_rfl zero_le_one _ rfl

/-! ## The LUT round-trip (claim C8)

The inverse-then-forward 8-bit round-trip of the two transfer LUTs of
`app.py`: for every byte code `i`, any linear value within `lutDelta` of
the forward-LUT entry `lutF i` is mapped by `linear_to_srgb` followed by
the 8-bit rounding back to `i`.  The per-code facts `lutRT_0` … are
established from exact rational bracketing of the inverse-LUT grid. -/

noncomputable section

/-- Slack allowed around a forward-LUT entry; the oklab/okhsv conversion
chains stay within this distance of the exact entry. -/
def lutDelta : ℝ := 1e-6

end

/-- The 8-bit LUT round-trip property at byte code `i`. -/
def LutRT (i : ℕ) : Prop :=
  ∀ y : ℝ, lutF i - lutDelta ≤ y → y ≤ lutF i + lutDelta →
    round8 (linearToSrgbChan y) = (i : ℤ)

lemma chanIdx_eq {y : ℝ} {k : ℕ} (hk : k ≤ 4095)
    (h1 : (k : ℝ) ≤ y * 4095 + 1/2) (h2 : y * 4095 + 1/2 < (k : ℝ) + 1) :
    linearToSrgbChan y = invLut k := by
  unfold linearToSrgbChan truncToInt
  have hnn : ¬ (y * 4095 + 1/2 < 0) := by
    push_neg
    calc (0:ℝ) ≤ (k : ℝ) := by positivity
      _ ≤ y * 4095 + 1/2 := h1
  rw [if_neg hnn]
  have hfl : ⌊y * 4095 + 1/2⌋ = (k : ℤ) := by
    refine Int.floor_eq_iff.mpr ⟨by push_cast; linarith, by push_cast; linarith⟩
  rw [hfl]
  rw [min_eq_left (by exact_mod_cast hk)]
  norm_num

lemma chanIdx_cases {y : ℝ} {k : ℕ} (hk : k + 1 ≤ 4095)
    (h1 : (k : ℝ) ≤ y * 4095 + 1/2) (h2 : y * 4095 + 1/2 < (k : ℝ) + 2) :
    linearToSrgbChan y = invLut k ∨ linearToSrgbChan y = invLut (k + 1) := by
  by_cases hmid : y * 4095 + 1/2 < (k : ℝ) + 1
  · exact Or.inl (chanIdx_eq (by omega) h1 hmid)
  · push_neg at hmid
    refine Or.inr (chanIdx_eq hk ?_ ?_)
    · push_cast
      linarith
    · push_cast
      linarith

lemma clamp_scale_mem {z : ℝ} {i : ℕ} (hi : i ≤ 255)
    (h1 : (i:ℝ) - 1/2 < z * 255) (h2 : z * 255 < (i:ℝ) + 1/2) :
    (i:ℝ) - 1/2 < clamp01 z * 255 ∧ clamp01 z * 255 < (i:ℝ) + 1/2 := by
  unfold clamp01
  rcases lt_or_le z 0 with hz | hz
  · have hi0 : (i : ℝ) < 1 := by nlinarith
    have hie : i = 0 := by
      have h' : i < 1 := by exact_mod_cast hi0
      omega
    subst hie
    rw [max_eq_right hz.le, min_eq_left (by norm_num : (0:ℝ) ≤ 1)]
    norm_num
  · rcases le_or_lt z 1 with hz1 | hz1
    · rw [max_eq_left hz, min_eq_left hz1]
      exact ⟨h1, h2⟩
    · have h255 : (254 : ℝ) < (i : ℝ) := by nlinarith
      have hie : i = 255 := by
        have h' : 254 < i := by exact_mod_cast h255
        omega
      subst hie
      rw [max_eq_left hz, min_eq_right hz1.le]
      norm_num

lemma round8_invLut {k : ℕ} {i : ℕ} (hi : i ≤ 255)
    (hlo : (i : ℝ) - 1/2 < invLut k * 255) (hhi : invLut k * 255 < (i : ℝ) + 1/2) :
    round8 (invLut k) = (i : ℤ) := by
  refine round8_eq_of_bounds (invLut_mem k).1 (invLut_mem k).2 ?_ ?_ <;>
    push_cast <;> [linarith; linarith]


lemma lutF_gamma {i : ℕ} (hi11 : 11 ≤ i) :
    lutF i = (((i:ℝ)/255 + 0.055)/1.055) ^ ((12:ℝ)/5) := by
  unfold lutF fwdFormula
  rw [if_neg (by
    push_neg
    have : (11:ℝ) ≤ (i:ℝ) := by exact_mod_cast hi11
    norm_num
    linarith)]
  norm_num

lemma invLut_gamma {k : ℕ} (hk13 : 13 ≤ k) :
    invLut k = clamp01 (1.055 * ((k:ℝ)/4095) ^ ((5:ℝ)/12) - 0.055) := by
  unfold invLut invFormula
  rw [if_neg (by
    push_neg
    have : (13:ℝ) ≤ (k:ℝ) := by exact_mod_cast hk13
    norm_num
    linarith)]
  norm_num

lemma invLut_gamma_round {k i : ℕ} (hi : i ≤ 255) (hk13 : 13 ≤ k)
    (hqlo0 : 0 ≤ (((i:ℝ) - 1/2)/255 + 0.055)/1.055)
    (hqlo : ((((i:ℝ) - 1/2)/255 + 0.055)/1.055)^(12:ℕ) < ((k:ℝ)/4095)^(5:ℕ))
    (hqhi : ((k:ℝ)/4095)^(5:ℕ) < ((((i:ℝ) + 1/2)/255 + 0.055)/1.055)^(12:ℕ)) :
    round8 (invLut k) = (i : ℤ) := by
  rw [invLut_gamma hk13]
  have hX1 : (((i:ℝ) - 1/2)/255 + 0.055)/1.055 < ((k:ℝ)/4095) ^ ((5:ℝ)/12) :=
    lt_rpow512 hqlo0 (by positivity) hqlo
  have hX2 : ((k:ℝ)/4095) ^ ((5:ℝ)/12) < (((i:ℝ) + 1/2)/255 + 0.055)/1.055 :=
    rpow512_lt (by positivity) (by positivity) hqhi
  have hz1 : (i:ℝ) - 1/2 <
      (1.055 * ((k:ℝ)/4095) ^ ((5:ℝ)/12) - 0.055) * 255 := by
    norm_num at hX1 ⊢
    linarith
  have hz2 : (1.055 * ((k:ℝ)/4095) ^ ((5:ℝ)/12) - 0.055) * 255 <
      (i:ℝ) + 1/2 := by
    norm_num at hX2 ⊢
    linarith
  have hb := clamp_scale_mem hi hz1 hz2
  exact round8_eq_of_bounds (clamp01_mem _).1 (clamp01_mem _).2
    (by push_cast; linarith [hb.1]) (by push_cast; linarith [hb.2])

lemma invLut_lin_round {k i : ℕ} (hi : i ≤ 255) (hk12 : k ≤ 12)
    (hlo : (i:ℝ) - 1/2 < ((k:ℝ)/4095 * 12.92) * 255)
    (hhi : ((k:ℝ)/4095 * 12.92) * 255 < (i:ℝ) + 1/2) :
    round8 (invLut k) = (i : ℤ) := by
  have hform : invLut k = clamp01 ((k:ℝ)/4095 * 12.92) := by
    unfold invLut invFormula
    rw [if_pos (by
      have : (k:ℝ) ≤ 12 := by exact_mod_cast hk12
      norm_num
      linarith)]
  rw [hform]
  have hb := clamp_scale_mem hi hlo hhi
  exact round8_eq_of_bounds (clamp01_mem _).1 (clamp01_mem _).2
    (by push_cast; linarith [hb.1]) (by push_cast; linarith [hb.2])

lemma lutRT_of_brackets {i : ℕ} {Lo Hi : ℝ}
    (hbrLo : Lo ≤ lutF i) (hbrHi : lutF i ≤ Hi)
    (hround : ∀ y : ℝ, Lo - lutDelta ≤ y → y ≤ Hi + lutDelta →
      round8 (linearToSrgbChan y) = (i : ℤ)) : LutRT i := by
  intro y hy1 hy2
  exact hround y (by linarith) (by linarith)

lemma lutRT_gammaOne (i k : ℕ) (Lo Hi : ℝ)
    (hi255 : i ≤ 255) (hi11 : 11 ≤ i) (hk13 : 13 ≤ k) (hk : k ≤ 4095)
    (hLo0 : 0 ≤ Lo)
    (hbrLo : Lo^(5:ℕ) ≤ (((i:ℝ)/255 + 0.055)/1.055)^(12:ℕ))
    (hbrHi : (((i:ℝ)/255 + 0.055)/1.055)^(12:ℕ) ≤ Hi^(5:ℕ))
    (hidx1 : (k:ℝ) ≤ (Lo - lutDelta) * 4095 + 1/2)
    (hidx2 : (Hi + lutDelta) * 4095 + 1/2 < (k:ℝ) + 1)
    (hqlo0 : 0 ≤ (((i:ℝ) - 1/2)/255 + 0.055)/1.055)
    (hqlo : ((((i:ℝ) - 1/2)/255 + 0.055)/1.055)^(12:ℕ) < ((k:ℝ)/4095)^(5:ℕ))
    (hqhi : ((k:ℝ)/4095)^(5:ℕ) < ((((i:ℝ) + 1/2)/255 + 0.055)/1.055)^(12:ℕ)) :
    LutRT i := by
  have hW : (0:ℝ) ≤ ((i:ℝ)/255 + 0.055)/1.055 := by positivity
  have hHi0 : (0:ℝ) ≤ Hi := by
    rcases le_or_lt 0 Hi with h | h
    · exact h
    · exfalso
      have h5 : Hi^(5:ℕ) < 0 := Odd.pow_neg ⟨2, rfl⟩ h
      linarith [pow_nonneg hW 12]
  refine lutRT_of_brackets
    (le_rpow125 hLo0 hW hbrLo |>.trans_eq (lutF_gamma hi11).symm)
    ((lutF_gamma hi11).le.trans (rpow125_le hW hHi0 hbrHi)) ?_
  intro y hy1 hy2
  rw [chanIdx_eq (y := y) (k := k) hk (by linarith) (by linarith)]
  exact invLut_gamma_round hi255 hk13 hqlo0 hqlo hqhi

lemma lutRT_gammaTwo (i k : ℕ) (Lo Hi : ℝ)
    (hi255 : i ≤ 255) (hi11 : 11 ≤ i) (hk13 : 13 ≤ k) (hk : k + 1 ≤ 4095)
    (hLo0 : 0 ≤ Lo)
    (hbrLo : Lo^(5:ℕ) ≤ (((i:ℝ)/255 + 0.055)/1.055)^(12:ℕ))
    (hbrHi : (((i:ℝ)/255 + 0.055)/1.055)^(12:ℕ) ≤ Hi^(5:ℕ))
    (hidx1 : (k:ℝ) ≤ (Lo - lutDelta) * 4095 + 1/2)
    (hidx2 : (Hi + lutDelta) * 4095 + 1/2 < (k:ℝ) + 2)
    (hqlo0 : 0 ≤ (((i:ℝ) - 1/2)/255 + 0.055)/1.055)
    (hqlo : ((((i:ℝ) - 1/2)/255 + 0.055)/1.055)^(12:ℕ) < ((k:ℝ)/4095)^(5:ℕ))
    (hqhi : ((k:ℝ)/4095)^(5:ℕ) < ((((i:ℝ) + 1/2)/255 + 0.055)/1.055)^(12:ℕ))
    (hqlo' : ((((i:ℝ) - 1/2)/255 + 0.055)/1.055)^(12:ℕ) < (((k:ℝ)+1)/4095)^(5:ℕ))
    (hqhi' : (((k:ℝ)+1)/4095)^(5:ℕ) < ((((i:ℝ) + 1/2)/255 + 0.055)/1.055)^(12:ℕ)) :
    LutRT i := by
  have hW : (0:ℝ) ≤ ((i:ℝ)/255 + 0.055)/1.055 := by positivity
  have hHi0 : (0:ℝ) ≤ Hi := by
    rcases le_or_lt 0 Hi with h | h
    · exact h
    · exfalso
      have h5 : Hi^(5:ℕ) < 0 := Odd.pow_neg ⟨2, rfl⟩ h
      linarith [pow_nonneg hW 12]
  refine lutRT_of_brackets
    (le_rpow125 hLo0 hW hbrLo |>.trans_eq (lutF_gamma hi11).symm)
    ((lutF_gamma hi11).le.trans (rpow125_le hW hHi0 hbrHi)) ?_
  intro y hy1 hy2
  rcases chanIdx_cases (y := y) hk (by linarith) (by linarith) with he | he <;> rw [he]
  · exact invLut_gamma_round hi255 hk13 hqlo0 hqlo hqhi
  · refine invLut_gamma_round hi255 (by omega) hqlo0 ?_ ?_
    · push_cast
      exact hqlo'
    · push_cast
      exact hqhi'

lemma lutF_lin {i : ℕ} (hi10 : i ≤ 10) : lutF i = (i:ℝ)/255 / 12.92 := by
  unfold lutF fwdFormula
  rw [if_pos (by
    have : (i:ℝ) ≤ 10 := by exact_mod_cast hi10
    norm_num
    linarith)]

lemma lutRT_linOne (i k : ℕ)
    (hi255 : i ≤ 255) (hi10 : i ≤ 10) (hk12 : k ≤ 12)
    (hidx1 : (k:ℝ) ≤ ((i:ℝ)/255/12.92 - lutDelta) * 4095 + 1/2)
    (hidx2 : ((i:ℝ)/255/12.92 + lutDelta) * 4095 + 1/2 < (k:ℝ) + 1)
    (hlo : (i:ℝ) - 1/2 < ((k:ℝ)/4095 * 12.92) * 255)
    (hhi : ((k:ℝ)/4095 * 12.92) * 255 < (i:ℝ) + 1/2) :
    LutRT i := by
  refine lutRT_of_brackets (le_of_eq (lutF_lin hi10).symm)
    (le_of_eq (lutF_lin hi10)) ?_
  intro y hy1 hy2
  rw [chanIdx_eq (y := y) (k := k) (by omega) (by linarith) (by linarith)]
  exact invLut_lin_round hi255 hk12 hlo hhi



/-! Integer-certificate forms of the three regional lemmas: every
per-code hypothesis is cleared of denominators (the forward value is
`(200 i + 2805)/53805`, the half-step bounds `(200 i + 2705)/53805` and
`(200 i + 2905)/53805`, the brackets `lo/10^9` and `hi/10^9`), so every
per-code certificate is a decidable comparison of natural numbers. -/

lemma natW_eq (i : ℕ) :
    ((i:ℝ)/255 + 0.055)/1.055 = ((200*i + 2805 : ℕ):ℝ)/53805 := by
  push_cast
  norm_num
  ring

lemma natQlo_eq (i : ℕ) :
    (((i:ℝ) - 1/2)/255 + 0.055)/1.055 = ((200*i + 2705 : ℕ):ℝ)/53805 := by
  push_cast
  norm_num
  ring

lemma natQhi_eq (i : ℕ) :
    (((i:ℝ) + 1/2)/255 + 0.055)/1.055 = ((200*i + 2905 : ℕ):ℝ)/53805 := by
  push_cast
  norm_num
  ring

lemma pow512_le_le {a b c d : ℕ} (hb : 0 < b) (hd : 0 < d)
    (h : a^5 * d^12 ≤ c^12 * b^5) :
    (((a:ℕ):ℝ)/((b:ℕ):ℝ))^(5:ℕ) ≤ (((c:ℕ):ℝ)/((d:ℕ):ℝ))^(12:ℕ) := by
  rw [div_pow, div_pow, div_le_div_iff₀
    (pow_pos (by exact_mod_cast hb) 5) (pow_pos (by exact_mod_cast hd) 12)]
  exact_mod_cast h

lemma pow512_le_le' {a b c d : ℕ} (hb : 0 < b) (hd : 0 < d)
    (h : a^12 * d^5 ≤ c^5 * b^12) :
    (((a:ℕ):ℝ)/((b:ℕ):ℝ))^(12:ℕ) ≤ (((c:ℕ):ℝ)/((d:ℕ):ℝ))^(5:ℕ) := by
  rw [div_pow, div_pow, div_le_div_iff₀
    (pow_pos (by exact_mod_cast hb) 12) (pow_pos (by exact_mod_cast hd) 5)]
  exact_mod_cast h

lemma pow125_lt_lt {a b c d : ℕ} (hb : 0 < b) (hd : 0 < d)
    (h : a^12 * d^5 < c^5 * b^12) :
    (((a:ℕ):ℝ)/((b:ℕ):ℝ))^(12:ℕ) < (((c:ℕ):ℝ)/((d:ℕ):ℝ))^(5:ℕ) := by
  rw [div_pow, div_pow, div_lt_div_iff₀
    (pow_pos (by exact_mod_cast hb) 12) (pow_pos (by exact_mod_cast hd) 5)]
  exact_mod_cast h

lemma pow125_lt_lt' {a b c d : ℕ} (hb : 0 < b) (hd : 0 < d)
    (h : a^5 * d^12 < c^12 * b^5) :
    (((a:ℕ):ℝ)/((b:ℕ):ℝ))^(5:ℕ) < (((c:ℕ):ℝ)/((d:ℕ):ℝ))^(12:ℕ) := by
  rw [div_pow, div_pow, div_lt_div_iff₀
    (pow_pos (by exact_mod_cast hb) 5) (pow_pos (by exact_mod_cast hd) 12)]
  exact_mod_cast h

lemma lutRT_gammaOneN (i k lo hi : ℕ)
    (h1 : i ≤ 255) (h2 : 11 ≤ i) (h3 : 13 ≤ k) (h4 : k ≤ 4095)
    (h6 : lo^5 * 53805^12 ≤ (200*i + 2805)^12 * 1000000000^5)
    (h7 : (200*i + 2805)^12 * 1000000000^5 ≤ hi^5 * 53805^12)
    (h8 : 2000000000*k + 8190000 ≤ 8190*lo + 1000000000)
    (h9 : 8190*hi + 8190000 + 1000000000 < 2000000000*k + 2000000000)
    (h11 : (200*i + 2705)^12 * 4095^5 < k^5 * 53805^12)
    (h12 : k^5 * 53805^12 < (200*i + 2905)^12 * 4095^5) :
    LutRT i := by
  have hcast8 : (2000000000:ℝ)*k + 8190000 ≤ 8190*lo + 1000000000 := by
    exact_mod_cast h8
  have hcast9 : (8190:ℝ)*hi + 8190000 + 1000000000 < 2000000000*k + 2000000000 := by
    exact_mod_cast h9
  have hi11 : (11:ℝ) ≤ (i:ℝ) := by exact_mod_cast h2
  refine lutRT_gammaOne i k ((lo:ℝ)/1000000000) ((hi:ℝ)/1000000000) h1 h2 h3 h4
    (by positivity) ?_ ?_ ?_ ?_ ?_ ?_ ?_
  · rw [natW_eq]
    have h := pow512_le_le (a := lo) (b := 1000000000) (c := 200*i + 2805)
      (d := 53805) (by norm_num) (by norm_num) h6
    push_cast at h ⊢
    exact h
  · rw [natW_eq]
    have h := pow512_le_le' (a := 200*i + 2805) (b := 53805) (c := hi)
      (d := 1000000000) (by norm_num) (by norm_num) h7
    push_cast at h ⊢
    exact h
  · unfold lutDelta
    norm_num at hcast8 ⊢
    linarith
  · unfold lutDelta
    norm_num at hcast9 ⊢
    linarith
  · have h1' : (0:ℝ) ≤ ((i:ℝ) - 1/2)/255 := by
      apply div_nonneg _ (by norm_num)
      linarith
    have h2' : (0:ℝ) ≤ ((i:ℝ) - 1/2)/255 + 0.055 := by
      norm_num at h1' ⊢
      linarith
    exact div_nonneg h2' (by norm_num)
  · rw [natQlo_eq]
    have h := pow125_lt_lt (a := 200*i + 2705) (b := 53805) (c := k)
      (d := 4095) (by norm_num) (by norm_num) h11
    push_cast at h ⊢
    exact h
  · rw [natQhi_eq]
    have h := pow125_lt_lt' (a := k) (b := 4095) (c := 200*i + 2905)
      (d := 53805) (by norm_num) (by norm_num) h12
    push_cast at h ⊢
    exact h

lemma lutRT_gammaTwoN (i k lo hi : ℕ)
    (h1 : i ≤ 255) (h2 : 11 ≤ i) (h3 : 13 ≤ k) (h4 : k + 1 ≤ 4095)
    (h6 : lo^5 * 53805^12 ≤ (200*i + 2805)^12 * 1000000000^5)
    (h7 : (200*i + 2805)^12 * 1000000000^5 ≤ hi^5 * 53805^12)
    (h8 : 2000000000*k + 8190000 ≤ 8190*lo + 1000000000)
    (h9 : 8190*hi + 8190000 + 1000000000 < 2000000000*k + 4000000000)
    (h11 : (200*i + 2705)^12 * 4095^5 < k^5 * 53805^12)
    (h12 : k^5 * 53805^12 < (200*i + 2905)^12 * 4095^5)
    (h13 : (200*i + 2705)^12 * 4095^5 < (k+1)^5 * 53805^12)
    (h14 : (k+1)^5 * 53805^12 < (200*i + 2905)^12 * 4095^5) :
    LutRT i := by
  have hcast8 : (2000000000:ℝ)*k + 8190000 ≤ 8190*lo + 1000000000 := by
    exact_mod_cast h8
  have hcast9 : (8190:ℝ)*hi + 8190000 + 1000000000 < 2000000000*k + 4000000000 := by
    exact_mod_cast h9
  have hi11 : (11:ℝ) ≤ (i:ℝ) := by exact_mod_cast h2
  refine lutRT_gammaTwo i k ((lo:ℝ)/1000000000) ((hi:ℝ)/1000000000) h1 h2 h3 h4
    (by positivity) ?_ ?_ ?_ ?_ ?_ ?_ ?_ ?_ ?_
  · rw [natW_eq]
    have h := pow512_le_le (a := lo) (b := 1000000000) (c := 200*i + 2805)
      (d := 53805) (by norm_num) (by norm_num) h6
    push_cast at h ⊢
    exact h
  · rw [natW_eq]
    have h := pow512_le_le' (a := 200*i + 2805) (b := 53805) (c := hi)
      (d := 1000000000) (by norm_num) (by norm_num) h7
    push_cast at h ⊢
    exact h
  · unfold lutDelta
    norm_num at hcast8 ⊢
    linarith
  · unfold lutDelta
    norm_num at hcast9 ⊢
    linarith
  · have h1' : (0:ℝ) ≤ ((i:ℝ) - 1/2)/255 := by
      apply div_nonneg _ (by norm_num)
      linarith
    have h2' : (0:ℝ) ≤ ((i:ℝ) - 1/2)/255 + 0.055 := by
      norm_num at h1' ⊢
      linarith
    exact div_nonneg h2' (by norm_num)
  · rw [natQlo_eq]
    have h := pow125_lt_lt (a := 200*i + 2705) (b := 53805) (c := k)
      (d := 4095) (by norm_num) (by norm_num) h11
    push_cast at h ⊢
    exact h
  · rw [natQhi_eq]
    have h := pow125_lt_lt' (a := k) (b := 4095) (c := 200*i + 2905)
      (d := 53805) (by norm_num) (by norm_num) h12
    push_cast at h ⊢
    exact h
  · rw [natQlo_eq]
    have h := pow125_lt_lt (a := 200*i + 2705) (b := 53805) (c := k + 1)
      (d := 4095) (by norm_num) (by norm_num) h13
    push_cast at h ⊢
    exact h
  · rw [natQhi_eq]
    have h := pow125_lt_lt' (a := k + 1) (b := 4095) (c := 200*i + 2905)
      (d := 53805) (by norm_num) (by norm_num) h14
    push_cast at h ⊢
    exact h

lemma lutRT_linOneN (i k : ℕ)
    (h1 : i ≤ 255) (h2 : i ≤ 10) (h3 : k ≤ 12)
    (h4 : 32946000000*k + 134913870 ≤ 40950000000*i + 16473000000)
    (h5 : 40950000000*i + 134913870 + 16473000000 < 32946000000*(k+1))
    (h6 : 13650*i < 10982*k + 6825)
    (h7 : 10982*k < 13650*i + 6825) :
    LutRT i := by
  have hc4 : (32946000000:ℝ)*k + 134913870 ≤ 40950000000*i + 16473000000 := by
    exact_mod_cast h4
  have hc5 : (40950000000:ℝ)*i + 134913870 + 16473000000 < 32946000000*(k+1) := by
    exact_mod_cast h5
  have hc6 : (13650:ℝ)*i < 10982*k + 6825 := by exact_mod_cast h6
  have hc7 : (10982:ℝ)*k < 13650*i + 6825 := by exact_mod_cast h7
  refine lutRT_linOne i k h1 h2 h3 ?_ ?_ ?_ ?_
  · unfold lutDelta
    norm_num at hc4 ⊢
    linarith
  · unfold lutDelta
    norm_num at hc5 ⊢
    linarith
  · norm_num at hc6 ⊢
    linarith
  · norm_num at hc7 ⊢
    linarith

/-- LUT round-trip facts for byte codes 0-31, from exact
integer bracketing certificates. -/
lemma lutBlock0 : LutRT 0 ∧ LutRT 1 ∧ LutRT 2 ∧ LutRT 3 ∧ LutRT 4 ∧ LutRT 5 ∧ LutRT 6 ∧ LutRT 7 ∧ LutRT 8 ∧ LutRT 9 ∧ LutRT 10 ∧ LutRT 11 ∧ LutRT 12 ∧ LutRT 13 ∧ LutRT 14 ∧ LutRT 15 ∧ LutRT 16 ∧ LutRT 17 ∧ LutRT 18 ∧ LutRT 19 ∧ LutRT 20 ∧ LutRT 21 ∧ LutRT 22 ∧ LutRT 23 ∧ LutRT 24 ∧ LutRT 25 ∧ LutRT 26 ∧ LutRT 27 ∧ LutRT 28 ∧ LutRT 29 ∧ LutRT 30 ∧ LutRT 31 :=
  ⟨lutRT_linOneN 0 0 (by decide) (by decide) (by decide)
    (by decide) (by decide) (by decide) (by decide),
   lutRT_linOneN 1 1 (by decide) (by decide) (by decide)
    (by decide) (by decide) (by decide) (by decide),
   lutRT_linOneN 2 2 (by decide) (by decide) (by decide)
    (by decide) (by decide) (by decide) (by decide),
   lutRT_linOneN 3 4 (by decide) (by decide) (by decide)
    (by decide) (by decide) (by decide) (by decide),
   lutRT_linOneN 4 5 (by decide) (by decide) (by decide)
    (by decide) (by decide) (by decide) (by decide),
   lutRT_linOneN 5 6 (by decide) (by decide) (by decide)
    (by decide) (by decide) (by decide) (by decide),
   lutRT_linOneN 6 7 (by decide) (by decide) (by decide)
    (by decide) (by decide) (by decide) (by decide),
   lutRT_linOneN 7 9 (by decide) (by decide) (by decide)
    (by decide) (by decide) (by decide) (by decide),
   lutRT_linOneN 8 10 (by decide) (by decide) (by decide)
    (by decide) (by decide) (by decide) (by decide),
   lutRT_linOneN 9 11 (by decide) (by decide) (by decide)
    (by decide) (by decide) (by decide) (by decide),
   lutRT_linOneN 10 12 (by decide) (by decide) (by decide)
    (by decide) (by decide) (by decide) (by decide),
   lutRT_gammaOneN 11 14 3346516 3346556
    (by decide) (by decide) (by decide) (by decide) (by decide)
    (by decide) (by decide) (by decide) (by decide) (by decide),
   lutRT_gammaOneN 12 15 3676487 3676527
    (by decide) (by decide) (by decide) (by decide) (by decide)
    (by decide) (by decide) (by decide) (by decide) (by decide),
   lutRT_gammaOneN 13 16 4024697 4024737
    (by decide) (by decide) (by decide) (by decide) (by decide)
    (by decide) (by decide) (by decide) (by decide) (by decide),
   lutRT_gammaOneN 14 18 4391422 4391462
    (by decide) (by decide) (by decide) (by decide) (by decide)
    (by decide) (by decide) (by decide) (by decide) (by decide),
   lutRT_gammaOneN 15 20 4776933 4776973
    (by decide) (by decide) (by decide) (by decide) (by decide)
    (by decide) (by decide) (by decide) (by decide) (by decide),
   lutRT_gammaOneN 16 21 5181497 5181537
    (by decide) (by decide) (by decide) (by decide) (by decide)
    (by decide) (by decide) (by decide) (by decide) (by decide),
   lutRT_gammaOneN 17 23 5605372 5605412
    (by decide) (by decide) (by decide) (by decide) (by decide)
    (by decide) (by decide) (by decide) (by decide) (by decide),
   lutRT_gammaOneN 18 25 6048813 6048853
    (by decide) (by decide) (by decide) (by decide) (by decide)
    (by decide) (by decide) (by decide) (by decide) (by decide),
   lutRT_gammaOneN 19 27 6512071 6512111
    (by decide) (by decide) (by decide) (by decide) (by decide)
    (by decide) (by decide) (by decide) (by decide) (by decide),
   lutRT_gammaOneN 20 29 6995390 6995430
    (by decide) (by decide) (by decide) (by decide) (by decide)
    (by decide) (by decide) (by decide) (by decide) (by decide),
   lutRT_gammaOneN 21 31 7499012 7499052
    (by decide) (by decide) (by decide) (by decide) (by decide)
    (by decide) (by decide) (by decide) (by decide) (by decide),
   lutRT_gammaOneN 22 33 8023173 8023213
    (by decide) (by decide) (by decide) (by decide) (by decide)
    (by decide) (by decide) (by decide) (by decide) (by decide),
   lutRT_gammaOneN 23 35 8568106 8568146
    (by decide) (by decide) (by decide) (by decide) (by decide)
    (by decide) (by decide) (by decide) (by decide) (by decide),
   lutRT_gammaOneN 24 37 9134039 9134079
    (by decide) (by decide) (by decide) (by decide) (by decide)
    (by decide) (by decide) (by decide) (by decide) (by decide),
   lutRT_gammaOneN 25 40 9721197 9721237
    (by decide) (by decide) (by decide) (by decide) (by decide)
    (by decide) (by decide) (by decide) (by decide) (by decide),
   lutRT_gammaOneN 26 42 10329803 10329843
    (by decide) (by decide) (by decide) (by decide) (by decide)
    (by decide) (by decide) (by decide) (by decide) (by decide),
   lutRT_gammaOneN 27 45 10960074 10960114
    (by decide) (by decide) (by decide) (by decide) (by decide)
    (by decide) (by decide) (by decide) (by decide) (by decide),
   lutRT_gammaOneN 28 48 11612225 11612265
    (by decide) (by decide) (by decide) (by decide) (by decide)
    (by decide) (by decide) (by decide) (by decide) (by decide),
   lutRT_gammaOneN 29 50 12286468 12286508
    (by decide) (by decide) (by decide) (by decide) (by decide)
    (by decide) (by decide) (by decide) (by decide) (by decide),
   lutRT_gammaOneN 30 53 12983012 12983052
    (by decide) (by decide) (by decide) (by decide) (by decide)
    (by decide) (by decide) (by decide) (by decide) (by decide),
   lutRT_gammaOneN 31 56 13702063 13702103
    (by decide) (by decide) (by decide) (by decide) (by decide)
    (by decide) (by decide) (by decide) (by decide) (by decide)⟩

/-- LUT round-trip facts for byte codes 32-63, from exact
integer bracketing certificates. -/
lemma lutBlock1 : LutRT 32 ∧ LutRT 33 ∧ LutRT 34 ∧ LutRT 35 ∧ LutRT 36 ∧ LutRT 37 ∧ LutRT 38 ∧ LutRT 39 ∧ LutRT 40 ∧ LutRT 41 ∧ LutRT 42 ∧ LutRT 43 ∧ LutRT 44 ∧ LutRT 45 ∧ LutRT 46 ∧ LutRT 47 ∧ LutRT 48 ∧ LutRT 49 ∧ LutRT 50 ∧ LutRT 51 ∧ LutRT 52 ∧ LutRT 53 ∧ LutRT 54 ∧ LutRT 55 ∧ LutRT 56 ∧ LutRT 57 ∧ LutRT 58 ∧ LutRT 59 ∧ LutRT 60 ∧ LutRT 61 ∧ LutRT 62 ∧ LutRT 63 :=
  ⟨lutRT_gammaOneN 32 59 14443824 14443864
    (by decide) (by decide) (by decide) (by decide) (by decide)
    (by decide) (by decide) (by decide) (by decide) (by decide),
   lutRT_gammaOneN 33 62 15208494 15208534
    (by decide) (by decide) (by decide) (by decide) (by decide)
    (by decide) (by decide) (by decide) (by decide) (by decide),
   lutRT_gammaOneN 34 66 15996273 15996313
    (by decide) (by decide) (by decide) (by decide) (by decide)
    (by decide) (by decide) (by decide) (by decide) (by decide),
   lutRT_gammaOneN 35 69 16807356 16807396
    (by decide) (by decide) (by decide) (by decide) (by decide)
    (by decide) (by decide) (by decide) (by decide) (by decide),
   lutRT_gammaOneN 36 72 17641934 17641974
    (by decide) (by decide) (by decide) (by decide) (by decide)
    (by decide) (by decide) (by decide) (by decide) (by decide),
   lutRT_gammaOneN 37 76 18500200 18500240
    (by decide) (by decide) (by decide) (by decide) (by decide)
    (by decide) (by decide) (by decide) (by decide) (by decide),
   lutRT_gammaOneN 38 79 19382341 19382381
    (by decide) (by decide) (by decide) (by decide) (by decide)
    (by decide) (by decide) (by decide) (by decide) (by decide),
   lutRT_gammaOneN 39 83 20288543 20288583
    (by decide) (by decide) (by decide) (by decide) (by decide)
    (by decide) (by decide) (by decide) (by decide) (by decide),
   lutRT_gammaOneN 40 87 21218990 21219030
    (by decide) (by decide) (by decide) (by decide) (by decide)
    (by decide) (by decide) (by decide) (by decide) (by decide),
   lutRT_gammaOneN 41 91 22173865 22173905
    (by decide) (by decide) (by decide) (by decide) (by decide)
    (by decide) (by decide) (by decide) (by decide) (by decide),
   lutRT_gammaOneN 42 95 23153346 23153386
    (by decide) (by decide) (by decide) (by decide) (by decide)
    (by decide) (by decide) (by decide) (by decide) (by decide),
   lutRT_gammaOneN 43 99 24157612 24157652
    (by decide) (by decide) (by decide) (by decide) (by decide)
    (by decide) (by decide) (by decide) (by decide) (by decide),
   lutRT_gammaOneN 44 103 25186840 25186880
    (by decide) (by decide) (by decide) (by decide) (by decide)
    (by decide) (by decide) (by decide) (by decide) (by decide),
   lutRT_gammaOneN 45 107 26241202 26241242
    (by decide) (by decide) (by decide) (by decide) (by decide)
    (by decide) (by decide) (by decide) (by decide) (by decide),
   lutRT_gammaOneN 46 112 27320872 27320912
    (by decide) (by decide) (by decide) (by decide) (by decide)
    (by decide) (by decide) (by decide) (by decide) (by decide),
   lutRT_gammaOneN 47 116 28426020 28426060
    (by decide) (by decide) (by decide) (by decide) (by decide)
    (by decide) (by decide) (by decide) (by decide) (by decide),
   lutRT_gammaOneN 48 121 29556814 29556854
    (by decide) (by decide) (by decide) (by decide) (by decide)
    (by decide) (by decide) (by decide) (by decide) (by decide),
   lutRT_gammaOneN 49 126 30713424 30713464
    (by decide) (by decide) (by decide) (by decide) (by decide)
    (by decide) (by decide) (by decide) (by decide) (by decide),
   lutRT_gammaOneN 50 131 31896013 31896053
    (by decide) (by decide) (by decide) (by decide) (by decide)
    (by decide) (by decide) (by decide) (by decide) (by decide),
   lutRT_gammaOneN 51 136 33104747 33104787
    (by decide) (by decide) (by decide) (by decide) (by decide)
    (by decide) (by decide) (by decide) (by decide) (by decide),
   lutRT_gammaOneN 52 141 34339787 34339827
    (by decide) (by decide) (by decide) (by decide) (by decide)
    (by decide) (by decide) (by decide) (by decide) (by decide),
   lutRT_gammaOneN 53 146 35601295 35601335
    (by decide) (by decide) (by decide) (by decide) (by decide)
    (by decide) (by decide) (by decide) (by decide) (by decide),
   lutRT_gammaOneN 54 151 36889430 36889470
    (by decide) (by decide) (by decide) (by decide) (by decide)
    (by decide) (by decide) (by decide) (by decide) (by decide),
   lutRT_gammaOneN 55 156 38204352 38204392
    (by decide) (by decide) (by decide) (by decide) (by decide)
    (by decide) (by decide) (by decide) (by decide) (by decide),
   lutRT_gammaOneN 56 162 39546215 39546255
    (by decide) (by decide) (by decide) (by decide) (by decide)
    (by decide) (by decide) (by decide) (by decide) (by decide),
   lutRT_gammaOneN 57 168 40915177 40915217
    (by decide) (by decide) (by decide) (by decide) (by decide)
    (by decide) (by decide) (by decide) (by decide) (by decide),
   lutRT_gammaOneN 58 173 42311391 42311431
    (by decide) (by decide) (by decide) (by decide) (by decide)
    (by decide) (by decide) (by decide) (by decide) (by decide),
   lutRT_gammaOneN 59 179 43735009 43735049
    (by decide) (by decide) (by decide) (by decide) (by decide)
    (by decide) (by decide) (by decide) (by decide) (by decide),
   lutRT_gammaOneN 60 185 45186184 45186224
    (by decide) (by decide) (by decide) (by decide) (by decide)
    (by decide) (by decide) (by decide) (by decide) (by decide),
   lutRT_gammaOneN 61 191 46665066 46665106
    (by decide) (by decide) (by decide) (by decide) (by decide)
    (by decide) (by decide) (by decide) (by decide) (by decide),
   lutRT_gammaOneN 62 197 48171804 48171844
    (by decide) (by decide) (by decide) (by decide) (by decide)
    (by decide) (by decide) (by decide) (by decide) (by decide),
   lutRT_gammaOneN 63 204 49706546 49706586
    (by decide) (by decide) (by decide) (by decide) (by decide)
    (by decide) (by decide) (by decide) (by decide) (by decide)⟩

/-- LUT round-trip facts for byte codes 64-95, from exact
integer bracketing certificates. -/
lemma lutBlock2 : LutRT 64 ∧ LutRT 65 ∧ LutRT 66 ∧ LutRT 67 ∧ LutRT 68 ∧ LutRT 69 ∧ LutRT 70 ∧ LutRT 71 ∧ LutRT 72 ∧ LutRT 73 ∧ LutRT 74 ∧ LutRT 75 ∧ LutRT 76 ∧ LutRT 77 ∧ LutRT 78 ∧ LutRT 79 ∧ LutRT 80 ∧ LutRT 81 ∧ LutRT 82 ∧ LutRT 83 ∧ LutRT 84 ∧ LutRT 85 ∧ LutRT 86 ∧ LutRT 87 ∧ LutRT 88 ∧ LutRT 89 ∧ LutRT 90 ∧ LutRT 91 ∧ LutRT 92 ∧ LutRT 93 ∧ LutRT 94 ∧ LutRT 95 :=
  ⟨lutRT_gammaOneN 64 210 51269438 51269478
    (by decide) (by decide) (by decide) (by decide) (by decide)
    (by decide) (by decide) (by decide) (by decide) (by decide),
   lutRT_gammaOneN 65 216 52860627 52860667
    (by decide) (by decide) (by decide) (by decide) (by decide)
    (by decide) (by decide) (by decide) (by decide) (by decide),
   lutRT_gammaOneN 66 223 54480256 54480296
    (by decide) (by decide) (by decide) (by decide) (by decide)
    (by decide) (by decide) (by decide) (by decide) (by decide),
   lutRT_gammaOneN 67 230 56128470 56128510
    (by decide) (by decide) (by decide) (by decide) (by decide)
    (by decide) (by decide) (by decide) (by decide) (by decide),
   lutRT_gammaOneN 68 237 57805410 57805450
    (by decide) (by decide) (by decide) (by decide) (by decide)
    (by decide) (by decide) (by decide) (by decide) (by decide),
   lutRT_gammaOneN 69 244 59511218 59511258
    (by decide) (by decide) (by decide) (by decide) (by decide)
    (by decide) (by decide) (by decide) (by decide) (by decide),
   lutRT_gammaOneN 70 251 61246034 61246074
    (by decide) (by decide) (by decide) (by decide) (by decide)
    (by decide) (by decide) (by decide) (by decide) (by decide),
   lutRT_gammaOneN 71 258 63009998 63010038
    (by decide) (by decide) (by decide) (by decide) (by decide)
    (by decide) (by decide) (by decide) (by decide) (by decide),
   lutRT_gammaOneN 72 265 64803247 64803287
    (by decide) (by decide) (by decide) (by decide) (by decide)
    (by decide) (by decide) (by decide) (by decide) (by decide),
   lutRT_gammaOneN 73 273 66625919 66625959
    (by decide) (by decide) (by decide) (by decide) (by decide)
    (by decide) (by decide) (by decide) (by decide) (by decide),
   lutRT_gammaOneN 74 280 68478150 68478190
    (by decide) (by decide) (by decide) (by decide) (by decide)
    (by decide) (by decide) (by decide) (by decide) (by decide),
   lutRT_gammaOneN 75 288 70360076 70360116
    (by decide) (by decide) (by decide) (by decide) (by decide)
    (by decide) (by decide) (by decide) (by decide) (by decide),
   lutRT_gammaOneN 76 296 72271831 72271871
    (by decide) (by decide) (by decide) (by decide) (by decide)
    (by decide) (by decide) (by decide) (by decide) (by decide),
   lutRT_gammaOneN 77 304 74213548 74213588
    (by decide) (by decide) (by decide) (by decide) (by decide)
    (by decide) (by decide) (by decide) (by decide) (by decide),
   lutRT_gammaOneN 78 312 76185361 76185401
    (by decide) (by decide) (by decide) (by decide) (by decide)
    (by decide) (by decide) (by decide) (by decide) (by decide),
   lutRT_gammaOneN 79 320 78187402 78187442
    (by decide) (by decide) (by decide) (by decide) (by decide)
    (by decide) (by decide) (by decide) (by decide) (by decide),
   lutRT_gammaTwoN 80 328 80219800 80219840
    (by decide) (by decide) (by decide) (by decide) (by decide)
    (by decide) (by decide) (by decide) (by decide) (by decide)
    (by decide) (by decide),
   lutRT_gammaOneN 81 337 82282687 82282727
    (by decide) (by decide) (by decide) (by decide) (by decide)
    (by decide) (by decide) (by decide) (by decide) (by decide),
   lutRT_gammaOneN 82 346 84376192 84376232
    (by decide) (by decide) (by decide) (by decide) (by decide)
    (by decide) (by decide) (by decide) (by decide) (by decide),
   lutRT_gammaOneN 83 354 86500442 86500482
    (by decide) (by decide) (by decide) (by decide) (by decide)
    (by decide) (by decide) (by decide) (by decide) (by decide),
   lutRT_gammaOneN 84 363 88655566 88655606
    (by decide) (by decide) (by decide) (by decide) (by decide)
    (by decide) (by decide) (by decide) (by decide) (by decide),
   lutRT_gammaOneN 85 372 90841691 90841731
    (by decide) (by decide) (by decide) (by decide) (by decide)
    (by decide) (by decide) (by decide) (by decide) (by decide),
   lutRT_gammaOneN 86 381 93058943 93058983
    (by decide) (by decide) (by decide) (by decide) (by decide)
    (by decide) (by decide) (by decide) (by decide) (by decide),
   lutRT_gammaOneN 87 390 95307447 95307487
    (by decide) (by decide) (by decide) (by decide) (by decide)
    (by decide) (by decide) (by decide) (by decide) (by decide),
   lutRT_gammaOneN 88 400 97587327 97587367
    (by decide) (by decide) (by decide) (by decide) (by decide)
    (by decide) (by decide) (by decide) (by decide) (by decide),
   lutRT_gammaOneN 89 409 99898708 99898748
    (by decide) (by decide) (by decide) (by decide) (by decide)
    (by decide) (by decide) (by decide) (by decide) (by decide),
   lutRT_gammaOneN 90 419 102241713 102241753
    (by decide) (by decide) (by decide) (by decide) (by decide)
    (by decide) (by decide) (by decide) (by decide) (by decide),
   lutRT_gammaOneN 91 428 104616464 104616504
    (by decide) (by decide) (by decide) (by decide) (by decide)
    (by decide) (by decide) (by decide) (by decide) (by decide),
   lutRT_gammaOneN 92 438 107023083 107023123
    (by decide) (by decide) (by decide) (by decide) (by decide)
    (by decide) (by decide) (by decide) (by decide) (by decide),
   lutRT_gammaOneN 93 448 109461691 109461731
    (by decide) (by decide) (by decide) (by decide) (by decide)
    (by decide) (by decide) (by decide) (by decide) (by decide),
   lutRT_gammaOneN 94 458 111932408 111932448
    (by decide) (by decide) (by decide) (by decide) (by decide)
    (by decide) (by decide) (by decide) (by decide) (by decide),
   lutRT_gammaOneN 95 469 114435354 114435394
    (by decide) (by decide) (by decide) (by decide) (by decide)
    (by decide) (by decide) (by decide) (by decide) (by decide)⟩

/-- LUT round-trip facts for byte codes 96-127, from exact
integer bracketing certificates. -/
lemma lutBlock3 : LutRT 96 ∧ LutRT 97 ∧ LutRT 98 ∧ LutRT 99 ∧ LutRT 100 ∧ LutRT 101 ∧ LutRT 102 ∧ LutRT 103 ∧ LutRT 104 ∧ LutRT 105 ∧ LutRT 106 ∧ LutRT 107 ∧ LutRT 108 ∧ LutRT 109 ∧ LutRT 110 ∧ LutRT 111 ∧ LutRT 112 ∧ LutRT 113 ∧ LutRT 114 ∧ LutRT 115 ∧ LutRT 116 ∧ LutRT 117 ∧ LutRT 118 ∧ LutRT 119 ∧ LutRT 120 ∧ LutRT 121 ∧ LutRT 122 ∧ LutRT 123 ∧ LutRT 124 ∧ LutRT 125 ∧ LutRT 126 ∧ LutRT 127 :=
  ⟨lutRT_gammaOneN 96 479 116970648 116970688
    (by decide) (by decide) (by decide) (by decide) (by decide)
    (by decide) (by decide) (by decide) (by decide) (by decide),
   lutRT_gammaOneN 97 490 119538408 119538448
    (by decide) (by decide) (by decide) (by decide) (by decide)
    (by decide) (by decide) (by decide) (by decide) (by decide),
   lutRT_gammaOneN 98 500 122138752 122138792
    (by decide) (by decide) (by decide) (by decide) (by decide)
    (by decide) (by decide) (by decide) (by decide) (by decide),
   lutRT_gammaOneN 99 511 124771798 124771838
    (by decide) (by decide) (by decide) (by decide) (by decide)
    (by decide) (by decide) (by decide) (by decide) (by decide),
   lutRT_gammaOneN 100 522 127437660 127437700
    (by decide) (by decide) (by decide) (by decide) (by decide)
    (by decide) (by decide) (by decide) (by decide) (by decide),
   lutRT_gammaOneN 101 533 130136457 130136497
    (by decide) (by decide) (by decide) (by decide) (by decide)
    (by decide) (by decide) (by decide) (by decide) (by decide),
   lutRT_gammaOneN 102 544 132868302 132868342
    (by decide) (by decide) (by decide) (by decide) (by decide)
    (by decide) (by decide) (by decide) (by decide) (by decide),
   lutRT_gammaOneN 103 555 135633310 135633350
    (by decide) (by decide) (by decide) (by decide) (by decide)
    (by decide) (by decide) (by decide) (by decide) (by decide),
   lutRT_gammaOneN 104 567 138431595 138431635
    (by decide) (by decide) (by decide) (by decide) (by decide)
    (by decide) (by decide) (by decide) (by decide) (by decide),
   lutRT_gammaOneN 105 578 141263271 141263311
    (by decide) (by decide) (by decide) (by decide) (by decide)
    (by decide) (by decide) (by decide) (by decide) (by decide),
   lutRT_gammaOneN 106 590 144128451 144128491
    (by decide) (by decide) (by decide) (by decide) (by decide)
    (by decide) (by decide) (by decide) (by decide) (by decide),
   lutRT_gammaOneN 107 602 147027246 147027286
    (by decide) (by decide) (by decide) (by decide) (by decide)
    (by decide) (by decide) (by decide) (by decide) (by decide),
   lutRT_gammaOneN 108 614 149959770 149959810
    (by decide) (by decide) (by decide) (by decide) (by decide)
    (by decide) (by decide) (by decide) (by decide) (by decide),
   lutRT_gammaOneN 109 626 152926132 152926172
    (by decide) (by decide) (by decide) (by decide) (by decide)
    (by decide) (by decide) (by decide) (by decide) (by decide),
   lutRT_gammaOneN 110 639 155926444 155926484
    (by decide) (by decide) (by decide) (by decide) (by decide)
    (by decide) (by decide) (by decide) (by decide) (by decide),
   lutRT_gammaOneN 111 651 158960815 158960855
    (by decide) (by decide) (by decide) (by decide) (by decide)
    (by decide) (by decide) (by decide) (by decide) (by decide),
   lutRT_gammaOneN 112 664 162029356 162029396
    (by decide) (by decide) (by decide) (by decide) (by decide)
    (by decide) (by decide) (by decide) (by decide) (by decide),
   lutRT_gammaOneN 113 676 165132175 165132215
    (by decide) (by decide) (by decide) (by decide) (by decide)
    (by decide) (by decide) (by decide) (by decide) (by decide),
   lutRT_gammaOneN 114 689 168269380 168269420
    (by decide) (by decide) (by decide) (by decide) (by decide)
    (by decide) (by decide) (by decide) (by decide) (by decide),
   lutRT_gammaOneN 115 702 171441081 171441121
    (by decide) (by decide) (by decide) (by decide) (by decide)
    (by decide) (by decide) (by decide) (by decide) (by decide),
   lutRT_gammaOneN 116 715 174647384 174647424
    (by decide) (by decide) (by decide) (by decide) (by decide)
    (by decide) (by decide) (by decide) (by decide) (by decide),
   lutRT_gammaOneN 117 728 177888396 177888436
    (by decide) (by decide) (by decide) (by decide) (by decide)
    (by decide) (by decide) (by decide) (by decide) (by decide),
   lutRT_gammaOneN 118 742 181164224 181164264
    (by decide) (by decide) (by decide) (by decide) (by decide)
    (by decide) (by decide) (by decide) (by decide) (by decide),
   lutRT_gammaOneN 119 755 184474975 184475015
    (by decide) (by decide) (by decide) (by decide) (by decide)
    (by decide) (by decide) (by decide) (by decide) (by decide),
   lutRT_gammaOneN 120 769 187820752 187820792
    (by decide) (by decide) (by decide) (by decide) (by decide)
    (by decide) (by decide) (by decide) (by decide) (by decide),
   lutRT_gammaOneN 121 783 191201663 191201703
    (by decide) (by decide) (by decide) (by decide) (by decide)
    (by decide) (by decide) (by decide) (by decide) (by decide),
   lutRT_gammaOneN 122 797 194617810 194617850
    (by decide) (by decide) (by decide) (by decide) (by decide)
    (by decide) (by decide) (by decide) (by decide) (by decide),
   lutRT_gammaOneN 123 811 198069300 198069340
    (by decide) (by decide) (by decide) (by decide) (by decide)
    (by decide) (by decide) (by decide) (by decide) (by decide),
   lutRT_gammaOneN 124 825 201556234 201556274
    (by decide) (by decide) (by decide) (by decide) (by decide)
    (by decide) (by decide) (by decide) (by decide) (by decide),
   lutRT_gammaOneN 125 840 205078716 205078756
    (by decide) (by decide) (by decide) (by decide) (by decide)
    (by decide) (by decide) (by decide) (by decide) (by decide),
   lutRT_gammaOneN 126 854 208636850 208636890
    (by decide) (by decide) (by decide) (by decide) (by decide)
    (by decide) (by decide) (by decide) (by decide) (by decide),
   lutRT_gammaOneN 127 869 212230737 212230777
    (by decide) (by decide) (by decide) (by decide) (by decide)
    (by decide) (by decide) (by decide) (by decide) (by decide)⟩

/-- LUT round-trip facts for byte codes 128-159, from exact
integer bracketing certificates. -/
lemma lutBlock4 : LutRT 128 ∧ LutRT 129 ∧ LutRT 130 ∧ LutRT 131 ∧ LutRT 132 ∧ LutRT 133 ∧ LutRT 134 ∧ LutRT 135 ∧ LutRT 136 ∧ LutRT 137 ∧ LutRT 138 ∧ LutRT 139 ∧ LutRT 140 ∧ LutRT 141 ∧ LutRT 142 ∧ LutRT 143 ∧ LutRT 144 ∧ LutRT 145 ∧ LutRT 146 ∧ LutRT 147 ∧ LutRT 148 ∧ LutRT 149 ∧ LutRT 150 ∧ LutRT 151 ∧ LutRT 152 ∧ LutRT 153 ∧ LutRT 154 ∧ LutRT 155 ∧ LutRT 156 ∧ LutRT 157 ∧ LutRT 158 ∧ LutRT 159 :=
  ⟨lutRT_gammaOneN 128 884 215860480 215860520
    (by decide) (by decide) (by decide) (by decide) (by decide)
    (by decide) (by decide) (by decide) (by decide) (by decide),
   lutRT_gammaOneN 129 899 219526180 219526220
    (by decide) (by decide) (by decide) (by decide) (by decide)
    (by decide) (by decide) (by decide) (by decide) (by decide),
   lutRT_gammaOneN 130 914 223227937 223227977
    (by decide) (by decide) (by decide) (by decide) (by decide)
    (by decide) (by decide) (by decide) (by decide) (by decide),
   lutRT_gammaOneN 131 929 226965854 226965894
    (by decide) (by decide) (by decide) (by decide) (by decide)
    (by decide) (by decide) (by decide) (by decide) (by decide),
   lutRT_gammaOneN 132 945 230740029 230740069
    (by decide) (by decide) (by decide) (by decide) (by decide)
    (by decide) (by decide) (by decide) (by decide) (by decide),
   lutRT_gammaOneN 133 960 234550562 234550602
    (by decide) (by decide) (by decide) (by decide) (by decide)
    (by decide) (by decide) (by decide) (by decide) (by decide),
   lutRT_gammaOneN 134 976 238397554 238397594
    (by decide) (by decide) (by decide) (by decide) (by decide)
    (by decide) (by decide) (by decide) (by decide) (by decide),
   lutRT_gammaOneN 135 992 242281102 242281142
    (by decide) (by decide) (by decide) (by decide) (by decide)
    (by decide) (by decide) (by decide) (by decide) (by decide),
   lutRT_gammaOneN 136 1008 246201307 246201347
    (by decide) (by decide) (by decide) (by decide) (by decide)
    (by decide) (by decide) (by decide) (by decide) (by decide),
   lutRT_gammaOneN 137 1024 250158265 250158305
    (by decide) (by decide) (by decide) (by decide) (by decide)
    (by decide) (by decide) (by decide) (by decide) (by decide),
   lutRT_gammaOneN 138 1041 254152074 254152114
    (by decide) (by decide) (by decide) (by decide) (by decide)
    (by decide) (by decide) (by decide) (by decide) (by decide),
   lutRT_gammaOneN 139 1057 258182833 258182873
    (by decide) (by decide) (by decide) (by decide) (by decide)
    (by decide) (by decide) (by decide) (by decide) (by decide),
   lutRT_gammaOneN 140 1074 262250638 262250678
    (by decide) (by decide) (by decide) (by decide) (by decide)
    (by decide) (by decide) (by decide) (by decide) (by decide),
   lutRT_gammaOneN 141 1091 266355585 266355625
    (by decide) (by decide) (by decide) (by decide) (by decide)
    (by decide) (by decide) (by decide) (by decide) (by decide),
   lutRT_gammaOneN 142 1108 270497771 270497811
    (by decide) (by decide) (by decide) (by decide) (by decide)
    (by decide) (by decide) (by decide) (by decide) (by decide),
   lutRT_gammaOneN 143 1125 274677292 274677332
    (by decide) (by decide) (by decide) (by decide) (by decide)
    (by decide) (by decide) (by decide) (by decide) (by decide),
   lutRT_gammaOneN 144 1142 278894243 278894283
    (by decide) (by decide) (by decide) (by decide) (by decide)
    (by decide) (by decide) (by decide) (by decide) (by decide),
   lutRT_gammaOneN 145 1159 283148720 283148760
    (by decide) (by decide) (by decide) (by decide) (by decide)
    (by decide) (by decide) (by decide) (by decide) (by decide),
   lutRT_gammaOneN 146 1177 287440818 287440858
    (by decide) (by decide) (by decide) (by decide) (by decide)
    (by decide) (by decide) (by decide) (by decide) (by decide),
   lutRT_gammaOneN 147 1195 291770630 291770670
    (by decide) (by decide) (by decide) (by decide) (by decide)
    (by decide) (by decide) (by decide) (by decide) (by decide),
   lutRT_gammaOneN 148 1213 296138251 296138291
    (by decide) (by decide) (by decide) (by decide) (by decide)
    (by decide) (by decide) (by decide) (by decide) (by decide),
   lutRT_gammaOneN 149 1231 300543774 300543814
    (by decide) (by decide) (by decide) (by decide) (by decide)
    (by decide) (by decide) (by decide) (by decide) (by decide),
   lutRT_gammaOneN 150 1249 304987294 304987334
    (by decide) (by decide) (by decide) (by decide) (by decide)
    (by decide) (by decide) (by decide) (by decide) (by decide),
   lutRT_gammaOneN 151 1267 309468903 309468943
    (by decide) (by decide) (by decide) (by decide) (by decide)
    (by decide) (by decide) (by decide) (by decide) (by decide),
   lutRT_gammaOneN 152 1286 313988693 313988733
    (by decide) (by decide) (by decide) (by decide) (by decide)
    (by decide) (by decide) (by decide) (by decide) (by decide),
   lutRT_gammaOneN 153 1304 318546758 318546798
    (by decide) (by decide) (by decide) (by decide) (by decide)
    (by decide) (by decide) (by decide) (by decide) (by decide),
   lutRT_gammaOneN 154 1323 323143189 323143229
    (by decide) (by decide) (by decide) (by decide) (by decide)
    (by decide) (by decide) (by decide) (by decide) (by decide),
   lutRT_gammaOneN 155 1342 327778078 327778118
    (by decide) (by decide) (by decide) (by decide) (by decide)
    (by decide) (by decide) (by decide) (by decide) (by decide),
   lutRT_gammaOneN 156 1361 332451516 332451556
    (by decide) (by decide) (by decide) (by decide) (by decide)
    (by decide) (by decide) (by decide) (by decide) (by decide),
   lutRT_gammaOneN 157 1381 337163595 337163635
    (by decide) (by decide) (by decide) (by decide) (by decide)
    (by decide) (by decide) (by decide) (by decide) (by decide),
   lutRT_gammaOneN 158 1400 341914405 341914445
    (by decide) (by decide) (by decide) (by decide) (by decide)
    (by decide) (by decide) (by decide) (by decide) (by decide),
   lutRT_gammaOneN 159 1420 346704036 346704076
    (by decide) (by decide) (by decide) (by decide) (by decide)
    (by decide) (by decide) (by decide) (by decide) (by decide)⟩

/-- LUT round-trip facts for byte codes 160-191, from exact
integer bracketing certificates. -/
lemma lutBlock5 : LutRT 160 ∧ LutRT 161 ∧ LutRT 162 ∧ LutRT 163 ∧ LutRT 164 ∧ LutRT 165 ∧ LutRT 166 ∧ LutRT 167 ∧ LutRT 168 ∧ LutRT 169 ∧ LutRT 170 ∧ LutRT 171 ∧ LutRT 172 ∧ LutRT 173 ∧ LutRT 174 ∧ LutRT 175 ∧ LutRT 176 ∧ LutRT 177 ∧ LutRT 178 ∧ LutRT 179 ∧ LutRT 180 ∧ LutRT 181 ∧ LutRT 182 ∧ LutRT 183 ∧ LutRT 184 ∧ LutRT 185 ∧ LutRT 186 ∧ LutRT 187 ∧ LutRT 188 ∧ LutRT 189 ∧ LutRT 190 ∧ LutRT 191 :=
  ⟨lutRT_gammaOneN 160 1440 351532580 351532620
    (by decide) (by decide) (by decide) (by decide) (by decide)
    (by decide) (by decide) (by decide) (by decide) (by decide),
   lutRT_gammaOneN 161 1459 356400124 356400164
    (by decide) (by decide) (by decide) (by decide) (by decide)
    (by decide) (by decide) (by decide) (by decide) (by decide),
   lutRT_gammaOneN 162 1480 361306760 361306800
    (by decide) (by decide) (by decide) (by decide) (by decide)
    (by decide) (by decide) (by decide) (by decide) (by decide),
   lutRT_gammaOneN 163 1500 366252576 366252616
    (by decide) (by decide) (by decide) (by decide) (by decide)
    (by decide) (by decide) (by decide) (by decide) (by decide),
   lutRT_gammaOneN 164 1520 371237660 371237700
    (by decide) (by decide) (by decide) (by decide) (by decide)
    (by decide) (by decide) (by decide) (by decide) (by decide),
   lutRT_gammaOneN 165 1541 376262103 376262143
    (by decide) (by decide) (by decide) (by decide) (by decide)
    (by decide) (by decide) (by decide) (by decide) (by decide),
   lutRT_gammaOneN 166 1562 381325991 381326031
    (by decide) (by decide) (by decide) (by decide) (by decide)
    (by decide) (by decide) (by decide) (by decide) (by decide),
   lutRT_gammaOneN 167 1582 386429414 386429454
    (by decide) (by decide) (by decide) (by decide) (by decide)
    (by decide) (by decide) (by decide) (by decide) (by decide),
   lutRT_gammaOneN 168 1603 391572458 391572498
    (by decide) (by decide) (by decide) (by decide) (by decide)
    (by decide) (by decide) (by decide) (by decide) (by decide),
   lutRT_gammaOneN 169 1625 396755211 396755251
    (by decide) (by decide) (by decide) (by decide) (by decide)
    (by decide) (by decide) (by decide) (by decide) (by decide),
   lutRT_gammaOneN 170 1646 401977760 401977800
    (by decide) (by decide) (by decide) (by decide) (by decide)
    (by decide) (by decide) (by decide) (by decide) (by decide),
   lutRT_gammaOneN 171 1668 407240192 407240232
    (by decide) (by decide) (by decide) (by decide) (by decide)
    (by decide) (by decide) (by decide) (by decide) (by decide),
   lutRT_gammaOneN 172 1689 412542593 412542633
    (by decide) (by decide) (by decide) (by decide) (by decide)
    (by decide) (by decide) (by decide) (by decide) (by decide),
   lutRT_gammaOneN 173 1711 417885051 417885091
    (by decide) (by decide) (by decide) (by decide) (by decide)
    (by decide) (by decide) (by decide) (by decide) (by decide),
   lutRT_gammaOneN 174 1733 423267650 423267690
    (by decide) (by decide) (by decide) (by decide) (by decide)
    (by decide) (by decide) (by decide) (by decide) (by decide),
   lutRT_gammaOneN 175 1755 428690477 428690517
    (by decide) (by decide) (by decide) (by decide) (by decide)
    (by decide) (by decide) (by decide) (by decide) (by decide),
   lutRT_gammaOneN 176 1778 434153616 434153656
    (by decide) (by decide) (by decide) (by decide) (by decide)
    (by decide) (by decide) (by decide) (by decide) (by decide),
   lutRT_gammaOneN 177 1800 439657154 439657194
    (by decide) (by decide) (by decide) (by decide) (by decide)
    (by decide) (by decide) (by decide) (by decide) (by decide),
   lutRT_gammaOneN 178 1823 445201175 445201215
    (by decide) (by decide) (by decide) (by decide) (by decide)
    (by decide) (by decide) (by decide) (by decide) (by decide),
   lutRT_gammaOneN 179 1846 450785763 450785803
    (by decide) (by decide) (by decide) (by decide) (by decide)
    (by decide) (by decide) (by decide) (by decide) (by decide),
   lutRT_gammaOneN 180 1869 456411003 456411043
    (by decide) (by decide) (by decide) (by decide) (by decide)
    (by decide) (by decide) (by decide) (by decide) (by decide),
   lutRT_gammaOneN 181 1892 462076980 462077020
    (by decide) (by decide) (by decide) (by decide) (by decide)
    (by decide) (by decide) (by decide) (by decide) (by decide),
   lutRT_gammaOneN 182 1916 467783776 467783816
    (by decide) (by decide) (by decide) (by decide) (by decide)
    (by decide) (by decide) (by decide) (by decide) (by decide),
   lutRT_gammaOneN 183 1939 473531476 473531516
    (by decide) (by decide) (by decide) (by decide) (by decide)
    (by decide) (by decide) (by decide) (by decide) (by decide),
   lutRT_gammaOneN 184 1963 479320163 479320203
    (by decide) (by decide) (by decide) (by decide) (by decide)
    (by decide) (by decide) (by decide) (by decide) (by decide),
   lutRT_gammaOneN 185 1987 485149920 485149960
    (by decide) (by decide) (by decide) (by decide) (by decide)
    (by decide) (by decide) (by decide) (by decide) (by decide),
   lutRT_gammaOneN 186 2011 491020830 491020870
    (by decide) (by decide) (by decide) (by decide) (by decide)
    (by decide) (by decide) (by decide) (by decide) (by decide),
   lutRT_gammaOneN 187 2035 496932975 496933015
    (by decide) (by decide) (by decide) (by decide) (by decide)
    (by decide) (by decide) (by decide) (by decide) (by decide),
   lutRT_gammaOneN 188 2059 502886438 502886478
    (by decide) (by decide) (by decide) (by decide) (by decide)
    (by decide) (by decide) (by decide) (by decide) (by decide),
   lutRT_gammaOneN 189 2084 508881301 508881341
    (by decide) (by decide) (by decide) (by decide) (by decide)
    (by decide) (by decide) (by decide) (by decide) (by decide),
   lutRT_gammaOneN 190 2109 514917645 514917685
    (by decide) (by decide) (by decide) (by decide) (by decide)
    (by decide) (by decide) (by decide) (by decide) (by decide),
   lutRT_gammaOneN 191 2133 520995553 520995593
    (by decide) (by decide) (by decide) (by decide) (by decide)
    (by decide) (by decide) (by decide) (by decide) (by decide)⟩

/-- LUT round-trip facts for byte codes 192-223, from exact
integer bracketing certificates. -/
lemma lutBlock6 : LutRT 192 ∧ LutRT 193 ∧ LutRT 194 ∧ LutRT 195 ∧ LutRT 196 ∧ LutRT 197 ∧ LutRT 198 ∧ LutRT 199 ∧ LutRT 200 ∧ LutRT 201 ∧ LutRT 202 ∧ LutRT 203 ∧ LutRT 204 ∧ LutRT 205 ∧ LutRT 206 ∧ LutRT 207 ∧ LutRT 208 ∧ LutRT 209 ∧ LutRT 210 ∧ LutRT 211 ∧ LutRT 212 ∧ LutRT 213 ∧ LutRT 214 ∧ LutRT 215 ∧ LutRT 216 ∧ LutRT 217 ∧ LutRT 218 ∧ LutRT 219 ∧ LutRT 220 ∧ LutRT 221 ∧ LutRT 222 ∧ LutRT 223 :=
  ⟨lutRT_gammaOneN 192 2159 527115106 527115146
    (by decide) (by decide) (by decide) (by decide) (by decide)
    (by decide) (by decide) (by decide) (by decide) (by decide),
   lutRT_gammaOneN 193 2184 533276384 533276424
    (by decide) (by decide) (by decide) (by decide) (by decide)
    (by decide) (by decide) (by decide) (by decide) (by decide),
   lutRT_gammaOneN 194 2209 539479469 539479509
    (by decide) (by decide) (by decide) (by decide) (by decide)
    (by decide) (by decide) (by decide) (by decide) (by decide),
   lutRT_gammaOneN 195 2235 545724441 545724481
    (by decide) (by decide) (by decide) (by decide) (by decide)
    (by decide) (by decide) (by decide) (by decide) (by decide),
   lutRT_gammaOneN 196 2260 552011382 552011422
    (by decide) (by decide) (by decide) (by decide) (by decide)
    (by decide) (by decide) (by decide) (by decide) (by decide),
   lutRT_gammaOneN 197 2286 558340370 558340410
    (by decide) (by decide) (by decide) (by decide) (by decide)
    (by decide) (by decide) (by decide) (by decide) (by decide),
   lutRT_gammaOneN 198 2312 564711486 564711526
    (by decide) (by decide) (by decide) (by decide) (by decide)
    (by decide) (by decide) (by decide) (by decide) (by decide),
   lutRT_gammaOneN 199 2339 571124809 571124849
    (by decide) (by decide) (by decide) (by decide) (by decide)
    (by decide) (by decide) (by decide) (by decide) (by decide),
   lutRT_gammaOneN 200 2365 577580420 577580460
    (by decide) (by decide) (by decide) (by decide) (by decide)
    (by decide) (by decide) (by decide) (by decide) (by decide),
   lutRT_gammaOneN 201 2392 584078398 584078438
    (by decide) (by decide) (by decide) (by decide) (by decide)
    (by decide) (by decide) (by decide) (by decide) (by decide),
   lutRT_gammaOneN 202 2419 590618821 590618861
    (by decide) (by decide) (by decide) (by decide) (by decide)
    (by decide) (by decide) (by decide) (by decide) (by decide),
   lutRT_gammaOneN 203 2446 597201768 597201808
    (by decide) (by decide) (by decide) (by decide) (by decide)
    (by decide) (by decide) (by decide) (by decide) (by decide),
   lutRT_gammaOneN 204 2473 603827319 603827359
    (by decide) (by decide) (by decide) (by decide) (by decide)
    (by decide) (by decide) (by decide) (by decide) (by decide),
   lutRT_gammaOneN 205 2500 610495551 610495591
    (by decide) (by decide) (by decide) (by decide) (by decide)
    (by decide) (by decide) (by decide) (by decide) (by decide),
   lutRT_gammaOneN 206 2527 617206542 617206582
    (by decide) (by decide) (by decide) (by decide) (by decide)
    (by decide) (by decide) (by decide) (by decide) (by decide),
   lutRT_gammaOneN 207 2555 623960372 623960412
    (by decide) (by decide) (by decide) (by decide) (by decide)
    (by decide) (by decide) (by decide) (by decide) (by decide),
   lutRT_gammaOneN 208 2583 630757116 630757156
    (by decide) (by decide) (by decide) (by decide) (by decide)
    (by decide) (by decide) (by decide) (by decide) (by decide),
   lutRT_gammaOneN 209 2611 637596854 637596894
    (by decide) (by decide) (by decide) (by decide) (by decide)
    (by decide) (by decide) (by decide) (by decide) (by decide),
   lutRT_gammaOneN 210 2639 644479662 644479702
    (by decide) (by decide) (by decide) (by decide) (by decide)
    (by decide) (by decide) (by decide) (by decide) (by decide),
   lutRT_gammaOneN 211 2668 651405617 651405657
    (by decide) (by decide) (by decide) (by decide) (by decide)
    (by decide) (by decide) (by decide) (by decide) (by decide),
   lutRT_gammaOneN 212 2696 658374797 658374837
    (by decide) (by decide) (by decide) (by decide) (by decide)
    (by decide) (by decide) (by decide) (by decide) (by decide),
   lutRT_gammaOneN 213 2725 665387278 665387318
    (by decide) (by decide) (by decide) (by decide) (by decide)
    (by decide) (by decide) (by decide) (by decide) (by decide),
   lutRT_gammaOneN 214 2754 672443137 672443177
    (by decide) (by decide) (by decide) (by decide) (by decide)
    (by decide) (by decide) (by decide) (by decide) (by decide),
   lutRT_gammaOneN 215 2783 679542450 679542490
    (by decide) (by decide) (by decide) (by decide) (by decide)
    (by decide) (by decide) (by decide) (by decide) (by decide),
   lutRT_gammaOneN 216 2812 686685292 686685332
    (by decide) (by decide) (by decide) (by decide) (by decide)
    (by decide) (by decide) (by decide) (by decide) (by decide),
   lutRT_gammaOneN 217 2841 693871741 693871781
    (by decide) (by decide) (by decide) (by decide) (by decide)
    (by decide) (by decide) (by decide) (by decide) (by decide),
   lutRT_gammaOneN 218 2871 701101872 701101912
    (by decide) (by decide) (by decide) (by decide) (by decide)
    (by decide) (by decide) (by decide) (by decide) (by decide),
   lutRT_gammaOneN 219 2901 708375760 708375800
    (by decide) (by decide) (by decide) (by decide) (by decide)
    (by decide) (by decide) (by decide) (by decide) (by decide),
   lutRT_gammaOneN 220 2931 715693481 715693521
    (by decide) (by decide) (by decide) (by decide) (by decide)
    (by decide) (by decide) (by decide) (by decide) (by decide),
   lutRT_gammaOneN 221 2961 723055109 723055149
    (by decide) (by decide) (by decide) (by decide) (by decide)
    (by decide) (by decide) (by decide) (by decide) (by decide),
   lutRT_gammaOneN 222 2991 730460720 730460760
    (by decide) (by decide) (by decide) (by decide) (by decide)
    (by decide) (by decide) (by decide) (by decide) (by decide),
   lutRT_gammaOneN 223 3022 737910389 737910429
    (by decide) (by decide) (by decide) (by decide) (by decide)
    (by decide) (by decide) (by decide) (by decide) (by decide)⟩

/-- LUT round-trip facts for byte codes 224-255, from exact
integer bracketing certificates. -/
lemma lutBlock7 : LutRT 224 ∧ LutRT 225 ∧ LutRT 226 ∧ LutRT 227 ∧ LutRT 228 ∧ LutRT 229 ∧ LutRT 230 ∧ LutRT 231 ∧ LutRT 232 ∧ LutRT 233 ∧ LutRT 234 ∧ LutRT 235 ∧ LutRT 236 ∧ LutRT 237 ∧ LutRT 238 ∧ LutRT 239 ∧ LutRT 240 ∧ LutRT 241 ∧ LutRT 242 ∧ LutRT 243 ∧ LutRT 244 ∧ LutRT 245 ∧ LutRT 246 ∧ LutRT 247 ∧ LutRT 248 ∧ LutRT 249 ∧ LutRT 250 ∧ LutRT 251 ∧ LutRT 252 ∧ LutRT 253 ∧ LutRT 254 ∧ LutRT 255 :=
  ⟨lutRT_gammaOneN 224 3052 745404190 745404230
    (by decide) (by decide) (by decide) (by decide) (by decide)
    (by decide) (by decide) (by decide) (by decide) (by decide),
   lutRT_gammaOneN 225 3083 752942197 752942237
    (by decide) (by decide) (by decide) (by decide) (by decide)
    (by decide) (by decide) (by decide) (by decide) (by decide),
   lutRT_gammaOneN 226 3114 760524485 760524525
    (by decide) (by decide) (by decide) (by decide) (by decide)
    (by decide) (by decide) (by decide) (by decide) (by decide),
   lutRT_gammaOneN 227 3146 768151127 768151167
    (by decide) (by decide) (by decide) (by decide) (by decide)
    (by decide) (by decide) (by decide) (by decide) (by decide),
   lutRT_gammaOneN 228 3177 775822198 775822238
    (by decide) (by decide) (by decide) (by decide) (by decide)
    (by decide) (by decide) (by decide) (by decide) (by decide),
   lutRT_gammaOneN 229 3209 783537772 783537812
    (by decide) (by decide) (by decide) (by decide) (by decide)
    (by decide) (by decide) (by decide) (by decide) (by decide),
   lutRT_gammaOneN 230 3240 791297920 791297960
    (by decide) (by decide) (by decide) (by decide) (by decide)
    (by decide) (by decide) (by decide) (by decide) (by decide),
   lutRT_gammaOneN 231 3272 799102718 799102758
    (by decide) (by decide) (by decide) (by decide) (by decide)
    (by decide) (by decide) (by decide) (by decide) (by decide),
   lutRT_gammaOneN 232 3304 806952238 806952278
    (by decide) (by decide) (by decide) (by decide) (by decide)
    (by decide) (by decide) (by decide) (by decide) (by decide),
   lutRT_gammaOneN 233 3337 814846552 814846592
    (by decide) (by decide) (by decide) (by decide) (by decide)
    (by decide) (by decide) (by decide) (by decide) (by decide),
   lutRT_gammaOneN 234 3369 822785734 822785774
    (by decide) (by decide) (by decide) (by decide) (by decide)
    (by decide) (by decide) (by decide) (by decide) (by decide),
   lutRT_gammaOneN 235 3402 830769857 830769897
    (by decide) (by decide) (by decide) (by decide) (by decide)
    (by decide) (by decide) (by decide) (by decide) (by decide),
   lutRT_gammaOneN 236 3435 838798992 838799032
    (by decide) (by decide) (by decide) (by decide) (by decide)
    (by decide) (by decide) (by decide) (by decide) (by decide),
   lutRT_gammaOneN 237 3468 846873212 846873252
    (by decide) (by decide) (by decide) (by decide) (by decide)
    (by decide) (by decide) (by decide) (by decide) (by decide),
   lutRT_gammaOneN 238 3501 854992588 854992628
    (by decide) (by decide) (by decide) (by decide) (by decide)
    (by decide) (by decide) (by decide) (by decide) (by decide),
   lutRT_gammaOneN 239 3535 863157193 863157233
    (by decide) (by decide) (by decide) (by decide) (by decide)
    (by decide) (by decide) (by decide) (by decide) (by decide),
   lutRT_gammaOneN 240 3568 871367099 871367139
    (by decide) (by decide) (by decide) (by decide) (by decide)
    (by decide) (by decide) (by decide) (by decide) (by decide),
   lutRT_gammaOneN 241 3602 879622377 879622417
    (by decide) (by decide) (by decide) (by decide) (by decide)
    (by decide) (by decide) (by decide) (by decide) (by decide),
   lutRT_gammaOneN 242 3636 887923098 887923138
    (by decide) (by decide) (by decide) (by decide) (by decide)
    (by decide) (by decide) (by decide) (by decide) (by decide),
   lutRT_gammaOneN 243 3670 896269333 896269373
    (by decide) (by decide) (by decide) (by decide) (by decide)
    (by decide) (by decide) (by decide) (by decide) (by decide),
   lutRT_gammaOneN 244 3705 904661154 904661194
    (by decide) (by decide) (by decide) (by decide) (by decide)
    (by decide) (by decide) (by decide) (by decide) (by decide),
   lutRT_gammaOneN 245 3739 913098632 913098672
    (by decide) (by decide) (by decide) (by decide) (by decide)
    (by decide) (by decide) (by decide) (by decide) (by decide),
   lutRT_gammaOneN 246 3774 921581836 921581876
    (by decide) (by decide) (by decide) (by decide) (by decide)
    (by decide) (by decide) (by decide) (by decide) (by decide),
   lutRT_gammaOneN 247 3809 930110838 930110878
    (by decide) (by decide) (by decide) (by decide) (by decide)
    (by decide) (by decide) (by decide) (by decide) (by decide),
   lutRT_gammaOneN 248 3844 938685708 938685748
    (by decide) (by decide) (by decide) (by decide) (by decide)
    (by decide) (by decide) (by decide) (by decide) (by decide),
   lutRT_gammaOneN 249 3879 947306517 947306557
    (by decide) (by decide) (by decide) (by decide) (by decide)
    (by decide) (by decide) (by decide) (by decide) (by decide),
   lutRT_gammaOneN 250 3915 955973333 955973373
    (by decide) (by decide) (by decide) (by decide) (by decide)
    (by decide) (by decide) (by decide) (by decide) (by decide),
   lutRT_gammaOneN 251 3950 964686228 964686268
    (by decide) (by decide) (by decide) (by decide) (by decide)
    (by decide) (by decide) (by decide) (by decide) (by decide),
   lutRT_gammaOneN 252 3986 973445270 973445310
    (by decide) (by decide) (by decide) (by decide) (by decide)
    (by decide) (by decide) (by decide) (by decide) (by decide),
   lutRT_gammaOneN 253 4022 982250530 982250570
    (by decide) (by decide) (by decide) (by decide) (by decide)
    (by decide) (by decide) (by decide) (by decide) (by decide),
   lutRT_gammaOneN 254 4059 991102077 991102117
    (by decide) (by decide) (by decide) (by decide) (by decide)
    (by decide) (by decide) (by decide) (by decide) (by decide),
   lutRT_gammaOneN 255 4095 1000000000 1000000000
    (by decide) (by decide) (by decide) (by decide) (by decide)
    (by decide) (by decide) (by decide) (by decide) (by decide)⟩

/-- Every byte code satisfies the LUT round-trip property. -/
lemma lutRT_all : ∀ i : ℕ, i ≤ 255 → LutRT i := by
  intro i hi
  interval_cases i
  exacts [lutBlock0.1, lutBlock0.2.1, lutBlock0.2.2.1, lutBlock0.2.2.2.1, lutBlock0.2.2.2.2.1, lutBlock0.2.2.2.2.2.1, lutBlock0.2.2.2.2.2.2.1, lutBlock0.2.2.2.2.2.2.2.1, lutBlock0.2.2.2.2.2.2.2.2.1, lutBlock0.2.2.2.2.2.2.2.2.2.1, lutBlock0.2.2.2.2.2.2.2.2.2.2.1, lutBlock0.2.2.2.2.2.2.2.2.2.2.2.1, lutBlock0.2.2.2.2.2.2.2.2.2.2.2.2.1, lutBlock0.2.2.2.2.2.2.2.2.2.2.2.2.2.1, lutBlock0.2.2.2.2.2.2.2.2.2.2.2.2.2.2.1, lutBlock0.2.2.2.2.2.2.2.2.2.2.2.2.2.2.2.1, lutBlock0.2.2.2.2.2.2.2.2.2.2.2.2.2.2.2.2.1, lutBlock0.2.2.2.2.2.2.2.2.2.2.2.2.2.2.2.2.2.1, lutBlock0.2.2.2.2.2.2.2.2.2.2.2.2.2.2.2.2.2.2.1, lutBlock0.2.2.2.2.2.2.2.2.2.2.2.2.2.2.2.2.2.2.2.1, lutBlock0.2.2.2.2.2.2.2.2.2.2.2.2.2.2.2.2.2.2.2.2.1, lutBlock0.2.2.2.2.2.2.2.2.2.2.2.2.2.2.2.2.2.2.2.2.2.1, lutBlock0.2.2.2.2.2.2.2.2.2.2.2.2.2.2.2.2.2.2.2.2.2.2.1, lutBlock0.2.2.2.2.2.2.2.2.2.2.2.2.2.2.2.2.2.2.2.2.2.2.2.1, lutBlock0.2.2.2.2.2.2.2.2.2.2.2.2.2.2.2.2.2.2.2.2.2.2.2.2.1, lutBlock0.2.2.2.2.2.2.2.2.2.2.2.2.2.2.2.2.2.2.2.2.2.2.2.2.2.1, lutBlock0.2.2.2.2.2.2.2.2.2.2.2.2.2.2.2.2.2.2.2.2.2.2.2.2.2.2.1, lutBlock0.2.2.2.2.2.2.2.2.2.2.2.2.2.2.2.2.2.2.2.2.2.2.2.2.2.2.2.1, lutBlock0.2.2.2.2.2.2.2.2.2.2.2.2.2.2.2.2.2.2.2.2.2.2.2.2.2.2.2.2.1, lutBlock0.2.2.2.2.2.2.2.2.2.2.2.2.2.2.2.2.2.2.2.2.2.2.2.2.2.2.2.2.2.1, lutBlock0.2.2.2.2.2.2.2.2.2.2.2.2.2.2.2.2.2.2.2.2.2.2.2.2.2.2.2.2.2.2.1, lutBlock0.2.2.2.2.2.2.2.2.2.2.2.2.2.2.2.2.2.2.2.2.2.2.2.2.2.2.2.2.2.2.2, lutBlock1.1, lutBlock1.2.1, lutBlock1.2.2.1, lutBlock1.2.2.2.1, lutBlock1.2.2.2.2.1, lutBlock1.2.2.2.2.2.1, lutBlock1.2.2.2.2.2.2.1, lutBlock1.2.2.2.2.2.2.2.1, lutBlock1.2.2.2.2.2.2.2.2.1, lutBlock1.2.2.2.2.2.2.2.2.2.1, lutBlock1.2.2.2.2.2.2.2.2.2.2.1, lutBlock1.2.2.2.2.2.2.2.2.2.2.2.1, lutBlock1.2.2.2.2.2.2.2.2.2.2.2.2.1, lutBlock1.2.2.2.2.2.2.2.2.2.2.2.2.2.1, lutBlock1.2.2.2.2.2.2.2.2.2.2.2.2.2.2.1, lutBlock1.2.2.2.2.2.2.2.2.2.2.2.2.2.2.2.1, lutBlock1.2.2.2.2.2.2.2.2.2.2.2.2.2.2.2.2.1, lutBlock1.2.2.2.2.2.2.2.2.2.2.2.2.2.2.2.2.2.1, lutBlock1.2.2.2.2.2.2.2.2.2.2.2.2.2.2.2.2.2.2.1, lutBlock1.2.2.2.2.2.2.2.2.2.2.2.2.2.2.2.2.2.2.2.1, lutBlock1.2.2.2.2.2.2.2.2.2.2.2.2.2.2.2.2.2.2.2.2.1, lutBlock1.2.2.2.2.2.2.2.2.2.2.2.2.2.2.2.2.2.2.2.2.2.1, lutBlock1.2.2.2.2.2.2.2.2.2.2.2.2.2.2.2.2.2.2.2.2.2.2.1, lutBlock1.2.2.2.2.2.2.2.2.2.2.2.2.2.2.2.2.2.2.2.2.2.2.2.1, lutBlock1.2.2.2.2.2.2.2.2.2.2.2.2.2.2.2.2.2.2.2.2.2.2.2.2.1, lutBlock1.2.2.2.2.2.2.2.2.2.2.2.2.2.2.2.2.2.2.2.2.2.2.2.2.2.1, lutBlock1.2.2.2.2.2.2.2.2.2.2.2.2.2.2.2.2.2.2.2.2.2.2.2.2.2.2.1, lutBlock1.2.2.2.2.2.2.2.2.2.2.2.2.2.2.2.2.2.2.2.2.2.2.2.2.2.2.2.1, lutBlock1.2.2.2.2.2.2.2.2.2.2.2.2.2.2.2.2.2.2.2.2.2.2.2.2.2.2.2.2.1, lutBlock1.2.2.2.2.2.2.2.2.2.2.2.2.2.2.2.2.2.2.2.2.2.2.2.2.2.2.2.2.2.1, lutBlock1.2.2.2.2.2.2.2.2.2.2.2.2.2.2.2.2.2.2.2.2.2.2.2.2.2.2.2.2.2.2.1, lutBlock1.2.2.2.2.2.2.2.2.2.2.2.2.2.2.2.2.2.2.2.2.2.2.2.2.2.2.2.2.2.2.2, lutBlock2.1, lutBlock2.2.1, lutBlock2.2.2.1, lutBlock2.2.2.2.1, lutBlock2.2.2.2.2.1, lutBlock2.2.2.2.2.2.1, lutBlock2.2.2.2.2.2.2.1, lutBlock2.2.2.2.2.2.2.2.1, lutBlock2.2.2.2.2.2.2.2.2.1, lutBlock2.2.2.2.2.2.2.2.2.2.1, lutBlock2.2.2.2.2.2.2.2.2.2.2.1, lutBlock2.2.2.2.2.2.2.2.2.2.2.2.1, lutBlock2.2.2.2.2.2.2.2.2.2.2.2.2.1, lutBlock2.2.2.2.2.2.2.2.2.2.2.2.2.2.1, lutBlock2.2.2.2.2.2.2.2.2.2.2.2.2.2.2.1, lutBlock2.2.2.2.2.2.2.2.2.2.2.2.2.2.2.2.1, lutBlock2.2.2.2.2.2.2.2.2.2.2.2.2.2.2.2.2.1, lutBlock2.2.2.2.2.2.2.2.2.2.2.2.2.2.2.2.2.2.1, lutBlock2.2.2.2.2.2.2.2.2.2.2.2.2.2.2.2.2.2.2.1, lutBlock2.2.2.2.2.2.2.2.2.2.2.2.2.2.2.2.2.2.2.2.1, lutBlock2.2.2.2.2.2.2.2.2.2.2.2.2.2.2.2.2.2.2.2.2.1, lutBlock2.2.2.2.2.2.2.2.2.2.2.2.2.2.2.2.2.2.2.2.2.2.1, lutBlock2.2.2.2.2.2.2.2.2.2.2.2.2.2.2.2.2.2.2.2.2.2.2.1, lutBlock2.2.2.2.2.2.2.2.2.2.2.2.2.2.2.2.2.2.2.2.2.2.2.2.1, lutBlock2.2.2.2.2.2.2.2.2.2.2.2.2.2.2.2.2.2.2.2.2.2.2.2.2.1, lutBlock2.2.2.2.2.2.2.2.2.2.2.2.2.2.2.2.2.2.2.2.2.2.2.2.2.2.1, lutBlock2.2.2.2.2.2.2.2.2.2.2.2.2.2.2.2.2.2.2.2.2.2.2.2.2.2.2.1, lutBlock2.2.2.2.2.2.2.2.2.2.2.2.2.2.2.2.2.2.2.2.2.2.2.2.2.2.2.2.1, lutBlock2.2.2.2.2.2.2.2.2.2.2.2.2.2.2.2.2.2.2.2.2.2.2.2.2.2.2.2.2.1, lutBlock2.2.2.2.2.2.2.2.2.2.2.2.2.2.2.2.2.2.2.2.2.2.2.2.2.2.2.2.2.2.1, lutBlock2.2.2.2.2.2.2.2.2.2.2.2.2.2.2.2.2.2.2.2.2.2.2.2.2.2.2.2.2.2.2.1, lutBlock2.2.2.2.2.2.2.2.2.2.2.2.2.2.2.2.2.2.2.2.2.2.2.2.2.2.2.2.2.2.2.2, lutBlock3.1, lutBlock3.2.1, lutBlock3.2.2.1, lutBlock3.2.2.2.1, lutBlock3.2.2.2.2.1, lutBlock3.2.2.2.2.2.1, lutBlock3.2.2.2.2.2.2.1, lutBlock3.2.2.2.2.2.2.2.1, lutBlock3.2.2.2.2.2.2.2.2.1, lutBlock3.2.2.2.2.2.2.2.2.2.1, lutBlock3.2.2.2.2.2.2.2.2.2.2.1, lutBlock3.2.2.2.2.2.2.2.2.2.2.2.1, lutBlock3.2.2.2.2.2.2.2.2.2.2.2.2.1, lutBlock3.2.2.2.2.2.2.2.2.2.2.2.2.2.1, lutBlock3.2.2.2.2.2.2.2.2.2.2.2.2.2.2.1, lutBlock3.2.2.2.2.2.2.2.2.2.2.2.2.2.2.2.1, lutBlock3.2.2.2.2.2.2.2.2.2.2.2.2.2.2.2.2.1, lutBlock3.2.2.2.2.2.2.2.2.2.2.2.2.2.2.2.2.2.1, lutBlock3.2.2.2.2.2.2.2.2.2.2.2.2.2.2.2.2.2.2.1, lutBlock3.2.2.2.2.2.2.2.2.2.2.2.2.2.2.2.2.2.2.2.1, lutBlock3.2.2.2.2.2.2.2.2.2.2.2.2.2.2.2.2.2.2.2.2.1, lutBlock3.2.2.2.2.2.2.2.2.2.2.2.2.2.2.2.2.2.2.2.2.2.1, lutBlock3.2.2.2.2.2.2.2.2.2.2.2.2.2.2.2.2.2.2.2.2.2.2.1, lutBlock3.2.2.2.2.2.2.2.2.2.2.2.2.2.2.2.2.2.2.2.2.2.2.2.1, lutBlock3.2.2.2.2.2.2.2.2.2.2.2.2.2.2.2.2.2.2.2.2.2.2.2.2.1, lutBlock3.2.2.2.2.2.2.2.2.2.2.2.2.2.2.2.2.2.2.2.2.2.2.2.2.2.1, lutBlock3.2.2.2.2.2.2.2.2.2.2.2.2.2.2.2.2.2.2.2.2.2.2.2.2.2.2.1, lutBlock3.2.2.2.2.2.2.2.2.2.2.2.2.2.2.2.2.2.2.2.2.2.2.2.2.2.2.2.1, lutBlock3.2.2.2.2.2.2.2.2.2.2.2.2.2.2.2.2.2.2.2.2.2.2.2.2.2.2.2.2.1, lutBlock3.2.2.2.2.2.2.2.2.2.2.2.2.2.2.2.2.2.2.2.2.2.2.2.2.2.2.2.2.2.1, lutBlock3.2.2.2.2.2.2.2.2.2.2.2.2.2.2.2.2.2.2.2.2.2.2.2.2.2.2.2.2.2.2.1, lutBlock3.2.2.2.2.2.2.2.2.2.2.2.2.2.2.2.2.2.2.2.2.2.2.2.2.2.2.2.2.2.2.2, lutBlock4.1, lutBlock4.2.1, lutBlock4.2.2.1, lutBlock4.2.2.2.1, lutBlock4.2.2.2.2.1, lutBlock4.2.2.2.2.2.1, lutBlock4.2.2.2.2.2.2.1, lutBlock4.2.2.2.2.2.2.2.1, lutBlock4.2.2.2.2.2.2.2.2.1, lutBlock4.2.2.2.2.2.2.2.2.2.1, lutBlock4.2.2.2.2.2.2.2.2.2.2.1, lutBlock4.2.2.2.2.2.2.2.2.2.2.2.1, lutBlock4.2.2.2.2.2.2.2.2.2.2.2.2.1, lutBlock4.2.2.2.2.2.2.2.2.2.2.2.2.2.1, lutBlock4.2.2.2.2.2.2.2.2.2.2.2.2.2.2.1, lutBlock4.2.2.2.2.2.2.2.2.2.2.2.2.2.2.2.1, lutBlock4.2.2.2.2.2.2.2.2.2.2.2.2.2.2.2.2.1, lutBlock4.2.2.2.2.2.2.2.2.2.2.2.2.2.2.2.2.2.1, lutBlock4.2.2.2.2.2.2.2.2.2.2.2.2.2.2.2.2.2.2.1, lutBlock4.2.2.2.2.2.2.2.2.2.2.2.2.2.2.2.2.2.2.2.1, lutBlock4.2.2.2.2.2.2.2.2.2.2.2.2.2.2.2.2.2.2.2.2.1, lutBlock4.2.2.2.2.2.2.2.2.2.2.2.2.2.2.2.2.2.2.2.2.2.1, lutBlock4.2.2.2.2.2.2.2.2.2.2.2.2.2.2.2.2.2.2.2.2.2.2.1, lutBlock4.2.2.2.2.2.2.2.2.2.2.2.2.2.2.2.2.2.2.2.2.2.2.2.1, lutBlock4.2.2.2.2.2.2.2.2.2.2.2.2.2.2.2.2.2.2.2.2.2.2.2.2.1, lutBlock4.2.2.2.2.2.2.2.2.2.2.2.2.2.2.2.2.2.2.2.2.2.2.2.2.2.1, lutBlock4.2.2.2.2.2.2.2.2.2.2.2.2.2.2.2.2.2.2.2.2.2.2.2.2.2.2.1, lutBlock4.2.2.2.2.2.2.2.2.2.2.2.2.2.2.2.2.2.2.2.2.2.2.2.2.2.2.2.1, lutBlock4.2.2.2.2.2.2.2.2.2.2.2.2.2.2.2.2.2.2.2.2.2.2.2.2.2.2.2.2.1, lutBlock4.2.2.2.2.2.2.2.2.2.2.2.2.2.2.2.2.2.2.2.2.2.2.2.2.2.2.2.2.2.1, lutBlock4.2.2.2.2.2.2.2.2.2.2.2.2.2.2.2.2.2.2.2.2.2.2.2.2.2.2.2.2.2.2.1, lutBlock4.2.2.2.2.2.2.2.2.2.2.2.2.2.2.2.2.2.2.2.2.2.2.2.2.2.2.2.2.2.2.2, lutBlock5.1, lutBlock5.2.1, lutBlock5.2.2.1, lutBlock5.2.2.2.1, lutBlock5.2.2.2.2.1, lutBlock5.2.2.2.2.2.1, lutBlock5.2.2.2.2.2.2.1, lutBlock5.2.2.2.2.2.2.2.1, lutBlock5.2.2.2.2.2.2.2.2.1, lutBlock5.2.2.2.2.2.2.2.2.2.1, lutBlock5.2.2.2.2.2.2.2.2.2.2.1, lutBlock5.2.2.2.2.2.2.2.2.2.2.2.1, lutBlock5.2.2.2.2.2.2.2.2.2.2.2.2.1, lutBlock5.2.2.2.2.2.2.2.2.2.2.2.2.2.1, lutBlock5.2.2.2.2.2.2.2.2.2.2.2.2.2.2.1, lutBlock5.2.2.2.2.2.2.2.2.2.2.2.2.2.2.2.1, lutBlock5.2.2.2.2.2.2.2.2.2.2.2.2.2.2.2.2.1, lutBlock5.2.2.2.2.2.2.2.2.2.2.2.2.2.2.2.2.2.1, lutBlock5.2.2.2.2.2.2.2.2.2.2.2.2.2.2.2.2.2.2.1, lutBlock5.2.2.2.2.2.2.2.2.2.2.2.2.2.2.2.2.2.2.2.1, lutBlock5.2.2.2.2.2.2.2.2.2.2.2.2.2.2.2.2.2.2.2.2.1, lutBlock5.2.2.2.2.2.2.2.2.2.2.2.2.2.2.2.2.2.2.2.2.2.1, lutBlock5.2.2.2.2.2.2.2.2.2.2.2.2.2.2.2.2.2.2.2.2.2.2.1, lutBlock5.2.2.2.2.2.2.2.2.2.2.2.2.2.2.2.2.2.2.2.2.2.2.2.1, lutBlock5.2.2.2.2.2.2.2.2.2.2.2.2.2.2.2.2.2.2.2.2.2.2.2.2.1, lutBlock5.2.2.2.2.2.2.2.2.2.2.2.2.2.2.2.2.2.2.2.2.2.2.2.2.2.1, lutBlock5.2.2.2.2.2.2.2.2.2.2.2.2.2.2.2.2.2.2.2.2.2.2.2.2.2.2.1, lutBlock5.2.2.2.2.2.2.2.2.2.2.2.2.2.2.2.2.2.2.2.2.2.2.2.2.2.2.2.1, lutBlock5.2.2.2.2.2.2.2.2.2.2.2.2.2.2.2.2.2.2.2.2.2.2.2.2.2.2.2.2.1, lutBlock5.2.2.2.2.2.2.2.2.2.2.2.2.2.2.2.2.2.2.2.2.2.2.2.2.2.2.2.2.2.1, lutBlock5.2.2.2.2.2.2.2.2.2.2.2.2.2.2.2.2.2.2.2.2.2.2.2.2.2.2.2.2.2.2.1, lutBlock5.2.2.2.2.2.2.2.2.2.2.2.2.2.2.2.2.2.2.2.2.2.2.2.2.2.2.2.2.2.2.2, lutBlock6.1, lutBlock6.2.1, lutBlock6.2.2.1, lutBlock6.2.2.2.1, lutBlock6.2.2.2.2.1, lutBlock6.2.2.2.2.2.1, lutBlock6.2.2.2.2.2.2.1, lutBlock6.2.2.2.2.2.2.2.1, lutBlock6.2.2.2.2.2.2.2.2.1, lutBlock6.2.2.2.2.2.2.2.2.2.1, lutBlock6.2.2.2.2.2.2.2.2.2.2.1, lutBlock6.2.2.2.2.2.2.2.2.2.2.2.1, lutBlock6.2.2.2.2.2.2.2.2.2.2.2.2.1, lutBlock6.2.2.2.2.2.2.2.2.2.2.2.2.2.1, lutBlock6.2.2.2.2.2.2.2.2.2.2.2.2.2.2.1, lutBlock6.2.2.2.2.2.2.2.2.2.2.2.2.2.2.2.1, lutBlock6.2.2.2.2.2.2.2.2.2.2.2.2.2.2.2.2.1, lutBlock6.2.2.2.2.2.2.2.2.2.2.2.2.2.2.2.2.2.1, lutBlock6.2.2.2.2.2.2.2.2.2.2.2.2.2.2.2.2.2.2.1, lutBlock6.2.2.2.2.2.2.2.2.2.2.2.2.2.2.2.2.2.2.2.1, lutBlock6.2.2.2.2.2.2.2.2.2.2.2.2.2.2.2.2.2.2.2.2.1, lutBlock6.2.2.2.2.2.2.2.2.2.2.2.2.2.2.2.2.2.2.2.2.2.1, lutBlock6.2.2.2.2.2.2.2.2.2.2.2.2.2.2.2.2.2.2.2.2.2.2.1, lutBlock6.2.2.2.2.2.2.2.2.2.2.2.2.2.2.2.2.2.2.2.2.2.2.2.1, lutBlock6.2.2.2.2.2.2.2.2.2.2.2.2.2.2.2.2.2.2.2.2.2.2.2.2.1, lutBlock6.2.2.2.2.2.2.2.2.2.2.2.2.2.2.2.2.2.2.2.2.2.2.2.2.2.1, lutBlock6.2.2.2.2.2.2.2.2.2.2.2.2.2.2.2.2.2.2.2.2.2.2.2.2.2.2.1, lutBlock6.2.2.2.2.2.2.2.2.2.2.2.2.2.2.2.2.2.2.2.2.2.2.2.2.2.2.2.1, lutBlock6.2.2.2.2.2.2.2.2.2.2.2.2.2.2.2.2.2.2.2.2.2.2.2.2.2.2.2.2.1, lutBlock6.2.2.2.2.2.2.2.2.2.2.2.2.2.2.2.2.2.2.2.2.2.2.2.2.2.2.2.2.2.1, lutBlock6.2.2.2.2.2.2.2.2.2.2.2.2.2.2.2.2.2.2.2.2.2.2.2.2.2.2.2.2.2.2.1, lutBlock6.2.2.2.2.2.2.2.2.2.2.2.2.2.2.2.2.2.2.2.2.2.2.2.2.2.2.2.2.2.2.2, lutBlock7.1, lutBlock7.2.1, lutBlock7.2.2.1, lutBlock7.2.2.2.1, lutBlock7.2.2.2.2.1, lutBlock7.2.2.2.2.2.1, lutBlock7.2.2.2.2.2.2.1, lutBlock7.2.2.2.2.2.2.2.1, lutBlock7.2.2.2.2.2.2.2.2.1, lutBlock7.2.2.2.2.2.2.2.2.2.1, lutBlock7.2.2.2.2.2.2.2.2.2.2.1, lutBlock7.2.2.2.2.2.2.2.2.2.2.2.1, lutBlock7.2.2.2.2.2.2.2.2.2.2.2.2.1, lutBlock7.2.2.2.2.2.2.2.2.2.2.2.2.2.1, lutBlock7.2.2.2.2.2.2.2.2.2.2.2.2.2.2.1, lutBlock7.2.2.2.2.2.2.2.2.2.2.2.2.2.2.2.1, lutBlock7.2.2.2.2.2.2.2.2.2.2.2.2.2.2.2.2.1, lutBlock7.2.2.2.2.2.2.2.2.2.2.2.2.2.2.2.2.2.1, lutBlock7.2.2.2.2.2.2.2.2.2.2.2.2.2.2.2.2.2.2.1, lutBlock7.2.2.2.2.2.2.2.2.2.2.2.2.2.2.2.2.2.2.2.1, lutBlock7.2.2.2.2.2.2.2.2.2.2.2.2.2.2.2.2.2.2.2.2.1, lutBlock7.2.2.2.2.2.2.2.2.2.2.2.2.2.2.2.2.2.2.2.2.2.1, lutBlock7.2.2.2.2.2.2.2.2.2.2.2.2.2.2.2.2.2.2.2.2.2.2.1, lutBlock7.2.2.2.2.2.2.2.2.2.2.2.2.2.2.2.2.2.2.2.2.2.2.2.1, lutBlock7.2.2.2.2.2.2.2.2.2.2.2.2.2.2.2.2.2.2.2.2.2.2.2.2.1, lutBlock7.2.2.2.2.2.2.2.2.2.2.2.2.2.2.2.2.2.2.2.2.2.2.2.2.2.1, lutBlock7.2.2.2.2.2.2.2.2.2.2.2.2.2.2.2.2.2.2.2.2.2.2.2.2.2.2.1, lutBlock7.2.2.2.2.2.2.2.2.2.2.2.2.2.2.2.2.2.2.2.2.2.2.2.2.2.2.2.1, lutBlock7.2.2.2.2.2.2.2.2.2.2.2.2.2.2.2.2.2.2.2.2.2.2.2.2.2.2.2.2.1, lutBlock7.2.2.2.2.2.2.2.2.2.2.2.2.2.2.2.2.2.2.2.2.2.2.2.2.2.2.2.2.2.1, lutBlock7.2.2.2.2.2.2.2.2.2.2.2.2.2.2.2.2.2.2.2.2.2.2.2.2.2.2.2.2.2.2.1, lutBlock7.2.2.2.2.2.2.2.2.2.2.2.2.2.2.2.2.2.2.2.2.2.2.2.2.2.2.2.2.2.2.2]


lemma lutF_mem {i : ℕ} (hi : i ≤ 255) : 0 ≤ lutF i ∧ lutF i ≤ 1 := by
  have h0 : (0:ℝ) ≤ (i:ℝ)/255 := by positivity
  have h1 : (i:ℝ)/255 ≤ 1 := by
    rw [div_le_one (by norm_num)]
    exact_mod_cast hi
  unfold lutF fwdFormula
  by_cases hc : (i:ℝ)/255 ≤ 0.04045
  · rw [if_pos hc]
    refine ⟨by positivity, ?_⟩
    rw [div_le_one (by norm_num)]
    norm_num at hc ⊢
    linarith
  · rw [if_neg hc]
    push_neg at hc
    constructor
    · exact Real.rpow_nonneg (by positivity) _
    · refine Real.rpow_le_one (by positivity) ?_ (by norm_num)
      rw [div_le_one (by norm_num)]
      linarith

lemma srgbToLinearChan_byte {i : ℕ} (hi : i ≤ 255) :
    srgbToLinearChan ((i:ℝ)/255) = lutF i := by
  unfold srgbToLinearChan truncToInt
  rw [div_mul_cancel₀ _ (by norm_num : (255:ℝ) ≠ 0)]
  rw [if_neg (by push_neg; positivity)]
  have hfl : ⌊(i:ℝ) + 1/2⌋ = (i:ℤ) :=
    Int.floor_eq_iff.mpr ⟨by push_cast; linarith, by push_cast; linarith⟩
  rw [hfl, Int.toNat_natCast, Nat.mod_eq_of_lt (by omega)]

lemma lerpRGB_zero (x y : RGB) : lerpRGB x y 0 = x := by
  unfold lerpRGB lerpChan
  simp

lemma lerpRGB_one (x y : RGB) : lerpRGB x y 1 = y := by
  unfold lerpRGB lerpChan
  simp

lemma rgb01ToHex_congr {c c' : RGB} (h : round8RGB c = round8RGB c') :
    rgb01ToHex c = rgb01ToHex c' := by
  have h1 : round8 c.r = round8 c'.r := congrArg Prod.fst h
  have h2 : round8 c.g = round8 c'.g := congrArg (fun p => p.2.1) h
  have h3 : round8 c.b = round8 c'.b := congrArg (fun p => p.2.2) h
  unfold rgb01ToHex
  rw [h1, h2, h3]

lemma round8RGB_clamp01RGB (c : RGB) : round8RGB (clamp01RGB c) = round8RGB c := by
  unfold round8RGB clamp01RGB
  show (round8 (clamp01 c.r), round8 (clamp01 c.g), round8 (clamp01 c.b)) = _
  rw [round8_clamp01, round8_clamp01, round8_clamp01]

lemma round8_lut {i : ℕ} {y : ℝ} (hi : i ≤ 255) (h : |y - lutF i| ≤ lutDelta) :
    round8 (linearToSrgbChan y) = (i:ℤ) := by
  rw [abs_le] at h
  exact lutRT_all i hi y (by linarith [h.1]) (by linarith [h.2])

lemma linear_chan_rt {i : ℕ} (hi : i ≤ 255) :
    round8 (linearToSrgbChan (srgbToLinearChan ((i:ℝ)/255))) = (i:ℤ) := by
  rw [srgbToLinearChan_byte hi]
  refine round8_lut hi ?_
  rw [sub_self, abs_zero]
  unfold lutDelta
  norm_num

lemma round8RGB_bytes {i j k : ℕ} (hi : i ≤ 255) (hj : j ≤ 255) (hk : k ≤ 255) :
    round8RGB ⟨(i:ℝ)/255, (j:ℝ)/255, (k:ℝ)/255⟩ = ((i:ℤ), (j:ℤ), (k:ℤ)) := by
  unfold round8RGB
  show (round8 ((i:ℝ)/255), round8 ((j:ℝ)/255), round8 ((k:ℝ)/255)) = _
  rw [round8_byte hi, round8_byte hj, round8_byte hk]

lemma hexToRgb01_bytes {s : String} {c : RGB} (h : hexToRgb01 s = some c) :
    ∃ i j k : ℕ, i ≤ 255 ∧ j ≤ 255 ∧ k ≤ 255 ∧
      c = ⟨(i:ℝ)/255, (j:ℝ)/255, (k:ℝ)/255⟩ := by
  unfold hexToRgb01 at h
  rcases hl : s.toList.dropWhile (· = '#') with _ | ⟨c1, _ | ⟨c2, _ | ⟨c3, _ | ⟨c4, _ | ⟨c5, _ | ⟨c6, _ | ⟨c7, tl⟩⟩⟩⟩⟩⟩⟩ <;>
    rw [hl] at h <;> try exact Option.noConfusion h
  replace h : (match hexDigitVal c1, hexDigitVal c2, hexDigitVal c3,
      hexDigitVal c4, hexDigitVal c5, hexDigitVal c6 with
    | some d1, some d2, some d3, some d4, some d5, some d6 =>
        some (RGB.mk (((16 * d1 + d2 : ℕ) : ℝ) / 255)
          (((16 * d3 + d4 : ℕ) : ℝ) / 255) (((16 * d5 + d6 : ℕ) : ℝ) / 255))
    | _, _, _, _, _, _ => none) = some c := h
  rcases e1 : hexDigitVal c1 with _ | d1 <;> rw [e1] at h <;> try exact Option.noConfusion h
  rcases e2 : hexDigitVal c2 with _ | d2 <;> rw [e2] at h <;> try exact Option.noConfusion h
  rcases e3 : hexDigitVal c3 with _ | d3 <;> rw [e3] at h <;> try exact Option.noConfusion h
  rcases e4 : hexDigitVal c4 with _ | d4 <;> rw [e4] at h <;> try exact Option.noConfusion h
  rcases e5 : hexDigitVal c5 with _ | d5 <;> rw [e5] at h <;> try exact Option.noConfusion h
  rcases e6 : hexDigitVal c6 with _ | d6 <;> rw [e6] at h <;> try exact Option.noConfusion h
  refine ⟨16 * d1 + d2, 16 * d3 + d4, 16 * d5 + d6, ?_, ?_, ?_, ?_⟩
  · have := hexDigitVal_le e1
    have := hexDigitVal_le e2
    omega
  · have := hexDigitVal_le e3
    have := hexDigitVal_le e4
    omega
  · have := hexDigitVal_le e5
    have := hexDigitVal_le e6
    omega
  · injection h with h
    exact h.symm


lemma rpow13_pow {x : ℝ} (hx : 0 ≤ x) : (x ^ ((1:ℝ)/3)) ^ (3:ℕ) = x := by
  rw [← Real.rpow_natCast (x ^ ((1:ℝ)/3)) 3, ← Real.rpow_mul hx]
  norm_num

lemma pow3_rpow13 {x : ℝ} (hx : 0 ≤ x) : (x ^ (3:ℕ)) ^ ((1:ℝ)/3) = x := by
  rw [← Real.rpow_natCast x 3, ← Real.rpow_mul hx]
  norm_num

lemma cbrt_cube (x : ℝ) : cbrt x ^ (3:ℕ) = x := by
  unfold cbrt
  by_cases hx : x < 0
  · rw [if_pos hx]
    have h3 : (-((-x) ^ ((1:ℝ)/3))) ^ (3:ℕ) = -(((-x) ^ ((1:ℝ)/3)) ^ (3:ℕ)) := by
      ring
    rw [h3, rpow13_pow (by linarith)]
    ring
  · rw [if_neg hx]
    push_neg at hx
    exact rpow13_pow hx

lemma abs_cbrt_le {x B : ℝ} (hB : 0 ≤ B) (h : |x| ≤ B ^ (3:ℕ)) : |cbrt x| ≤ B := by
  unfold cbrt
  by_cases hx : x < 0
  · rw [if_pos hx, abs_neg, abs_of_nonneg (Real.rpow_nonneg (by linarith) _)]
    have hxb : -x ≤ B ^ (3:ℕ) := by
      rw [abs_of_neg hx] at h
      exact h
    calc (-x) ^ ((1:ℝ)/3) ≤ (B ^ (3:ℕ)) ^ ((1:ℝ)/3) :=
          Real.rpow_le_rpow (by linarith) hxb (by norm_num)
      _ = B := pow3_rpow13 hB
  · rw [if_neg hx]
    push_neg at hx
    rw [abs_of_nonneg (Real.rpow_nonneg hx _)]
    rw [abs_of_nonneg hx] at h
    calc x ^ ((1:ℝ)/3) ≤ (B ^ (3:ℕ)) ^ ((1:ℝ)/3) :=
          Real.rpow_le_rpow hx h (by norm_num)
      _ = B := pow3_rpow13 hB

lemma applyM1_bound {v : RGB} (h : validRGB v) :
    |(applyM1 v).r| ≤ 1.182 ∧ |(applyM1 v).g| ≤ 1.182 ∧ |(applyM1 v).b| ≤ 1.182 := by
  obtain ⟨h1, h2, h3, h4, h5, h6⟩ := h
  unfold applyM1
  dsimp only
  refine ⟨?_, ?_, ?_⟩ <;>
    · rw [abs_le]
      constructor <;> nlinarith

lemma cbrt_applyM1_bound {v : RGB} (h : validRGB v) :
    |(cbrtRGB (applyM1 v)).r| ≤ 1.06 ∧ |(cbrtRGB (applyM1 v)).g| ≤ 1.06 ∧
      |(cbrtRGB (applyM1 v)).b| ≤ 1.06 := by
  obtain ⟨b1, b2, b3⟩ := applyM1_bound h
  unfold cbrtRGB
  dsimp only
  exact ⟨abs_cbrt_le (by norm_num) (le_trans b1 (by norm_num)),
    abs_cbrt_le (by norm_num) (le_trans b2 (by norm_num)),
    abs_cbrt_le (by norm_num) (le_trans b3 (by norm_num))⟩

lemma linv_m2_perturb {u : RGB} (hr : |u.r| ≤ 1.06) (hg : |u.g| ≤ 1.06)
    (hb : |u.b| ≤ 1.06) :
    |(applyLinv (applyM2 u)).r - u.r| ≤ 8.1e-8 ∧
    |(applyLinv (applyM2 u)).g - u.g| ≤ 8.1e-8 ∧
    |(applyLinv (applyM2 u)).b - u.b| ≤ 8.1e-8 := by
  rw [abs_le] at hr hg hb
  unfold applyLinv applyM2
  dsimp only
  refine ⟨?_, ?_, ?_⟩ <;>
    · rw [abs_le]
      constructor <;> nlinarith [hr.1, hr.2, hg.1, hg.2, hb.1, hb.2]

lemma cube_perturb {x y : ℝ} (hx : |x| ≤ 1.06) (hd : |y - x| ≤ 8.1e-8) :
    |y ^ (3:ℕ) - x ^ (3:ℕ)| ≤ 2.8e-7 := by
  have hy : |y| ≤ 1.0601 := by
    have h1 : |y| ≤ |x| + |y - x| := by
      calc |y| = |x + (y - x)| := by ring_nf
        _ ≤ |x| + |y - x| := abs_add _ _
    norm_num at hx hd h1 ⊢
    linarith
  have hfac : y ^ (3:ℕ) - x ^ (3:ℕ) = (y - x) * (y^2 + y*x + x^2) := by ring
  rw [hfac, abs_mul]
  have hy2 : |y^2| ≤ 1.13 := by
    rw [abs_pow]
    nlinarith [abs_nonneg y]
  have hyx : |y*x| ≤ 1.13 := by
    rw [abs_mul]
    nlinarith [abs_nonneg y, abs_nonneg x]
  have hx2 : |x^2| ≤ 1.13 := by
    rw [abs_pow]
    nlinarith [abs_nonneg x]
  have hsum : |y^2 + y*x + x^2| ≤ 3.39 := by
    calc |y^2 + y*x + x^2| ≤ |y^2 + y*x| + |x^2| := abs_add _ _
      _ ≤ |y^2| + |y*x| + |x^2| := by linarith [abs_add (y^2) (y*x)]
      _ ≤ 3.39 := by norm_num at hy2 hyx hx2 ⊢; linarith
  calc |y - x| * |y^2 + y*x + x^2| ≤ 8.1e-8 * 3.39 :=
        mul_le_mul hd hsum (abs_nonneg _) (by norm_num)
    _ ≤ 2.8e-7 := by norm_num

lemma applyM1inv_diff {v w : RGB}
    (h1 : |v.r - w.r| ≤ 2.8e-7) (h2 : |v.g - w.g| ≤ 2.8e-7)
    (h3 : |v.b - w.b| ≤ 2.8e-7) :
    |(applyM1inv v).r - (applyM1inv w).r| ≤ lutDelta ∧
    |(applyM1inv v).g - (applyM1inv w).g| ≤ lutDelta ∧
    |(applyM1inv v).b - (applyM1inv w).b| ≤ lutDelta := by
  rw [abs_le] at h1 h2 h3
  unfold applyM1inv lutDelta
  dsimp only
  refine ⟨?_, ?_, ?_⟩ <;>
    · rw [abs_le]
      constructor <;> nlinarith [h1.1, h1.2, h2.1, h2.2, h3.1, h3.2]

lemma applyM1inv_applyM1 (v : RGB) : applyM1inv (applyM1 v) = v := by
  obtain ⟨r, g, b⟩ := v
  unfold applyM1inv applyM1
  dsimp only
  simp only [RGB.mk.injEq]
  refine ⟨?_, ?_, ?_⟩ <;> ring


lemma oklab_lin_rt (lin : RGB) (h : validRGB lin) :
    |(applyM1inv ⟨(applyLinv (applyM2 (cbrtRGB (applyM1 lin)))).r ^ 3,
        (applyLinv (applyM2 (cbrtRGB (applyM1 lin)))).g ^ 3,
        (applyLinv (applyM2 (cbrtRGB (applyM1 lin)))).b ^ 3⟩).r - lin.r| ≤ lutDelta ∧
    |(applyM1inv ⟨(applyLinv (applyM2 (cbrtRGB (applyM1 lin)))).r ^ 3,
        (applyLinv (applyM2 (cbrtRGB (applyM1 lin)))).g ^ 3,
        (applyLinv (applyM2 (cbrtRGB (applyM1 lin)))).b ^ 3⟩).g - lin.g| ≤ lutDelta ∧
    |(applyM1inv ⟨(applyLinv (applyM2 (cbrtRGB (applyM1 lin)))).r ^ 3,
        (applyLinv (applyM2 (cbrtRGB (applyM1 lin)))).g ^ 3,
        (applyLinv (applyM2 (cbrtRGB (applyM1 lin)))).b ^ 3⟩).b - lin.b| ≤ lutDelta := by
  obtain ⟨hur, hug, hub⟩ := cbrt_applyM1_bound h
  obtain ⟨e1, e2, e3⟩ := linv_m2_perturb hur hug hub
  have w1 : (cbrtRGB (applyM1 lin)).r ^ (3:ℕ) = (applyM1 lin).r := cbrt_cube _
  have w2 : (cbrtRGB (applyM1 lin)).g ^ (3:ℕ) = (applyM1 lin).g := cbrt_cube _
  have w3 : (cbrtRGB (applyM1 lin)).b ^ (3:ℕ) = (applyM1 lin).b := cbrt_cube _
  have c1 : |(applyLinv (applyM2 (cbrtRGB (applyM1 lin)))).r ^ (3:ℕ)
      - (applyM1 lin).r| ≤ 2.8e-7 := by
    rw [← w1]
    exact cube_perturb hur e1
  have c2 : |(applyLinv (applyM2 (cbrtRGB (applyM1 lin)))).g ^ (3:ℕ)
      - (applyM1 lin).g| ≤ 2.8e-7 := by
    rw [← w2]
    exact cube_perturb hug e2
  have c3 : |(applyLinv (applyM2 (cbrtRGB (applyM1 lin)))).b ^ (3:ℕ)
      - (applyM1 lin).b| ≤ 2.8e-7 := by
    rw [← w3]
    exact cube_perturb hub e3
  have hd := applyM1inv_diff
    (v := ⟨(applyLinv (applyM2 (cbrtRGB (applyM1 lin)))).r ^ 3,
        (applyLinv (applyM2 (cbrtRGB (applyM1 lin)))).g ^ 3,
        (applyLinv (applyM2 (cbrtRGB (applyM1 lin)))).b ^ 3⟩)
    (w := applyM1 lin) c1 c2 c3
  rw [applyM1inv_applyM1] at hd
  exact hd

lemma oklab_chan_bytes {i j k : ℕ} (hi : i ≤ 255) (hj : j ≤ 255) (hk : k ≤ 255) :
    round8RGB (oklabToSrgb (srgbToOklab ⟨(i:ℝ)/255, (j:ℝ)/255, (k:ℝ)/255⟩))
      = ((i:ℤ), (j:ℤ), (k:ℤ)) := by
  have hlin : srgbToLinearRGB ⟨(i:ℝ)/255, (j:ℝ)/255, (k:ℝ)/255⟩
      = ⟨lutF i, lutF j, lutF k⟩ := by
    unfold srgbToLinearRGB
    dsimp only
    rw [srgbToLinearChan_byte hi, srgbToLinearChan_byte hj, srgbToLinearChan_byte hk]
  have hv : validRGB ⟨lutF i, lutF j, lutF k⟩ :=
    ⟨(lutF_mem hi).1, (lutF_mem hi).2, (lutF_mem hj).1, (lutF_mem hj).2,
      (lutF_mem hk).1, (lutF_mem hk).2⟩
  obtain ⟨d1, d2, d3⟩ := oklab_lin_rt ⟨lutF i, lutF j, lutF k⟩ hv
  unfold srgbToOklab oklabToSrgb
  rw [hlin]
  dsimp only
  unfold round8RGB linearToSrgbRGB
  dsimp only
  exact Prod.ext (round8_lut hi d1) (Prod.ext (round8_lut hj d2) (round8_lut hk d3))

lemma oklabInterp_left (a b : RGB) :
    oklabInterp a b 0 = clamp01RGB (oklabToSrgb (srgbToOklab a)) := by
  unfold oklabInterp
  rw [lerpRGB_zero]

lemma oklabInterp_right (a b : RGB) :
    oklabInterp a b 1 = clamp01RGB (oklabToSrgb (srgbToOklab b)) := by
  unfold oklabInterp
  rw [lerpRGB_one]


lemma pymod_one_fract (x : ℝ) : pymod (pymod x 1) 1 = pymod x 1 := by
  simp only [pymod_one, Int.fract_fract]

lemma polar_rt (g b : ℝ) :
    Real.sqrt (g^2 + b^2) * Real.cos (2 * Real.pi * pymod (atan2 b g / (2 * Real.pi)) 1) = g ∧
    Real.sqrt (g^2 + b^2) * Real.sin (2 * Real.pi * pymod (atan2 b g / (2 * Real.pi)) 1) = b := by
  have h2π : (2 * Real.pi) ≠ 0 := by positivity
  have harg : 2 * Real.pi * pymod (atan2 b g / (2 * Real.pi)) 1
      = atan2 b g - (⌊atan2 b g / (2 * Real.pi)⌋ : ℤ) * (2 * Real.pi) := by
    rw [pymod_one]
    unfold Int.fract
    have hc : 2 * Real.pi * (atan2 b g / (2 * Real.pi)) = atan2 b g := by
      field_simp
    rw [mul_sub, hc]
    ring
  rw [harg, Real.cos_sub_int_mul_two_pi, Real.sin_sub_int_mul_two_pi]
  by_cases hz : (⟨g, b⟩ : ℂ) = 0
  · have hg : g = 0 := congrArg Complex.re hz
    have hb : b = 0 := congrArg Complex.im hz
    subst hg
    subst hb
    constructor <;> simp
  · have hS : 0 < g * g + b * b := by
      rcases eq_or_ne g 0 with hg | hg
      · rcases eq_or_ne b 0 with hb | hb
        · exact absurd (Complex.ext hg hb) hz
        · nlinarith [mul_self_pos.mpr hb, mul_self_nonneg g]
      · nlinarith [mul_self_pos.mpr hg, mul_self_nonneg b]
    have habs : Complex.abs ⟨g, b⟩ = Real.sqrt (g^2 + b^2) := by
      rw [Complex.abs_apply, Complex.normSq_mk]
      ring_nf
    have hsqrt_pos : 0 < Real.sqrt (g^2 + b^2) := by
      rw [show g^2 + b^2 = g*g + b*b by ring]
      exact Real.sqrt_pos.mpr hS
    constructor
    · unfold atan2
      rw [Complex.cos_arg hz, habs]
      show Real.sqrt (g^2 + b^2) * (g / Real.sqrt (g^2 + b^2)) = g
      rw [mul_comm, div_mul_cancel₀ _ hsqrt_pos.ne']
    · unfold atan2
      rw [Complex.sin_arg, habs]
      show Real.sqrt (g^2 + b^2) * (b / Real.sqrt (g^2 + b^2)) = b
      rw [mul_comm, div_mul_cancel₀ _ hsqrt_pos.ne']

lemma srgbToOkhsv_hue_fract (c : RGB) :
    Int.fract (srgbToOkhsv c).1 = (srgbToOkhsv c).1 := by
  unfold srgbToOkhsv
  dsimp only
  rw [pymod_one, Int.fract_fract]

lemma okhsvToSrgb_of_okhsv (c : RGB) :
    okhsvToSrgb (srgbToOkhsv c).1 (srgbToOkhsv c).2.1 (srgbToOkhsv c).2.2
      = oklabToSrgb (srgbToOklab c) := by
  unfold okhsvToSrgb srgbToOkhsv
  dsimp only
  obtain ⟨hc, hs⟩ := polar_rt (srgbToOklab c).g (srgbToOklab c).b
  rw [hc, hs]

lemma hue_right (h1 h2 : ℝ) (hh2 : Int.fract h2 = h2) :
    pymod (h1 + (pymod (h2 - h1 + 1/2) 1 - 1/2) * 1) 1 = h2 := by
  rw [mul_one]
  simp only [pymod_one]
  have e1 : h1 + (Int.fract (h2 - h1 + 1/2) - 1/2)
      = (h1 - 1/2 + (h2 - h1 + 1/2)) - (⌊h2 - h1 + 1/2⌋ : ℤ) := by
    unfold Int.fract
    push_cast
    ring
  rw [e1, Int.fract_sub_int]
  rw [show h1 - 1/2 + (h2 - h1 + 1/2) = h2 by ring, hh2]

lemma okhsvInterp_left (a b : RGB) :
    okhsvInterp a b 0 = clamp01RGB (oklabToSrgb (srgbToOklab a)) := by
  unfold okhsvInterp okhsvMixHSV
  dsimp only
  rw [mul_zero, add_zero, mul_zero, add_zero, mul_zero, add_zero]
  have hh : pymod (srgbToOkhsv a).1 1 = (srgbToOkhsv a).1 := by
    rw [pymod_one, srgbToOkhsv_hue_fract]
  rw [hh, okhsvToSrgb_of_okhsv]

lemma okhsvInterp_right (a b : RGB) :
    okhsvInterp a b 1 = clamp01RGB (oklabToSrgb (srgbToOklab b)) := by
  unfold okhsvInterp okhsvMixHSV
  dsimp only
  have hs : (srgbToOkhsv a).2.1 + ((srgbToOkhsv b).2.1 - (srgbToOkhsv a).2.1) * 1
      = (srgbToOkhsv b).2.1 := by ring
  have hv : (srgbToOkhsv a).2.2 + ((srgbToOkhsv b).2.2 - (srgbToOkhsv a).2.2) * 1
      = (srgbToOkhsv b).2.2 := by ring
  have hh : pymod ((srgbToOkhsv a).1 +
      (pymod ((srgbToOkhsv b).1 - (srgbToOkhsv a).1 + 1/2) 1 - 1/2) * 1) 1
      = (srgbToOkhsv b).1 := hue_right _ _ (srgbToOkhsv_hue_fract b)
  rw [hh, hs, hv, okhsvToSrgb_of_okhsv]


lemma linearInterp_bytes_left {i j k : ℕ} (hi : i ≤ 255) (hj : j ≤ 255)
    (hk : k ≤ 255) (b : RGB) :
    round8RGB (linearInterp ⟨(i:ℝ)/255, (j:ℝ)/255, (k:ℝ)/255⟩ b 0)
      = ((i:ℤ), (j:ℤ), (k:ℤ)) := by
  unfold linearInterp
  rw [lerpRGB_zero, round8RGB_clamp01RGB]
  unfold round8RGB linearToSrgbRGB srgbToLinearRGB
  dsimp only
  exact Prod.ext (linear_chan_rt hi) (Prod.ext (linear_chan_rt hj) (linear_chan_rt hk))

lemma linearInterp_bytes_right {i j k : ℕ} (hi : i ≤ 255) (hj : j ≤ 255)
    (hk : k ≤ 255) (a : RGB) :
    round8RGB (linearInterp a ⟨(i:ℝ)/255, (j:ℝ)/255, (k:ℝ)/255⟩ 1)
      = ((i:ℤ), (j:ℤ), (k:ℤ)) := by
  unfold linearInterp
  rw [lerpRGB_one, round8RGB_clamp01RGB]
  unfold round8RGB linearToSrgbRGB srgbToLinearRGB
  dsimp only
  exact Prod.ext (linear_chan_rt hi) (Prod.ext (linear_chan_rt hj) (linear_chan_rt hk))

lemma oklabInterp_bytes_left {i j k : ℕ} (hi : i ≤ 255) (hj : j ≤ 255)
    (hk : k ≤ 255) (b : RGB) :
    round8RGB (oklabInterp ⟨(i:ℝ)/255, (j:ℝ)/255, (k:ℝ)/255⟩ b 0)
      = ((i:ℤ), (j:ℤ), (k:ℤ)) := by
  rw [oklabInterp_left, round8RGB_clamp01RGB]
  exact oklab_chan_bytes hi hj hk

lemma oklabInterp_bytes_right {i j k : ℕ} (hi : i ≤ 255) (hj : j ≤ 255)
    (hk : k ≤ 255) (a : RGB) :
    round8RGB (oklabInterp a ⟨(i:ℝ)/255, (j:ℝ)/255, (k:ℝ)/255⟩ 1)
      = ((i:ℤ), (j:ℤ), (k:ℤ)) := by
  rw [oklabInterp_right, round8RGB_clamp01RGB]
  exact oklab_chan_bytes hi hj hk

lemma okhsvInterp_bytes_left {i j k : ℕ} (hi : i ≤ 255) (hj : j ≤ 255)
    (hk : k ≤ 255) (b : RGB) :
    round8RGB (okhsvInterp ⟨(i:ℝ)/255, (j:ℝ)/255, (k:ℝ)/255⟩ b 0)
      = ((i:ℤ), (j:ℤ), (k:ℤ)) := by
  rw [okhsvInterp_left, round8RGB_clamp01RGB]
  exact oklab_chan_bytes hi hj hk

lemma okhsvInterp_bytes_right {i j k : ℕ} (hi : i ≤ 255) (hj : j ≤ 255)
    (hk : k ≤ 255) (a : RGB) :
    round8RGB (okhsvInterp a ⟨(i:ℝ)/255, (j:ℝ)/255, (k:ℝ)/255⟩ 1)
      = ((i:ℤ), (j:ℤ), (k:ℤ)) := by
  rw [okhsvInterp_right, round8RGB_clamp01RGB]
  exact oklab_chan_bytes hi hj hk

noncomputable section

/-- The `/mix` route (`app.py` lines 240-266): clamp `n` to `[3, 256]`,
look the algorithm up in the registry, parse both hex endpoints, and
build the palette at `t = i/(n-1)`; each failure branch is the
corresponding error response. -/
def mixRoute (env : AppEnv) (d : KMData) (algo aStr bStr : String) (n : ℤ) :
    Except String (List String) :=
  match (INTERPOLATORS env d).lookup algo with
  | none => .error ("unknown algorithm " ++ algo)
  | some f =>
    match hexToRgb01 aStr, hexToRgb01 bStr with
    | some a, some b =>
        match (List.range (max 3 (min n 256)).toNat).mapM
            (fun i : ℕ => (f a b ((i : ℝ) / (((max 3 (min n 256)).toNat : ℝ) - 1))).map
              rgb01ToHex) with
        | some l => .ok l
        | none => .error "interpolation failed"
    | _, _ => .error "hex must be 6 digits RRGGBB"

end


lemma mapM_some_facts {α β : Type} (F : α → Option β) :
    ∀ (xs : List α) (l : List β), xs.mapM F = some l →
      l.length = xs.length ∧ ∀ (i : ℕ) (x : α), xs[i]? = some x → l[i]? = F x := by
  intro xs
  induction xs with
  | nil =>
      intro l h
      rw [List.mapM_nil] at h
      have hl : l = [] := by simpa using h.symm
      subst hl
      refine ⟨rfl, ?_⟩
      intro i x hx
      simp at hx
  | cons a as ih =>
      intro l h
      rw [List.mapM_cons] at h
      rcases hFa : F a with _ | y <;> rw [hFa] at h
      · simp at h
      rcases hAs : as.mapM F with _ | ys <;> rw [hAs] at h
      · simp at h
      have hl : l = y :: ys := by simpa using h.symm
      subst hl
      obtain ⟨hlen, hget⟩ := ih ys hAs
      refine ⟨by simp [hlen], ?_⟩
      intro i x hx
      cases i with
      | zero =>
          rw [List.getElem?_cons_zero] at hx ⊢
          injection hx with hx
          subst hx
          rw [hFa]
      | succ i' =>
          rw [List.getElem?_cons_succ] at hx ⊢
          exact hget i' x hx

lemma lookup_interp_cases {env : AppEnv} {d : KMData} {algo : String}
    {f : RGB → RGB → ℝ → Option RGB}
    (h : (INTERPOLATORS env d).lookup algo = some f) :
    f = (fun a b t => some (srgbInterp a b t)) ∨
    f = (fun a b t => some (linearInterp a b t)) ∨
    f = (fun a b t => some (oklabInterp a b t)) ∨
    f = (fun a b t => some (okhsvInterp a b t)) ∨
    f = (fun a b t => cam16Interp env a b t) ∨
    f = (fun a b t => some (kmMix d a b t)) := by
  simp only [INTERPOLATORS, List.lookup] at h
  repeat' split at h
  all_goals simp_all

/-- **C8.** (the CAM16-UCS collaborator and the spec-modelled KM tables
enter as endpoint hypotheses) For every registry algorithm, parsed hex
endpoints and requested length, the palette the `/mix` route returns has
the clamped length `max 3 (min n 256)`, its first entry is the
canonicalized (8-bit-rounded) hex of endpoint A and its last entry the
canonicalized hex of endpoint B: each interpolator's `t = 0` / `t = 1`
round-trip leaves the rounded 8-bit result unchanged. -/
theorem c8_palette_endpoints (env : AppEnv) (d : KMData) (algo aStr bStr : String)
    (n : ℤ) (a b : RGB) (l : List String)
    (hpa : hexToRgb01 aStr = some a) (hpb : hexToRgb01 bStr = some b)
    (hc0 : cam16Interp env a b 0 = some a) (hc1 : cam16Interp env a b 1 = some b)
    (hla : 0 < luminance d (srgbToR d a)) (hlb : 0 < luminance d (srgbToR d b))
    (hkma : round8RGB (RToSrgb d (srgbToR d a)) = round8RGB a)
    (hkmb : round8RGB (RToSrgb d (srgbToR d b)) = round8RGB b)
    (hl : mixRoute env d algo aStr bStr n = .ok l) :
    l.length = (max 3 (min n 256)).toNat ∧
    l[0]? = some (rgb01ToHex a) ∧
    l.getLast? = some (rgb01ToHex b) := by
  obtain ⟨ia, ja, ka, hia, hja, hba, haeq⟩ := hexToRgb01_bytes hpa
  obtain ⟨ib, jb, kb, hib, hjb, hbb, hbeq⟩ := hexToRgb01_bytes hpb
  have hn3 : 3 ≤ (max 3 (min n 256)).toNat := by
    have h := Int.toNat_le_toNat (le_max_left 3 (min n 256))
    simpa using h
  unfold mixRoute at hl
  rcases hlk : (INTERPOLATORS env d).lookup algo with _ | f <;> rw [hlk] at hl
  · exact Except.noConfusion hl
  rw [hpa, hpb] at hl
  dsimp only at hl
  rcases hm : (List.range (max 3 (min n 256)).toNat).mapM
      (fun i : ℕ => (f a b ((i : ℝ) / (((max 3 (min n 256)).toNat : ℝ) - 1))).map
        rgb01ToHex) with _ | L <;> rw [hm] at hl
  · exact Except.noConfusion hl
  have hLl : L = l := by injection hl
  subst hLl
  obtain ⟨hlen, hget⟩ := mapM_some_facts _ _ _ hm
  rw [List.length_range] at hlen
  have hc3 : (3:ℝ) ≤ ((max 3 (min n 256)).toNat : ℝ) := by exact_mod_cast hn3
  have h0 : L[0]? = (f a b 0).map rgb01ToHex := by
    have h := hget 0 0 (List.getElem?_range (by omega))
    rw [show (((0:ℕ):ℝ) / (((max 3 (min n 256)).toNat : ℝ) - 1)) = 0 by norm_num] at h
    exact h
  have ht1 : ((((max 3 (min n 256)).toNat - 1 : ℕ)):ℝ)
      / (((max 3 (min n 256)).toNat : ℝ) - 1) = 1 := by
    rw [Nat.cast_sub (by omega)]
    push_cast
    rw [div_self (ne_of_gt (by linarith))]
  have h1 : L[(max 3 (min n 256)).toNat - 1]? = (f a b 1).map rgb01ToHex := by
    have h := hget ((max 3 (min n 256)).toNat - 1) ((max 3 (min n 256)).toNat - 1)
      (List.getElem?_range (by omega))
    rw [ht1] at h
    exact h
  have hfirst : (f a b 0).map rgb01ToHex = some (rgb01ToHex a) := by
    rcases lookup_interp_cases hlk with hf | hf | hf | hf | hf | hf <;> subst hf
    · show some (rgb01ToHex (srgbInterp a b 0)) = some (rgb01ToHex a)
      rw [show srgbInterp a b 0 = a from lerpRGB_zero a b]
    · show some (rgb01ToHex (linearInterp a b 0)) = some (rgb01ToHex a)
      rw [rgb01ToHex_congr (show round8RGB (linearInterp a b 0) = round8RGB a from by
        rw [haeq, linearInterp_bytes_left hia hja hba, round8RGB_bytes hia hja hba])]
    · show some (rgb01ToHex (oklabInterp a b 0)) = some (rgb01ToHex a)
      rw [rgb01ToHex_congr (show round8RGB (oklabInterp a b 0) = round8RGB a from by
        rw [haeq, oklabInterp_bytes_left hia hja hba, round8RGB_bytes hia hja hba])]
    · show some (rgb01ToHex (okhsvInterp a b 0)) = some (rgb01ToHex a)
      rw [rgb01ToHex_congr (show round8RGB (okhsvInterp a b 0) = round8RGB a from by
        rw [haeq, okhsvInterp_bytes_left hia hja hba, round8RGB_bytes hia hja hba])]
    · show Option.map rgb01ToHex (cam16Interp env a b 0) = some (rgb01ToHex a)
      rw [hc0]
      rfl
    · show some (rgb01ToHex (kmMix d a b 0)) = some (rgb01ToHex a)
      rw [rgb01ToHex_congr (show round8RGB (kmMix d a b 0) = round8RGB a from by
        rw [kmMix_zero d a b hla.ne']
        exact hkma)]
  have hlastv : (f a b 1).map rgb01ToHex = some (rgb01ToHex b) := by
    rcases lookup_interp_cases hlk with hf | hf | hf | hf | hf | hf <;> subst hf
    · show some (rgb01ToHex (srgbInterp a b 1)) = some (rgb01ToHex b)
      rw [show srgbInterp a b 1 = b from lerpRGB_one a b]
    · show some (rgb01ToHex (linearInterp a b 1)) = some (rgb01ToHex b)
      rw [rgb01ToHex_congr (show round8RGB (linearInterp a b 1) = round8RGB b from by
        rw [hbeq, linearInterp_bytes_right hib hjb hbb, round8RGB_bytes hib hjb hbb])]
    · show some (rgb01ToHex (oklabInterp a b 1)) = some (rgb01ToHex b)
      rw [rgb01ToHex_congr (show round8RGB (oklabInterp a b 1) = round8RGB b from by
        rw [hbeq, oklabInterp_bytes_right hib hjb hbb, round8RGB_bytes hib hjb hbb])]
    · show some (rgb01ToHex (okhsvInterp a b 1)) = some (rgb01ToHex b)
      rw [rgb01ToHex_congr (show round8RGB (okhsvInterp a b 1) = round8RGB b from by
        rw [hbeq, okhsvInterp_bytes_right hib hjb hbb, round8RGB_bytes hib hjb hbb])]
    · show Option.map rgb01ToHex (cam16Interp env a b 1) = some (rgb01ToHex b)
      rw [hc1]
      rfl
    · show some (rgb01ToHex (kmMix d a b 1)) = some (rgb01ToHex b)
      rw [rgb01ToHex_congr (show round8RGB (kmMix d a b 1) = round8RGB b from by
        rw [kmMix_one d a b hlb.ne']
        exact hkmb)]
  refine ⟨hlen, ?_, ?_⟩
  · rw [h0]
    exact hfirst
  · rw [List.getLast?_eq_getElem?, hlen, h1]
    exact hlastv


noncomputable section

/-- Concrete collaborator for the C8 witness: always black. -/
def appEnvW : AppEnv := ⟨fun _ _ _ => "#000000"⟩

end

lemma hexBlack : hexToRgb01 "#000000" = some ⟨0, 0, 0⟩ := by
  have h : hexToRgb01 "#000000"
      = some ⟨((0:ℕ):ℝ)/255, ((0:ℕ):ℝ)/255, ((0:ℕ):ℝ)/255⟩ := rfl
  rw [h]
  norm_num

lemma round8_zero : round8 (0:ℝ) = 0 := by
  apply round8_eq_of_bounds (n := 0) le_rfl zero_le_one <;> norm_num

lemma rgb01ToHex_black : rgb01ToHex ⟨0, 0, 0⟩ = "#000000" := by
  unfold rgb01ToHex
  show "#" ++ byteToHex (round8 (0:ℝ)).toNat ++ byteToHex (round8 (0:ℝ)).toNat
      ++ byteToHex (round8 (0:ℝ)).toNat = "#000000"
  rw [round8_zero]
  rfl

lemma srgbInterp_black (t : ℝ) : srgbInterp ⟨0, 0, 0⟩ ⟨0, 0, 0⟩ t = ⟨0, 0, 0⟩ := by
  unfold srgbInterp lerpRGB lerpChan
  simp

lemma mixRouteW : mixRoute appEnvW kmDataW "srgb" "#000000" "#000000" 3
    = .ok ["#000000", "#000000", "#000000"] := by
  unfold mixRoute
  rw [show (INTERPOLATORS appEnvW kmDataW).lookup "srgb"
      = some (fun a b t => some (srgbInterp a b t)) from rfl]
  rw [hexBlack]
  dsimp only
  rw [show ((max 3 (min (3:ℤ) 256)).toNat) = 3 from rfl]
  rw [show List.range 3 = [0, 1, 2] from rfl]
  simp only [List.mapM_cons, List.mapM_nil, Option.bind_eq_bind, Option.some_bind,
    srgbInterp_black, rgb01ToHex_black, Option.map_some', Option.pure_def]

/-- Witness for C8: black endpoints, the `srgb` mixer and `n = 3`. -/
theorem c8_witness :
    (["#000000", "#000000", "#000000"] : List String).length
      = (max 3 (min (3:ℤ) 256)).toNat ∧
    (["#000000", "#000000", "#000000"] : List String)[0]?
      = some (rgb01ToHex ⟨0, 0, 0⟩) ∧
    (["#000000", "#000000", "#000000"] : List String).getLast?
      = some (rgb01ToHex ⟨0, 0, 0⟩) :=
  c8_palette_endpoints appEnvW kmDataW "srgb" "#000000" "#000000" 3 ⟨0, 0, 0⟩ ⟨0, 0, 0⟩
    ["#000000", "#000000", "#000000"] hexBlack hexBlack hexBlack hexBlack
    kmW_lum kmW_lum kmW_rt kmW_rt mixRouteW
